import Mathlib

/-!
# EFS mount-target data source and CodePipeline pipeline resource

A shallow embedding of `internal/service/efs/mount_target_data_source.go` and of the
behaviour exercised by `internal/service/codepipeline/codepipeline_test.go`.

The vendor API is an explicit value: every call a handler issues goes through it and is
recorded in a call log, so that statements about which calls are made, in which order and
with which arguments are statements about the embedding itself.

The file `codepipeline_test.go` holds the acceptance tests of the `aws_codepipeline` resource,
not its handlers. The fixtures and the expectations of the tests are embedded as they are
written; the handlers, the plan and the vendor are modelled, and each such definition says so.
-/

namespace Provider

/-! ## Go and SDK values shared by the handlers -/

/-- A Go `error` as far as the handler can observe it: the text of `Error()` and whether
`tfresource.NotFound` holds of it. -/
structure Error where
  msg : String
  notFound : Bool
deriving DecidableEq, Repr

/-- The SDK helper `aws.StringValue`: a nil pointer reads as the empty string. -/
def StringValue : Option String → String
  | some s => s
  | none => ""

/-- The SDK helper `aws.StringValueSlice`: `aws.StringValue` applied entry by entry. -/
def StringValueSlice (l : List (Option String)) : List String :=
  l.map StringValue

/-- The SDK type `arn.ARN`. -/
structure ARN where
  Partition : String
  Service : String
  Region : String
  AccountID : String
  Resource : String
deriving DecidableEq, Repr

/-- The SDK method `arn.ARN.String`: the six colon-separated sections. -/
def ARN.String (a : ARN) : String :=
  "arn:" ++ a.Partition ++ ":" ++ a.Service ++ ":" ++ a.Region ++ ":" ++ a.AccountID ++ ":" ++
    a.Resource

/-! ## Diagnostics -/

/-- Severity of a `diag.Diagnostic`. -/
inductive Severity where
  | Error
  | Warning
deriving DecidableEq, Repr

/-- One `diag.Diagnostic`. -/
structure Diagnostic where
  severity : Severity
  summary : String
  detail : String
deriving DecidableEq, Repr

/-- The type `diag.Diagnostics`. -/
abbrev Diagnostics := List Diagnostic

/-- The method `diag.Diagnostics.HasError`. -/
def HasError (diags : Diagnostics) : Bool :=
  diags.any (fun g => g.severity == Severity.Error)

/-- The helper `sdkdiag.AppendErrorf` of `internal/errs/sdkdiag`, applied to the message that
`fmt.Sprintf` builds from its format and arguments: one error diagnostic with that message as
summary is appended. -/
def AppendErrorf (diags : Diagnostics) (message : String) : Diagnostics :=
  diags ++ [{ severity := Severity.Error, summary := message, detail := "" }]

end Provider

namespace EFS
open Provider

/-! ## Request and response types -/

/-- The request type `efs.DescribeMountTargetsInput` (the three filters the handler sets). -/
structure DescribeMountTargetsInput where
  AccessPointId : Option String := none
  FileSystemId : Option String := none
  MountTargetId : Option String := none
deriving DecidableEq, Repr

/-- The response type `efs.MountTargetDescription` (the fields the handler reads). -/
structure MountTargetDescription where
  AvailabilityZoneId : Option String
  AvailabilityZoneName : Option String
  FileSystemId : Option String
  IpAddress : Option String
  MountTargetId : Option String
  NetworkInterfaceId : Option String
  OwnerId : Option String
  SubnetId : Option String
deriving DecidableEq, Repr

/-- The request type `efs.DescribeMountTargetSecurityGroupsInput`. -/
structure DescribeMountTargetSecurityGroupsInput where
  MountTargetId : Option String
deriving DecidableEq, Repr

/-- The response type `efs.DescribeMountTargetSecurityGroupsOutput`. -/
structure DescribeMountTargetSecurityGroupsOutput where
  SecurityGroups : List (Option String)
deriving DecidableEq, Repr

/-! ## The schema of the data source -/

/-- The SDK type `schema.ValueType`, as far as the schema of the data source uses it. -/
inductive ValueType where
  | TypeString
  | TypeSet
deriving DecidableEq, Repr

/-- The SDK type `schema.Schema`, with the fields the schema of the data source sets. A field
the source does not write has its zero value. -/
structure Schema where
  Type_ : ValueType
  Optional : Bool := false
  Required : Bool := false
  Computed : Bool := false
  Elem : Option ValueType := none
deriving DecidableEq, Repr

/-- Lines 24-80 of `DataSourceMountTarget`: the schema map of the data source. The Go map is a
list of entries in the order of the source. -/
def dataSourceMountTargetSchema : List (String × Schema) := [
    ("access_point_id", { Type_ := ValueType.TypeString, Optional := true }),
    ("availability_zone_id", { Type_ := ValueType.TypeString, Computed := true }),
    ("availability_zone_name", { Type_ := ValueType.TypeString, Computed := true }),
    ("dns_name", { Type_ := ValueType.TypeString, Computed := true }),
    ("file_system_arn", { Type_ := ValueType.TypeString, Computed := true }),
    ("file_system_id", { Type_ := ValueType.TypeString, Optional := true, Computed := true }),
    ("ip_address", { Type_ := ValueType.TypeString, Computed := true }),
    ("mount_target_id", { Type_ := ValueType.TypeString, Optional := true, Computed := true }),
    ("mount_target_dns_name", { Type_ := ValueType.TypeString, Computed := true }),
    ("network_interface_id", { Type_ := ValueType.TypeString, Computed := true }),
    ("owner_id", { Type_ := ValueType.TypeString, Computed := true }),
    ("security_groups", { Type_ := ValueType.TypeSet, Elem := some ValueType.TypeString,
                          Computed := true }),
    ("subnet_id", { Type_ := ValueType.TypeString, Computed := true })]

/-! ## Resource data -/

/-- A value of an attribute: what a handler hands to `d.Set`, which is a string, a string
pointer or a slice of strings, or what the data holds for an attribute of type
`schema.TypeSet`, which is a set of strings. -/
inductive Value where
  | str (s : String)
  | ptr (p : Option String)
  | strs (l : List String)
  | set (s : Finset String)
deriving DecidableEq

/-- The part of `schema.ResourceData` the handler touches: the ID and the attribute values.
`written` records the keys handed to `d.Set`, oldest first, so that which attributes a handler
writes can be stated. -/
structure ResourceData where
  id : String
  attrs : List (String × Value)
  written : List String := []
deriving DecidableEq

/-- Attribute lookup. -/
def ResourceData.Get (d : ResourceData) (key : String) : Option Value :=
  d.attrs.lookup key

/-- The method `d.GetOk` on a string attribute: the value, and whether it is set to something
other than the zero value. -/
def ResourceData.GetOk (d : ResourceData) (key : String) : String × Bool :=
  match d.Get key with
  | some (Value.str s) => (s, s != "")
  | some (Value.ptr p) => (StringValue p, StringValue p != "")
  | _ => ("", false)

/-- The method `d.SetId`. -/
def ResourceData.SetId (d : ResourceData) (v : String) : ResourceData :=
  { d with id := v }

/-- The method `d.Id`. -/
def ResourceData.Id (d : ResourceData) : String :=
  d.id

/-- What `d.Set` stores for a value handed to it: a slice handed to an attribute that the
schema of the data source declares of type `schema.TypeSet` is stored as a set, with one
element for each distinct entry and no order; every other value is stored as it is. -/
def storedValue (key : String) : Value → Value
  | Value.strs l =>
    match (dataSourceMountTargetSchema.lookup key).map (fun sch => sch.Type_) with
    | some ValueType.TypeSet => Value.set l.toFinset
    | _ => Value.strs l
  | v => v

/-- The method `d.Set`: the attribute takes the new value, as `storedValue` gives it, and every
other attribute keeps its own. -/
def ResourceData.Set (d : ResourceData) (key : String) (v : Value) : ResourceData :=
  { d with attrs := (key, storedValue key v) :: d.attrs.filter (fun kv => kv.1 != key),
           written := d.written ++ [key] }

/-! ## Client and API connection -/

/-- The provider client `conns.AWSClient` as the handler uses it. `RegionalHostname` is a method
of the client that lives outside this file; it is kept abstract. -/
structure AWSClient where
  AccountID : String
  Partition : String
  Region : String
  RegionalHostname : String → String

/-- The EFS API as seen from the handler: the package-level finder `findMountTarget` and the
SDK call `DescribeMountTargetSecurityGroupsWithContext`. -/
structure Conn where
  findMountTarget : DescribeMountTargetsInput → Except Error MountTargetDescription
  DescribeMountTargetSecurityGroups :
    DescribeMountTargetSecurityGroupsInput → Except Error DescribeMountTargetSecurityGroupsOutput

/-- One API call issued by the handler, with its request. -/
inductive Call where
  | findMountTarget (input : DescribeMountTargetsInput)
  | DescribeMountTargetSecurityGroups (input : DescribeMountTargetSecurityGroupsInput)
deriving DecidableEq, Repr

/-- What one invocation of the handler leaves behind: the diagnostics it returns, the resource
data after it, and the API calls it issued, oldest first. -/
structure ReadResult where
  diags : Diagnostics
  d : ResourceData
  calls : List Call
deriving DecidableEq

/-! ## The handler -/

/-- Lines 88-100 of `dataSourceMountTargetRead`: the `DescribeMountTargetsInput` built from the
three optional filters. -/
def describeMountTargetsInput (d : ResourceData) : DescribeMountTargetsInput :=
  let input : DescribeMountTargetsInput := {}
  let input :=
    match d.GetOk "access_point_id" with
    | (v, true) => { input with AccessPointId := some v }
    | _ => input
  let input :=
    match d.GetOk "file_system_id" with
    | (v, true) => { input with FileSystemId := some v }
    | _ => input
  let input :=
    match d.GetOk "mount_target_id" with
    | (v, true) => { input with MountTargetId := some v }
    | _ => input
  input

/-- Lines 108-127 of `dataSourceMountTargetRead`: the ID and the eleven attributes written from
the mount target that was found. -/
def setMountTargetAttributes (c : AWSClient) (d : ResourceData) (mt : MountTargetDescription) :
    ResourceData :=
  let d := d.SetId (StringValue mt.MountTargetId)
  let fsID := StringValue mt.FileSystemId
  let fsARN := ARN.String
    { AccountID := c.AccountID
      Partition := c.Partition
      Region := c.Region
      Resource := "file-system/" ++ fsID
      Service := "elasticfilesystem" }
  let d := d.Set "availability_zone_id" (Value.ptr mt.AvailabilityZoneId)
  let d := d.Set "availability_zone_name" (Value.ptr mt.AvailabilityZoneName)
  let d := d.Set "dns_name" (Value.str (c.RegionalHostname (fsID ++ ".efs")))
  let d := d.Set "file_system_arn" (Value.str fsARN)
  let d := d.Set "file_system_id" (Value.str fsID)
  let d := d.Set "ip_address" (Value.ptr mt.IpAddress)
  let d := d.Set "mount_target_dns_name" (Value.str (c.RegionalHostname
    (StringValue mt.AvailabilityZoneName ++ "." ++ StringValue mt.FileSystemId ++ ".efs")))
  let d := d.Set "mount_target_id" (Value.ptr mt.MountTargetId)
  let d := d.Set "network_interface_id" (Value.ptr mt.NetworkInterfaceId)
  let d := d.Set "owner_id" (Value.ptr mt.OwnerId)
  let d := d.Set "subnet_id" (Value.ptr mt.SubnetId)
  d

/-- The handler `dataSourceMountTargetRead`. -/
def dataSourceMountTargetRead (c : AWSClient) (conn : Conn) (d : ResourceData) : ReadResult :=
  let diags : Diagnostics := []
  let input := describeMountTargetsInput d
  let calls := [Call.findMountTarget input]
  match conn.findMountTarget input with
  | Except.error err =>
    { diags := AppendErrorf diags ("reading EFS Mount Target: " ++ err.msg), d := d, calls := calls }
  | Except.ok mt =>
    let d := setMountTargetAttributes c d mt
    let sgInput : DescribeMountTargetSecurityGroupsInput := { MountTargetId := some d.Id }
    let calls := calls ++ [Call.DescribeMountTargetSecurityGroups sgInput]
    match conn.DescribeMountTargetSecurityGroups sgInput with
    | Except.error err =>
      { diags := AppendErrorf diags
          ("reading EFS Mount Target (" ++ d.Id ++ ") security groups: " ++ err.msg),
        d := d, calls := calls }
    | Except.ok output =>
      let d := d.Set "security_groups" (Value.strs (StringValueSlice output.SecurityGroups))
      { diags := diags, d := d, calls := calls }

/-! ## Call counting -/

/-- Number of `findMountTarget` calls in a call log. -/
def lookupCalls (calls : List Call) : Nat :=
  (calls.filter (fun c => match c with | Call.findMountTarget _ => true | _ => false)).length

/-- Number of `DescribeMountTargetSecurityGroups` calls in a call log. -/
def securityGroupCalls (calls : List Call) : Nat :=
  (calls.filter (fun c =>
    match c with | Call.DescribeMountTargetSecurityGroups _ => true | _ => false)).length

/-- Whether an API call returned without error. -/
def succeeded {α : Type} : Except Error α → Bool
  | Except.ok _ => true
  | Except.error _ => false

/-! ## Sample inputs -/

/-- A client in `us-west-2` whose regional hostname appends the region and the AWS DNS suffix. -/
def sampleClient : AWSClient :=
  { AccountID := "123456789012", Partition := "aws", Region := "us-west-2",
    RegionalHostname := fun p => p ++ ".us-west-2.amazonaws.com" }

/-- A data source configured with a mount-target ID only. -/
def sampleData : ResourceData :=
  { id := "", attrs := [("mount_target_id", Value.str "fsmt-1")] }

/-- A mount target as the lookup returns it. -/
def sampleMountTarget : MountTargetDescription :=
  { AvailabilityZoneId := some "usw2-az1", AvailabilityZoneName := some "us-west-2a",
    FileSystemId := some "fs-1", IpAddress := some "10.0.0.5", MountTargetId := some "fsmt-1",
    NetworkInterfaceId := some "eni-1", OwnerId := some "123456789012",
    SubnetId := some "subnet-1" }

/-- An API on which both calls succeed. -/
def sampleConn : Conn :=
  { findMountTarget := fun _ => Except.ok sampleMountTarget,
    DescribeMountTargetSecurityGroups := fun _ =>
      Except.ok { SecurityGroups := [some "sg-1", none, some "sg-2"] } }

/-- An API on which the lookup fails with an access error. -/
def lookupDeniedConn : Conn :=
  { findMountTarget := fun _ => Except.error { msg := "AccessDenied", notFound := false },
    DescribeMountTargetSecurityGroups := fun _ => Except.ok { SecurityGroups := [] } }

/-- An API on which the lookup reports not-found. -/
def lookupNotFoundConn : Conn :=
  { findMountTarget := fun _ =>
      Except.error { msg := "empty result", notFound := true },
    DescribeMountTargetSecurityGroups := fun _ => Except.ok { SecurityGroups := [] } }

/-- An API on which the lookup succeeds and the security-groups call fails. -/
def securityGroupsDeniedConn : Conn :=
  { findMountTarget := fun _ => Except.ok sampleMountTarget,
    DescribeMountTargetSecurityGroups := fun _ =>
      Except.error { msg := "AccessDenied", notFound := false } }

/-! ## The request in the words of the specification -/

/-- The value of a string attribute when it is set to a non-empty string, none otherwise. -/
def nonEmptyString (d : ResourceData) (key : String) : Option String :=
  match d.Get key with
  | some (Value.str s) => if s = "" then none else some s
  | some (Value.ptr (some s)) => if s = "" then none else some s
  | _ => none

/-- The `DescribeMountTargets` request as the specification words it: each of the three filters
is the attribute of the same name when that is set to a non-empty string, and absent
otherwise. -/
def describeMountTargetsInputSpec (d : ResourceData) : DescribeMountTargetsInput :=
  { AccessPointId := nonEmptyString d "access_point_id"
    FileSystemId := nonEmptyString d "file_system_id"
    MountTargetId := nonEmptyString d "mount_target_id" }

/-- A data source configured with a file system and an empty mount-target ID. -/
def sampleFilterData : ResourceData :=
  { id := "", attrs := [("file_system_id", Value.str "fs-1"), ("mount_target_id", Value.str "")] }

/-- A data source with no filter configured. -/
def sampleEmptyData : ResourceData :=
  { id := "", attrs := [] }

/-- A mount target without an availability-zone name. -/
def sampleMountTargetNoZone : MountTargetDescription :=
  { sampleMountTarget with AvailabilityZoneName := none }

/-- An API that finds the mount target without a zone name. -/
def noZoneConn : Conn :=
  { findMountTarget := fun _ => Except.ok sampleMountTargetNoZone,
    DescribeMountTargetSecurityGroups := fun _ => Except.ok { SecurityGroups := [] } }

/-! ## The resource of the data source -/

/-- The SDK type `schema.Resource`, with the two fields `DataSourceMountTarget` sets. The Go
map `Schema` is a list of entries in the order of the source. -/
structure Resource where
  ReadWithoutTimeout : AWSClient → Conn → ResourceData → ReadResult
  Schema : List (String × Schema)

/-- The function `DataSourceMountTarget` (lines 20-82). -/
def DataSourceMountTarget : Resource :=
  { ReadWithoutTimeout := dataSourceMountTargetRead
    Schema := dataSourceMountTargetSchema }

/-- The keys of a resource schema. -/
def schemaKeys (r : Resource) : List String :=
  r.Schema.map Prod.fst

/-- The keys a resource schema declares `Computed`. -/
def computedKeys (r : Resource) : List String :=
  (r.Schema.filter (fun kv => kv.2.Computed)).map Prod.fst

/-- The keys a resource schema does not declare `Computed`. -/
def notComputedKeys (r : Resource) : List String :=
  (r.Schema.filter (fun kv => !kv.2.Computed)).map Prod.fst

/-- The keys a resource schema declares `Required`. -/
def requiredKeys (r : Resource) : List String :=
  (r.Schema.filter (fun kv => kv.2.Required)).map Prod.fst

/-- The keys handed to `d.Set` between two values of the resource data, oldest first. -/
def writtenBy (before after : ResourceData) : List String :=
  after.written.drop before.written.length

/-- The string a string attribute reads as: `d.Get(key).(string)`. -/
def ResourceData.GetString (d : ResourceData) (key : String) : String :=
  (d.GetOk key).1

/-- A data source configured with a file system and a mount target other than the ones the
sample lookup returns. -/
def sampleOtherData : ResourceData :=
  { id := "", attrs := [("file_system_id", Value.str "fs-other"),
      ("mount_target_id", Value.str "fsmt-other"),
      ("security_groups", Value.set {"sg-old"})] }

/-- A mount target without an ID. -/
def sampleMountTargetNoID : MountTargetDescription :=
  { sampleMountTarget with MountTargetId := none }

/-- An API that finds the mount target without an ID. -/
def noIDConn : Conn :=
  { findMountTarget := fun _ => Except.ok sampleMountTargetNoID,
    DescribeMountTargetSecurityGroups := fun _ => Except.ok { SecurityGroups := [] } }

/-- An API whose security-groups output names the same ID twice. -/
def repeatedGroupConn : Conn :=
  { findMountTarget := fun _ => Except.ok sampleMountTarget,
    DescribeMountTargetSecurityGroups := fun _ =>
      Except.ok { SecurityGroups := [some "sg-1", some "sg-1"] } }

end EFS

namespace CodePipeline
open Provider

/-! ## Vendor types (`types` of the CodePipeline SDK) -/

/-- The SDK type `types.EncryptionKey`. -/
structure EncryptionKey where
  Id : String
  Type_ : String
deriving DecidableEq, Repr

/-- One artifact store of a declaration: location, type, optional encryption key and the
optional region it overrides. -/
structure ArtifactStore where
  Location : String
  Type_ : String
  EncryptionKey : Option EncryptionKey
  Region : Option String
deriving DecidableEq, Repr

/-- The SDK type `types.ActionDeclaration`. -/
structure ActionDeclaration where
  Name : String
  Category : String
  Owner : String
  Provider : String
  Version : String
  InputArtifacts : List String
  OutputArtifacts : List String
  Configuration : List (String × String)
  RunOrder : Option Nat
  Region : Option String
  Namespace : Option String
  RoleArn : Option String
deriving DecidableEq, Repr

/-- The SDK type `types.StageDeclaration`. -/
structure StageDeclaration where
  Name : String
  Actions : List ActionDeclaration
deriving DecidableEq, Repr

/-- The SDK type `types.PipelineVariableDeclaration`. -/
structure PipelineVariableDeclaration where
  Name : String
  Description : String
  DefaultValue : String
deriving DecidableEq, Repr

/-- The SDK type `types.PipelineDeclaration`, the value `testAccCheckPipelineExists` stores. -/
structure PipelineDeclaration where
  Name : String
  RoleArn : String
  ArtifactStores : List ArtifactStore
  Stages : List StageDeclaration
  ExecutionMode : String
  PipelineType : String
  Variables : List PipelineVariableDeclaration
deriving DecidableEq, Repr

/-- The SDK type `codepipeline.GetPipelineOutput`: the declaration and the ARN of its
metadata. -/
structure GetPipelineOutput where
  Pipeline : PipelineDeclaration
  PipelineArn : String
deriving DecidableEq, Repr

/-! ## Configuration and state of `aws_codepipeline` -/

/-- A tags map, as a list of key and value. -/
abbrev Tags := List (String × String)

/-- An `encryption_key` block. -/
structure EncryptionKeyBlock where
  id : String
  type : String
deriving DecidableEq, Repr

/-- An `artifact_store` block; `region` is the empty string when the block names none. -/
structure ArtifactStoreBlock where
  location : String
  type : String
  encryption_key : Option EncryptionKeyBlock := none
  region : String := ""
deriving DecidableEq, Repr

/-- An `action` block. An omitted string attribute is the empty string and an omitted
`run_order` is zero, the zero values the plugin SDK reads for them. -/
structure ActionBlock where
  name : String
  category : String
  owner : String
  provider : String
  version : String
  input_artifacts : List String := []
  output_artifacts : List String := []
  configuration : List (String × String) := []
  run_order : Nat := 0
  region : String := ""
  namespace_ : String := ""
  role_arn : String := ""
deriving DecidableEq, Repr

/-- A `stage` block. -/
structure StageBlock where
  name : String
  action : List ActionBlock
deriving DecidableEq, Repr

/-- A `variable` block. -/
structure VariableBlock where
  name : String
  description : String
  default_value : String
deriving DecidableEq, Repr

/-- The attributes of an `aws_codepipeline` resource, used both for the desired configuration
and for the recorded state. `id` and `arn` are set by the provider only; an empty `id` is a
resource that is not in state. -/
structure PipelineResource where
  id : String := ""
  arn : String := ""
  name : String
  role_arn : String
  artifact_store : List ArtifactStoreBlock
  stage : List StageBlock
  execution_mode : String := ""
  pipeline_type : String := ""
  variable_ : List VariableBlock := []
  tags : Tags := []
deriving DecidableEq, Repr

/-! ## The vendor -/

/-- One pipeline as the vendor holds it: its ARN, its declaration and its tags. -/
structure StoredPipeline where
  arn : String
  declaration : PipelineDeclaration
  tags : Tags
deriving DecidableEq, Repr

/-- Modelled from the spec: the vendor control plane behind `CreatePipeline`, `GetPipeline`,
`UpdatePipeline`, `DeletePipeline`, `TagResource` and `UntagResource` is an external
collaborator that is not part of this repository. It is a store of named pipelines; `secretMask`
is what it returns in place of a stored `OAuthToken`, which it never reveals (the tests leave
that key out of every import verification). -/
structure Vendor where
  pipelines : List StoredPipeline
  secretMask : String
deriving DecidableEq, Repr

/-- The provider client: partition, region and account of the credentials in use. -/
structure Client where
  Partition : String
  Region : String
  AccountID : String
deriving DecidableEq, Repr

/-- The ARN the vendor gives the pipeline of a name. -/
def pipelineARN (c : Client) (name : String) : String :=
  ARN.String { Partition := c.Partition, Service := "codepipeline", Region := c.Region,
               AccountID := c.AccountID, Resource := name }

/-- The error of a call that names a pipeline the vendor does not hold. -/
def pipelineNotFound (name : String) : Error :=
  { msg := "PipelineNotFoundException: pipeline " ++ name ++ " does not exist", notFound := true }

/-- The error of a call that names an ARN the vendor does not hold. -/
def resourceNotFound (arn : String) : Error :=
  { msg := "ResourceNotFoundException: " ++ arn ++ " does not exist", notFound := true }

/-- The error of `CreatePipeline` on a name that is taken. -/
def pipelineNameInUse (name : String) : Error :=
  { msg := "PipelineNameInUseException: pipeline " ++ name ++ " already exists",
    notFound := false }

/-- The stored pipeline of a name, if any. -/
def Vendor.find (v : Vendor) (name : String) : Option StoredPipeline :=
  v.pipelines.find? (fun p => p.declaration.Name == name)

/-- The stored pipeline of an ARN, if any. -/
def Vendor.findARN (v : Vendor) (arn : String) : Option StoredPipeline :=
  v.pipelines.find? (fun p => p.arn == arn)

/-- A configuration map with the value of its `OAuthToken` entry, if it has one, replaced. -/
def setOAuthToken (value : String) (cfg : List (String × String)) : List (String × String) :=
  cfg.map (fun kv => if kv.1 == "OAuthToken" then (kv.1, value) else kv)

/-- Modelled from the spec: the configuration of an action as the vendor returns it: a stored
`OAuthToken` is replaced by the mask. -/
def maskConfiguration (mask : String) (cfg : List (String × String)) : List (String × String) :=
  setOAuthToken mask cfg

/-- Modelled from the spec: a declaration as the vendor returns it. -/
def maskDeclaration (mask : String) (p : PipelineDeclaration) : PipelineDeclaration :=
  { p with Stages := p.Stages.map (fun s =>
      { s with Actions := s.Actions.map (fun a =>
          { a with Configuration := maskConfiguration mask a.Configuration }) }) }

/-- Modelled from the spec: the call `CreatePipeline` of the vendor: the declaration and the
tags are stored under the name. -/
def Vendor.CreatePipeline (v : Vendor) (c : Client) (p : PipelineDeclaration) (tags : Tags) :
    Except Error Vendor :=
  match v.find p.Name with
  | some _ => Except.error (pipelineNameInUse p.Name)
  | none =>
    Except.ok { v with pipelines :=
      v.pipelines ++ [{ arn := pipelineARN c p.Name, declaration := p, tags := tags }] }

/-- Modelled from the spec: the call `GetPipeline` of the vendor. -/
def Vendor.GetPipeline (v : Vendor) (name : String) : Except Error GetPipelineOutput :=
  match v.find name with
  | none => Except.error (pipelineNotFound name)
  | some p =>
    Except.ok { Pipeline := maskDeclaration v.secretMask p.declaration, PipelineArn := p.arn }

/-- Modelled from the spec: the call `UpdatePipeline` of the vendor, which takes the whole
declaration, not a diff: the stored declaration of that name is replaced as a whole by the one
in the request; ARN and tags stay. -/
def Vendor.UpdatePipeline (v : Vendor) (p : PipelineDeclaration) : Except Error Vendor :=
  match v.find p.Name with
  | none => Except.error (pipelineNotFound p.Name)
  | some _ =>
    Except.ok { v with pipelines := v.pipelines.map (fun q =>
      if q.declaration.Name == p.Name then { q with declaration := p } else q) }

/-- Modelled from the spec: the call `DeletePipeline` of the vendor. -/
def Vendor.DeletePipeline (v : Vendor) (name : String) : Except Error Vendor :=
  match v.find name with
  | none => Except.error (pipelineNotFound name)
  | some _ =>
    Except.ok { v with pipelines := v.pipelines.filter (fun q => q.declaration.Name != name) }

/-- Modelled from the spec: the call `ListTagsForResource` of the vendor. -/
def Vendor.ListTagsForResource (v : Vendor) (arn : String) : Except Error Tags :=
  match v.findARN arn with
  | none => Except.error (resourceNotFound arn)
  | some p => Except.ok p.tags

/-- Tags after `TagResource`: the given keys take the given values, the others stay. -/
def mergeTags (tags new : Tags) : Tags :=
  new ++ tags.filter (fun kv => (new.lookup kv.1).isNone)

/-- Tags after `UntagResource`: the given keys are gone, the others stay. -/
def removeTags (tags : Tags) (keys : List String) : Tags :=
  tags.filter (fun kv => !(keys.contains kv.1))

/-- The vendor after the tags of the pipeline of an ARN went through `g`; nothing else
changes. -/
def Vendor.retag (v : Vendor) (arn : String) (g : Tags → Tags) : Vendor :=
  { v with pipelines := v.pipelines.map (fun q =>
      if q.arn == arn then { q with tags := g q.tags } else q) }

/-- Modelled from the spec: the call `TagResource` of the vendor on an ARN. -/
def Vendor.TagResource (v : Vendor) (arn : String) (new : Tags) : Except Error Vendor :=
  match v.findARN arn with
  | none => Except.error (resourceNotFound arn)
  | some _ => Except.ok (v.retag arn (fun tags => mergeTags tags new))

/-- Modelled from the spec: the call `UntagResource` of the vendor on an ARN. -/
def Vendor.UntagResource (v : Vendor) (arn : String) (keys : List String) :
    Except Error Vendor :=
  match v.findARN arn with
  | none => Except.error (resourceNotFound arn)
  | some _ => Except.ok (v.retag arn (fun tags => removeTags tags keys))

/-- One call to the vendor, with its request. -/
inductive Call where
  | CreatePipeline (p : PipelineDeclaration) (tags : Tags)
  | GetPipeline (name : String)
  | UpdatePipeline (p : PipelineDeclaration)
  | DeletePipeline (name : String)
  | ListTagsForResource (arn : String)
  | TagResource (arn : String) (tags : Tags)
  | UntagResource (arn : String) (keys : List String)
deriving DecidableEq, Repr

/-! ## The handlers of `aws_codepipeline` -/

/-- A string attribute as an optional request field: the zero value is left out. -/
def optionalString (s : String) : Option String :=
  if s == "" then none else some s

/-- Modelled from the spec: the mapping of `input_artifacts` and `output_artifacts` to the
declaration, part of the handlers of `aws_codepipeline`, which are not in this file. The spec
calls the mapping attribute copying; `TestAccCodePipeline_emptyStageArtifacts` fixes that an
empty name is not copied (two configured names of which one is empty read back as one). -/
def expandArtifacts (names : List String) : List String :=
  names.filter (fun n => n != "")

/-- Modelled from the spec: an `action` block mapped to an `ActionDeclaration`, field by field;
the optional attributes are left out when they have their zero value. -/
def expandActionDeclaration (a : ActionBlock) : ActionDeclaration :=
  { Name := a.name
    Category := a.category
    Owner := a.owner
    Provider := a.provider
    Version := a.version
    InputArtifacts := expandArtifacts a.input_artifacts
    OutputArtifacts := expandArtifacts a.output_artifacts
    Configuration := a.configuration
    RunOrder := if a.run_order == 0 then none else some a.run_order
    Region := optionalString a.region
    Namespace := optionalString a.namespace_
    RoleArn := optionalString a.role_arn }

/-- Modelled from the spec: a `stage` block mapped to a `StageDeclaration`, actions in
configured order. -/
def expandStageDeclaration (s : StageBlock) : StageDeclaration :=
  { Name := s.name, Actions := s.action.map expandActionDeclaration }

/-- Modelled from the spec: an `artifact_store` block mapped to an `ArtifactStore`. -/
def expandArtifactStore (b : ArtifactStoreBlock) : ArtifactStore :=
  { Location := b.location
    Type_ := b.type
    EncryptionKey := b.encryption_key.map (fun k => { Id := k.id, Type_ := k.type })
    Region := optionalString b.region }

/-- Modelled from the spec: a `variable` block mapped to a `PipelineVariableDeclaration`. -/
def expandVariableDeclaration (b : VariableBlock) : PipelineVariableDeclaration :=
  { Name := b.name, Description := b.description, DefaultValue := b.default_value }

/-- Modelled from the spec: the complete `PipelineDeclaration` of a desired configuration, the
request body of both `CreatePipeline` and `UpdatePipeline` (the vendor API takes the whole
declaration, not a diff). It is a function of the desired attributes alone. -/
def expandPipelineDeclaration (d : PipelineResource) : PipelineDeclaration :=
  { Name := d.name
    RoleArn := d.role_arn
    ArtifactStores := d.artifact_store.map expandArtifactStore
    Stages := d.stage.map expandStageDeclaration
    ExecutionMode := d.execution_mode
    PipelineType := d.pipeline_type
    Variables := d.variable_.map expandVariableDeclaration }

/-- The value of `stage.i.action.j.configuration.OAuthToken` in resource data, the empty
string when there is none. -/
def priorOAuthToken (d : PipelineResource) (i j : Nat) : String :=
  match d.stage.get? i with
  | none => ""
  | some s =>
    match s.action.get? j with
    | none => ""
    | some a => (a.configuration.lookup "OAuthToken").getD ""

/-- Modelled from the spec: an `ActionDeclaration` read back into an `action` block. An absent
run order reads as 1 and an absent region, namespace or role ARN as the empty string (the
values `TestAccCodePipeline_basic` expects for a configuration that omits them). For a
`GitHub` action the `OAuthToken` the vendor returns is replaced by the one already in the
resource data (the value `TestAccCodePipeline_withGitHubV1SourceAction` expects). -/
def flattenActionDeclaration (d : PipelineResource) (i j : Nat) (a : ActionDeclaration) :
    ActionBlock :=
  { name := a.Name
    category := a.Category
    owner := a.Owner
    provider := a.Provider
    version := a.Version
    input_artifacts := a.InputArtifacts
    output_artifacts := a.OutputArtifacts
    configuration :=
      if a.Provider == "GitHub" then setOAuthToken (priorOAuthToken d i j) a.Configuration
      else a.Configuration
    run_order := a.RunOrder.getD 1
    region := a.Region.getD ""
    namespace_ := a.Namespace.getD ""
    role_arn := a.RoleArn.getD "" }

/-- Modelled from the spec: the actions of stage `i` read back, from index `j` on. -/
def flattenActionDeclarations (d : PipelineResource) (i : Nat) :
    Nat → List ActionDeclaration → List ActionBlock
  | _, [] => []
  | j, a :: rest => flattenActionDeclaration d i j a :: flattenActionDeclarations d i (j + 1) rest

/-- Modelled from the spec: the stages read back, from index `i` on. -/
def flattenStageDeclarations (d : PipelineResource) :
    Nat → List StageDeclaration → List StageBlock
  | _, [] => []
  | i, s :: rest =>
    { name := s.Name, action := flattenActionDeclarations d i 0 s.Actions } ::
      flattenStageDeclarations d (i + 1) rest

/-- Modelled from the spec: an `ArtifactStore` read back into an `artifact_store` block. -/
def flattenArtifactStore (a : ArtifactStore) : ArtifactStoreBlock :=
  { location := a.Location
    type := a.Type_
    encryption_key := a.EncryptionKey.map (fun k => { id := k.Id, type := k.Type_ })
    region := a.Region.getD "" }

/-- Modelled from the spec: a `PipelineVariableDeclaration` read back into a `variable`
block. -/
def flattenVariableDeclaration (v : PipelineVariableDeclaration) : VariableBlock :=
  { name := v.Name, description := v.Description, default_value := v.DefaultValue }

/-- What one invocation of a handler leaves behind: the diagnostics it returns, the resource
data after it, the vendor after it and the calls it issued, oldest first. -/
structure Outcome where
  diags : Diagnostics
  d : PipelineResource
  vendor : Vendor
  calls : List Call
deriving DecidableEq, Repr

/-- Modelled from the spec: the read handler of `aws_codepipeline`, which is not in this file.
Not-found on read maps to "resource removed externally": the ID is cleared, which drops the
resource from state, and no error is returned. Every other error is returned. Otherwise all
attributes are read back from the declaration and from the tags of the ARN. -/
def resourcePipelineRead (v : Vendor) (d : PipelineResource) : Outcome :=
  match v.GetPipeline d.id with
  | Except.error err =>
    if err.notFound then
      { diags := [], d := { d with id := "" }, vendor := v, calls := [Call.GetPipeline d.id] }
    else
      { diags := AppendErrorf [] ("reading CodePipeline Pipeline (" ++ d.id ++ "): " ++ err.msg),
        d := d, vendor := v, calls := [Call.GetPipeline d.id] }
  | Except.ok output =>
    let calls := [Call.GetPipeline d.id, Call.ListTagsForResource output.PipelineArn]
    match v.ListTagsForResource output.PipelineArn with
    | Except.error err =>
      { diags := AppendErrorf []
          ("listing tags for CodePipeline Pipeline (" ++ output.PipelineArn ++ "): " ++ err.msg),
        d := d, vendor := v, calls := calls }
    | Except.ok tags =>
      let p := output.Pipeline
      { diags := []
        d :=
          { id := d.id
            arn := output.PipelineArn
            name := p.Name
            role_arn := p.RoleArn
            artifact_store := p.ArtifactStores.map flattenArtifactStore
            stage := flattenStageDeclarations d 0 p.Stages
            execution_mode := p.ExecutionMode
            pipeline_type := p.PipelineType
            variable_ := p.Variables.map flattenVariableDeclaration
            tags := tags }
        vendor := v
        calls := calls }

/-- Modelled from the spec: the create handler of `aws_codepipeline`, which is not in this
file: one `CreatePipeline` with the complete declaration and the tags, then a read. -/
def resourcePipelineCreate (c : Client) (v : Vendor) (d : PipelineResource) : Outcome :=
  let pipeline := expandPipelineDeclaration d
  match v.CreatePipeline c pipeline d.tags with
  | Except.error err =>
    { diags := AppendErrorf [] ("creating CodePipeline Pipeline (" ++ d.name ++ "): " ++ err.msg),
      d := d, vendor := v, calls := [Call.CreatePipeline pipeline d.tags] }
  | Except.ok v1 =>
    let r := resourcePipelineRead v1 { d with id := pipeline.Name }
    { r with calls := Call.CreatePipeline pipeline d.tags :: r.calls }

/-- Modelled from the spec: the change test of the update handler, which is not in this file:
whether two sets of attributes differ in anything but `id`, `arn` and `tags`. -/
def declarationChanged (old d : PipelineResource) : Bool :=
  old.name != d.name || old.role_arn != d.role_arn || old.artifact_store != d.artifact_store ||
    old.stage != d.stage || old.execution_mode != d.execution_mode ||
    old.pipeline_type != d.pipeline_type || old.variable_ != d.variable_

/-- Modelled from the spec: the keys the tag update removes, those of the old tags that the new
tags no longer have. -/
def removedTagKeys (oldTags newTags : Tags) : List String :=
  (oldTags.map Prod.fst).filter (fun k => (newTags.lookup k).isNone)

/-- Modelled from the spec: the tags the tag update sends, the new tags whose key the old tags
do not have with the same value; the value of a key in a tags map is the one `lookup`
finds. -/
def updatedTags (oldTags newTags : Tags) : Tags :=
  newTags.filter (fun kv => oldTags.lookup kv.1 != newTags.lookup kv.1)

/-- Modelled from the spec: the tag update of the provider, which is not in this file. Tag
changes are issued as separate untag and tag calls against the resource ARN; no declaration
is taken or sent. -/
def updateTags (v : Vendor) (arn : String) (oldTags newTags : Tags) :
    Except Error Vendor × List Call :=
  let removed := removedTagKeys oldTags newTags
  let updated := updatedTags oldTags newTags
  let step1 : Except Error Vendor × List Call :=
    if removed.isEmpty then (Except.ok v, [])
    else (v.UntagResource arn removed, [Call.UntagResource arn removed])
  match step1 with
  | (Except.error err, calls) => (Except.error err, calls)
  | (Except.ok v1, calls) =>
    if updated.isEmpty then (Except.ok v1, calls)
    else (v1.TagResource arn updated, calls ++ [Call.TagResource arn updated])

/-- Modelled from the spec: the update handler of `aws_codepipeline`, which is not in this
file. When anything but the tags changed, one `UpdatePipeline` carries the complete desired
declaration; tag changes go through `updateTags`; a read ends the update. -/
def resourcePipelineUpdate (v : Vendor) (old d : PipelineResource) : Outcome :=
  let pipeline := expandPipelineDeclaration d
  let step1 : Except Error Vendor × List Call :=
    if declarationChanged old d then (v.UpdatePipeline pipeline, [Call.UpdatePipeline pipeline])
    else (Except.ok v, [])
  match step1 with
  | (Except.error err, calls) =>
    { diags := AppendErrorf [] ("updating CodePipeline Pipeline (" ++ d.id ++ "): " ++ err.msg),
      d := d, vendor := v, calls := calls }
  | (Except.ok v1, calls1) =>
    match updateTags v1 d.arn old.tags d.tags with
    | (Except.error err, calls2) =>
      { diags := AppendErrorf []
          ("updating tags for CodePipeline Pipeline (" ++ d.arn ++ "): " ++ err.msg),
        d := d, vendor := v1, calls := calls1 ++ calls2 }
    | (Except.ok v2, calls2) =>
      let r := resourcePipelineRead v2 d
      { r with calls := calls1 ++ calls2 ++ r.calls }

/-- Modelled from the spec: the delete handler of `aws_codepipeline`, which is not in this
file: one `DeletePipeline`; a pipeline that is already gone is no error. -/
def resourcePipelineDelete (v : Vendor) (d : PipelineResource) : Outcome :=
  match v.DeletePipeline d.id with
  | Except.error err =>
    if err.notFound then
      { diags := [], d := { d with id := "" }, vendor := v, calls := [Call.DeletePipeline d.id] }
    else
      { diags := AppendErrorf [] ("deleting CodePipeline Pipeline (" ++ d.id ++ "): " ++ err.msg),
        d := d, vendor := v, calls := [Call.DeletePipeline d.id] }
  | Except.ok v1 =>
    { diags := [], d := { d with id := "" }, vendor := v1, calls := [Call.DeletePipeline d.id] }

/-- Modelled from the spec: state import of `aws_codepipeline` by name, which is not in this
file: the name becomes the ID of otherwise empty resource data, and a read fills it. -/
def resourcePipelineImport (v : Vendor) (name : String) : Outcome :=
  resourcePipelineRead v
    { id := name, name := "", role_arn := "", artifact_store := [], stage := [] }

/-! ## The declarative engine -/

/-- Modelled from the spec: the comparison of two tags maps by the engine, whether they give
every key the same value. -/
def sameTags (a b : Tags) : Bool :=
  a.all (fun kv => b.lookup kv.1 == a.lookup kv.1) &&
    b.all (fun kv => a.lookup kv.1 == b.lookup kv.1)

/-- Modelled from the spec: the state the engine records from resource data: none when the ID is
empty. -/
def recorded (d : PipelineResource) : Option PipelineResource :=
  if d.id == "" then none else some d

/-- Modelled from the spec: the defaults of the two pipeline-level optional attributes in the
schema of `aws_codepipeline`, which is not in this file. The spec names no default; the values
are the ones `TestAccCodePipeline_basic` and `TestAccCodePipeline_pipelinetype` read back for a
configuration that omits the attribute: `SUPERSEDED` for `execution_mode` and `V1` for
`pipeline_type`. -/
def applyDefaults (cfg : PipelineResource) : PipelineResource :=
  { cfg with
    execution_mode := if cfg.execution_mode == "" then "SUPERSEDED" else cfg.execution_mode
    pipeline_type := if cfg.pipeline_type == "" then "V1" else cfg.pipeline_type }

/-- Modelled from the spec: the planned value of an action, the work of the engine, which is an
external collaborator: `run_order` and `region` are optional and computed, so a configuration
that omits them keeps what the state has for the action at the same place. -/
def plannedAction (cfg : ActionBlock) (st : Option ActionBlock) : ActionBlock :=
  match st with
  | none => cfg
  | some a =>
    { cfg with
      run_order := if cfg.run_order == 0 then a.run_order else cfg.run_order
      region := if cfg.region == "" then a.region else cfg.region }

/-- Modelled from the spec: the planned actions of a stage, place by place. -/
def plannedActions : List ActionBlock → List ActionBlock → List ActionBlock
  | [], _ => []
  | a :: rest, [] => plannedAction a none :: plannedActions rest []
  | a :: rest, b :: st => plannedAction a (some b) :: plannedActions rest st

/-- Modelled from the spec: the planned stages, place by place. -/
def plannedStages : List StageBlock → List StageBlock → List StageBlock
  | [], _ => []
  | s :: rest, [] => { s with action := plannedActions s.action [] } :: plannedStages rest []
  | s :: rest, t :: st =>
    { s with action := plannedActions s.action t.action } :: plannedStages rest st

/-- Modelled from the spec: the desired attributes the engine hands to the update handler, from
a configuration and the recorded state: defaults applied, computed attributes kept, `id` and
`arn` taken from the state. The engine is an external collaborator. -/
def planned (cfg st : PipelineResource) : PipelineResource :=
  { applyDefaults cfg with
    id := st.id
    arn := st.arn
    stage := plannedStages cfg.stage st.stage }

/-- What a plan proposes for the resource. -/
inductive PlanAction where
  | NoOp
  | Create
  | Update
  | Replace
  | Delete
deriving DecidableEq, Repr

/-- Modelled from the spec: the plan of the engine for one `aws_codepipeline` resource, from its
configuration and its recorded state, either of which may be absent. A resource that is in
the configuration and not in state is created; a change of `name` cannot be made in place;
any other difference is an update. -/
def plan (config state : Option PipelineResource) : PlanAction :=
  match config, state with
  | none, none => PlanAction.NoOp
  | none, some _ => PlanAction.Delete
  | some _, none => PlanAction.Create
  | some cfg, some st =>
    if cfg.name != st.name then PlanAction.Replace
    else if !declarationChanged st (planned cfg st) && sameTags cfg.tags st.tags then
      PlanAction.NoOp
    else PlanAction.Update

/-- Modelled from the spec: one apply of the engine, which runs the handlers the plan calls
for. With nothing to do the state stays as it is. -/
def applyPlan (c : Client) (v : Vendor) (config state : Option PipelineResource) : Outcome :=
  match config, state with
  | none, none =>
    { diags := [], d := { name := "", role_arn := "", artifact_store := [], stage := [] },
      vendor := v, calls := [] }
  | none, some st => resourcePipelineDelete v st
  | some cfg, none => resourcePipelineCreate c v (applyDefaults cfg)
  | some cfg, some st =>
    if cfg.name != st.name then
      let r := resourcePipelineDelete v st
      if HasError r.diags then r
      else
        let r2 := resourcePipelineCreate c r.vendor (applyDefaults cfg)
        { r2 with calls := r.calls ++ r2.calls }
    else if !declarationChanged st (planned cfg st) && sameTags cfg.tags st.tags then
      { diags := [], d := st, vendor := v, calls := [] }
    else resourcePipelineUpdate v st (planned cfg st)

/-! ## The fixtures of `codepipeline_test.go`

Each fixture is the `aws_codepipeline` block of the configuration the function of the same name
returns. Attributes that refer to other resources of the configuration are taken from
`References`. -/

/-- The values of the attributes of other resources that the fixtures refer to:
`aws_iam_role.codepipeline_role.arn`, `aws_iam_role.codepipeline_action_role.arn` and
`aws_codestarconnections_connection.test.arn`. -/
structure References where
  codepipeline_role_arn : String
  codepipeline_action_role_arn : String
  connection_arn : String
deriving DecidableEq, Repr

/-- The `bucket` attribute of the `aws_s3_bucket` that `testAccS3Bucket` declares. -/
def testAccS3Bucket_bucket (bucket rName : String) : String :=
  "tf-test-pipeline-" ++ bucket ++ "-" ++ rName

/-- The fixture `testAccCodePipelineConfig_basic`. -/
def testAccCodePipelineConfig_basic (refs : References) (rName : String) :
    PipelineResource :=
  { name := "test-pipeline-" ++ rName
    role_arn := refs.codepipeline_role_arn
    artifact_store :=
      [{ location := testAccS3Bucket_bucket "test" rName, type := "S3",
         encryption_key := some { id := "1234", type := "KMS" } }]
    stage := [
      { name := "Source"
        action := [
        { name := "Source"
          category := "Source"
          owner := "AWS"
          provider := "CodeStarSourceConnection"
          version := "1"
          output_artifacts := ["test"]
          configuration := [("ConnectionArn", refs.connection_arn),
            ("FullRepositoryId", "lifesum-terraform/test"), ("BranchName", "main")] }] },
      { name := "Build"
        action := [
        { name := "Build"
          category := "Build"
          owner := "AWS"
          provider := "CodeBuild"
          version := "1"
          input_artifacts := ["test"]
          configuration := [("ProjectName", "test")] }] }] }

/-- The fixture `testAccCodePipelineConfig_basicUpdated`. -/
def testAccCodePipelineConfig_basicUpdated (refs : References) (rName : String) :
    PipelineResource :=
  { name := "test-pipeline-" ++ rName
    role_arn := refs.codepipeline_role_arn
    artifact_store :=
      [{ location := testAccS3Bucket_bucket "updated" rName, type := "S3",
         encryption_key := some { id := "4567", type := "KMS" } }]
    stage := [
      { name := "Source"
        action := [
        { name := "Source"
          category := "Source"
          owner := "AWS"
          provider := "CodeStarSourceConnection"
          version := "1"
          output_artifacts := ["artifacts"]
          configuration := [("ConnectionArn", refs.connection_arn),
            ("FullRepositoryId", "test-terraform/test-repo"), ("BranchName", "stable")] }] },
      { name := "Build"
        action := [
        { name := "Build"
          category := "Build"
          owner := "AWS"
          provider := "CodeBuild"
          version := "1"
          input_artifacts := ["artifacts"]
          configuration := [("ProjectName", "test")] }] }] }

/-- The fixture `testAccCodePipelineConfig_pipelinetype`. -/
def testAccCodePipelineConfig_pipelinetype (refs : References) (rName : String) :
    PipelineResource :=
  { name := "test-pipeline-" ++ rName
    role_arn := refs.codepipeline_role_arn
    artifact_store :=
      [{ location := testAccS3Bucket_bucket "test" rName, type := "S3",
         encryption_key := some { id := "1234", type := "KMS" } }]
    stage := [
      { name := "Source"
        action := [
        { name := "Source"
          category := "Source"
          owner := "AWS"
          provider := "CodeStarSourceConnection"
          version := "1"
          output_artifacts := ["test"]
          configuration := [("ConnectionArn", refs.connection_arn),
            ("FullRepositoryId", "lifesum-terraform/test"), ("BranchName", "main")] }] },
      { name := "Build"
        action := [
        { name := "Build"
          category := "Build"
          owner := "AWS"
          provider := "CodeBuild"
          version := "1"
          input_artifacts := ["test"]
          configuration := [("ProjectName", "test")] }] }]
    pipeline_type := "V1" }

/-- The fixture `testAccCodePipelineConfig_pipelinetypeUpdated`. -/
def testAccCodePipelineConfig_pipelinetypeUpdated (refs : References) (rName : String) :
    PipelineResource :=
  { name := "test-pipeline-" ++ rName
    role_arn := refs.codepipeline_role_arn
    artifact_store :=
      [{ location := testAccS3Bucket_bucket "updated" rName, type := "S3",
         encryption_key := some { id := "4567", type := "KMS" } }]
    stage := [
      { name := "Source"
        action := [
        { name := "Source"
          category := "Source"
          owner := "AWS"
          provider := "CodeStarSourceConnection"
          version := "1"
          output_artifacts := ["artifacts"]
          configuration := [("ConnectionArn", refs.connection_arn),
            ("FullRepositoryId", "test-terraform/test-repo"), ("BranchName", "stable")] }] },
      { name := "Build"
        action := [
        { name := "Build"
          category := "Build"
          owner := "AWS"
          provider := "CodeBuild"
          version := "1"
          input_artifacts := ["artifacts"]
          configuration := [("ProjectName", "test")] }] }]
    execution_mode := "QUEUED"
    pipeline_type := "V2"
    variable_ := [
      { name := "test_var1", description := "This is test pipeline variable 1.",
        default_value := "value1" },
      { name := "test_var2", description := "This is test pipeline variable 2.",
        default_value := "value2" }] }

/-- The fixture `testAccCodePipelineConfig_emptyStageArtifacts`. -/
def testAccCodePipelineConfig_emptyStageArtifacts (refs : References) (rName : String) :
    PipelineResource :=
  { name := "test-pipeline-" ++ rName
    role_arn := refs.codepipeline_role_arn
    artifact_store :=
      [{ location := testAccS3Bucket_bucket "test" rName, type := "S3" }]
    stage := [
      { name := "Source"
        action := [
        { name := "Source"
          category := "Source"
          owner := "AWS"
          provider := "CodeStarSourceConnection"
          version := "1"
          output_artifacts := ["test"]
          configuration := [("ConnectionArn", refs.connection_arn),
            ("FullRepositoryId", "lifesum-terraform/test"), ("BranchName", "main")] }] },
      { name := "Build"
        action := [
        { name := "Build"
          category := "Build"
          owner := "AWS"
          provider := "CodeBuild"
          version := "1"
          input_artifacts := ["test", ""]
          output_artifacts := [""]
          configuration := [("ProjectName", "test")] }] }] }

/-- The fixture `testAccCodePipelineConfig_tags1`. -/
def testAccCodePipelineConfig_tags1 (refs : References) (rName tagKey1 tagValue1 : String) :
    PipelineResource :=
  { name := "test-pipeline-" ++ rName
    role_arn := refs.codepipeline_role_arn
    artifact_store :=
      [{ location := testAccS3Bucket_bucket "test" rName, type := "S3",
         encryption_key := some { id := "1234", type := "KMS" } }]
    stage := [
      { name := "Source"
        action := [
        { name := "Source"
          category := "Source"
          owner := "AWS"
          provider := "CodeStarSourceConnection"
          version := "1"
          output_artifacts := ["test"]
          configuration := [("ConnectionArn", refs.connection_arn),
            ("FullRepositoryId", "lifesum-terraform/test"), ("BranchName", "main")] }] },
      { name := "Build"
        action := [
        { name := "Build"
          category := "Build"
          owner := "AWS"
          provider := "CodeBuild"
          version := "1"
          input_artifacts := ["test"]
          configuration := [("ProjectName", "test")] }] }]
    tags := [(tagKey1, tagValue1)] }

/-- The fixture `testAccCodePipelineConfig_tags2`. -/
def testAccCodePipelineConfig_tags2 (refs : References) (rName tagKey1 tagValue1 tagKey2 tagValue2 : String) :
    PipelineResource :=
  { name := "test-pipeline-" ++ rName
    role_arn := refs.codepipeline_role_arn
    artifact_store :=
      [{ location := testAccS3Bucket_bucket "test" rName, type := "S3",
         encryption_key := some { id := "1234", type := "KMS" } }]
    stage := [
      { name := "Source"
        action := [
        { name := "Source"
          category := "Source"
          owner := "AWS"
          provider := "CodeStarSourceConnection"
          version := "1"
          output_artifacts := ["test"]
          configuration := [("ConnectionArn", refs.connection_arn),
            ("FullRepositoryId", "lifesum-terraform/test"), ("BranchName", "main")] }] },
      { name := "Build"
        action := [
        { name := "Build"
          category := "Build"
          owner := "AWS"
          provider := "CodeBuild"
          version := "1"
          input_artifacts := ["test"]
          configuration := [("ProjectName", "test")] }] }]
    tags := [(tagKey1, tagValue1), (tagKey2, tagValue2)] }

/-- The fixture `testAccCodePipelineConfig_gitHubv1SourceAction`. -/
def testAccCodePipelineConfig_gitHubv1SourceAction (refs : References) (rName githubToken : String) :
    PipelineResource :=
  { name := "test-pipeline-" ++ rName
    role_arn := refs.codepipeline_role_arn
    artifact_store :=
      [{ location := testAccS3Bucket_bucket "test" rName, type := "S3",
         encryption_key := some { id := "1234", type := "KMS" } }]
    stage := [
      { name := "Source"
        action := [
        { name := "Source"
          category := "Source"
          owner := "ThirdParty"
          provider := "GitHub"
          version := "1"
          output_artifacts := ["test"]
          configuration := [("Owner", "lifesum-terraform"), ("Repo", "test"), ("Branch", "main"),
            ("OAuthToken", githubToken)] }] },
      { name := "Build"
        action := [
        { name := "Build"
          category := "Build"
          owner := "AWS"
          provider := "CodeBuild"
          version := "1"
          input_artifacts := ["test"]
          configuration := [("ProjectName", "test")] }] }] }

/-- The fixture `testAccCodePipelineConfig_gitHubv1SourceActionUpdated`. -/
def testAccCodePipelineConfig_gitHubv1SourceActionUpdated (refs : References)
    (rName githubToken : String) :
    PipelineResource :=
  { name := "test-pipeline-" ++ rName
    role_arn := refs.codepipeline_role_arn
    artifact_store :=
      [{ location := testAccS3Bucket_bucket "test" rName, type := "S3",
         encryption_key := some { id := "1234", type := "KMS" } }]
    stage := [
      { name := "Source"
        action := [
        { name := "Source"
          category := "Source"
          owner := "ThirdParty"
          provider := "GitHub"
          version := "1"
          output_artifacts := ["artifacts"]
          configuration := [("Owner", "test-terraform"), ("Repo", "test-repo"), ("Branch", "stable"),
            ("OAuthToken", githubToken)] }] },
      { name := "Build"
        action := [
        { name := "Build"
          category := "Build"
          owner := "AWS"
          provider := "CodeBuild"
          version := "1"
          input_artifacts := ["artifacts"]
          configuration := [("ProjectName", "test")] }] }] }

/-- The fixture `testAccCodePipelineConfig_multiregion`; `region` and `alternateRegion` are the
values of `acctest.Region()` and `acctest.AlternateRegion()`. -/
def testAccCodePipelineConfig_multiregion (refs : References)
    (rName region alternateRegion : String) : PipelineResource :=
  { name := "test-pipeline-" ++ rName
    role_arn := refs.codepipeline_role_arn
    artifact_store :=
      [{ location := testAccS3Bucket_bucket "test" rName, type := "S3",
         encryption_key := some { id := "1234", type := "KMS" }, region := region },
       { location := testAccS3Bucket_bucket "alternate" rName, type := "S3",
         encryption_key := some { id := "5678", type := "KMS" }, region := alternateRegion }]
    stage := [
      { name := "Source"
        action := [
        { name := "Source"
          category := "Source"
          owner := "AWS"
          provider := "CodeStarSourceConnection"
          version := "1"
          output_artifacts := ["test"]
          configuration := [("ConnectionArn", refs.connection_arn),
            ("FullRepositoryId", "lifesum-terraform/test"), ("BranchName", "main")] }] },
      { name := "Build"
        action := [
        { region := region
          name := "Build"
          category := "Build"
          owner := "AWS"
          provider := "CodeBuild"
          input_artifacts := ["test"]
          version := "1"
          configuration := [("ProjectName", "Test")] },
        { region := alternateRegion
          name := alternateRegion ++ "-Build"
          category := "Build"
          owner := "AWS"
          provider := "CodeBuild"
          input_artifacts := ["test"]
          version := "1"
          configuration := [("ProjectName", alternateRegion ++ "-Test")] }] }] }

/-- The fixture `testAccCodePipelineConfig_multiregionUpdated`. -/
def testAccCodePipelineConfig_multiregionUpdated (refs : References)
    (rName region alternateRegion : String) : PipelineResource :=
  { name := "test-pipeline-" ++ rName
    role_arn := refs.codepipeline_role_arn
    artifact_store :=
      [{ location := testAccS3Bucket_bucket "test" rName, type := "S3",
         encryption_key := some { id := "4321", type := "KMS" }, region := region },
       { location := testAccS3Bucket_bucket "alternate" rName, type := "S3",
         encryption_key := some { id := "8765", type := "KMS" }, region := alternateRegion }]
    stage := [
      { name := "Source"
        action := [
        { name := "Source"
          category := "Source"
          owner := "AWS"
          provider := "CodeStarSourceConnection"
          version := "1"
          output_artifacts := ["test"]
          configuration := [("ConnectionArn", refs.connection_arn),
            ("FullRepositoryId", "lifesum-terraform/test"), ("BranchName", "main")] }] },
      { name := "Build"
        action := [
        { region := region
          name := "BuildUpdated"
          category := "Build"
          owner := "AWS"
          provider := "CodeBuild"
          input_artifacts := ["test"]
          version := "1"
          configuration := [("ProjectName", "Test")] },
        { region := alternateRegion
          name := alternateRegion ++ "-BuildUpdated"
          category := "Build"
          owner := "AWS"
          provider := "CodeBuild"
          input_artifacts := ["test"]
          version := "1"
          configuration := [("ProjectName", alternateRegion ++ "-Test")] }] }] }

/-- The fixture `testAccCodePipelineConfig_backToBasic`: the block of
`testAccCodePipelineConfig_basic`, composed with the configuration of the alternate-region
provider. -/
def testAccCodePipelineConfig_backToBasic (refs : References) (rName : String) :
    PipelineResource :=
  testAccCodePipelineConfig_basic refs rName

/-- The fixture `testAccCodePipelineConfig_deployServiceRole`. -/
def testAccCodePipelineConfig_deployServiceRole (refs : References) (rName : String) :
    PipelineResource :=
  { name := "test-pipeline-" ++ rName
    role_arn := refs.codepipeline_role_arn
    artifact_store :=
      [{ location := testAccS3Bucket_bucket "test" rName, type := "S3",
         encryption_key := some { id := "4567", type := "KMS" } }]
    stage := [
      { name := "Source"
        action := [
        { name := "Source"
          category := "Source"
          owner := "AWS"
          provider := "CodeStarSourceConnection"
          version := "1"
          output_artifacts := ["artifacts"]
          configuration := [("ConnectionArn", refs.connection_arn),
            ("FullRepositoryId", "lifesum-terraform/test"), ("BranchName", "main")] }] },
      { name := "Build"
        action := [
        { name := "Build"
          category := "Build"
          owner := "AWS"
          provider := "CodeBuild"
          input_artifacts := ["artifacts"]
          output_artifacts := ["artifacts2"]
          version := "1"
          configuration := [("ProjectName", "test")] }] },
      { name := "Deploy"
        action := [
        { name := "CreateChangeSet"
          category := "Deploy"
          owner := "AWS"
          provider := "CloudFormation"
          input_artifacts := ["artifacts2"]
          role_arn := refs.codepipeline_action_role_arn
          version := "1"
          configuration := [("ActionMode", "CHANGE_SET_REPLACE"), ("ChangeSetName", "changeset"),
            ("StackName", "stack"), ("TemplatePath", "artifacts2::template.yaml")] }] }] }

/-- The fixture `testAccCodePipelineConfig_namespace`; its bucket is `aws_s3_bucket.foo`. -/
def testAccCodePipelineConfig_namespace (refs : References) (rName : String) :
    PipelineResource :=
  { name := "test-pipeline-" ++ rName
    role_arn := refs.codepipeline_role_arn
    artifact_store :=
      [{ location := "tf-test-pipeline-" ++ rName, type := "S3",
         encryption_key := some { id := "1234", type := "KMS" } }]
    stage := [
      { name := "Source"
        action := [
        { name := "Source"
          category := "Source"
          owner := "AWS"
          provider := "CodeStarSourceConnection"
          version := "1"
          output_artifacts := ["test"]
          namespace_ := "SourceVariables"
          configuration := [("ConnectionArn", refs.connection_arn),
            ("FullRepositoryId", "lifesum-terraform/test"), ("BranchName", "main")] }] },
      { name := "Build"
        action := [
        { name := "Build"
          category := "Build"
          owner := "AWS"
          provider := "CodeBuild"
          input_artifacts := ["test"]
          version := "1"
          configuration := [("ProjectName", "test")] }] }] }

/-- The fixture `testAccCodePipelineConfig_ecr`. -/
def testAccCodePipelineConfig_ecr (refs : References) (rName : String) : PipelineResource :=
  { name := "test-pipeline-" ++ rName
    role_arn := refs.codepipeline_role_arn
    artifact_store :=
      [{ location := testAccS3Bucket_bucket "test" rName, type := "S3",
         encryption_key := some { id := "1234", type := "KMS" } }]
    stage := [
      { name := "Source"
        action := [
        { name := "Source"
          category := "Source"
          owner := "AWS"
          provider := "ECR"
          version := "1"
          output_artifacts := ["test"]
          configuration := [("RepositoryName", "my-image-repo"), ("ImageTag", "latest")] }] },
      { name := "Build"
        action := [
        { name := "Build"
          category := "Build"
          owner := "AWS"
          provider := "CodeBuild"
          input_artifacts := ["test"]
          version := "1"
          configuration := [("ProjectName", "test")] }] }] }

/-! ## Sample environment -/

/-- A client in `us-west-2`. -/
def testClient : Client :=
  { Partition := "aws", Region := "us-west-2", AccountID := "123456789012" }

/-- A vendor that holds no pipeline. -/
def emptyVendor : Vendor :=
  { pipelines := [], secretMask := "****" }

/-- Resolved references of a test run. -/
def sampleRefs : References :=
  { codepipeline_role_arn := "arn:aws:iam::123456789012:role/codepipeline-role-abc"
    codepipeline_action_role_arn := "arn:aws:iam::123456789012:role/codepipeline-action-role-abc"
    connection_arn := "arn:aws:codestar-connections:us-west-2:123456789012:connection/c1" }

/-! ## Projections used in the statements -/

/-- The names of the stages, each with the names of its actions, in order. -/
def stageNames (l : List StageBlock) : List (String × List String) :=
  l.map (fun s => (s.name, s.action.map (fun a => a.name)))

/-- The input and output artifact names of every action, stage by stage, in order. -/
def stageArtifacts (l : List StageBlock) : List (List (List String × List String)) :=
  l.map (fun s => s.action.map (fun a => (a.input_artifacts, a.output_artifacts)))

/-- A configuration map without its `OAuthToken` entry. -/
def withoutTokenEntry (cfg : List (String × String)) : List (String × String) :=
  cfg.filter (fun kv => kv.1 != "OAuthToken")

/-- An action without the `OAuthToken` entry of its configuration. -/
def ActionBlock.withoutOAuthToken (a : ActionBlock) : ActionBlock :=
  { a with configuration := withoutTokenEntry a.configuration }

/-- A stage without the `OAuthToken` entries of its actions. -/
def StageBlock.withoutOAuthToken (s : StageBlock) : StageBlock :=
  { s with action := s.action.map ActionBlock.withoutOAuthToken }

/-- A state with the `OAuthToken` entry taken out of the configuration map of every action:
what an import verification that ignores that key and the size of the map compares. -/
def withoutOAuthToken (d : PipelineResource) : PipelineResource :=
  { d with stage := d.stage.map StageBlock.withoutOAuthToken }

/-- Whether a call creates or deletes a pipeline. -/
def createsOrDeletes : Call → Bool
  | Call.CreatePipeline _ _ => true
  | Call.DeletePipeline _ => true
  | _ => false

/-- The outcome of applying `testAccCodePipelineConfig_basic` on a vendor that holds nothing. -/
def createdBasic : Outcome :=
  applyPlan testClient emptyVendor (some (testAccCodePipelineConfig_basic sampleRefs "abc")) none

/-- The state recorded after `testAccCodePipelineConfig_basic` was applied. -/
def basicState : PipelineResource :=
  createdBasic.d

/-- The desired attributes of the second step of `TestAccCodePipeline_basic`: the fixture
`testAccCodePipelineConfig_basicUpdated` planned against the state of the first step. -/
def basicUpdatedPlanned : PipelineResource :=
  planned (testAccCodePipelineConfig_basicUpdated sampleRefs "abc") basicState

/-- The outcome of applying `testAccCodePipelineConfig_pipelinetype` on a vendor that holds
nothing. -/
def createdPipelinetype : Outcome :=
  applyPlan testClient emptyVendor (some (testAccCodePipelineConfig_pipelinetype sampleRefs "abc"))
    none

/-- The outcome of applying `testAccCodePipelineConfig_tags1` with `key1 = value1` on a vendor
that holds nothing. -/
def createdTags1 : Outcome :=
  applyPlan testClient emptyVendor
    (some (testAccCodePipelineConfig_tags1 sampleRefs "abc" "key1" "value1")) none

/-- The desired attributes of the second step of `TestAccCodePipeline_tags`. -/
def tags2Planned : PipelineResource :=
  planned (testAccCodePipelineConfig_tags2 sampleRefs "abc" "key1" "value1updated" "key2" "value2")
    createdTags1.d

/-- The pipeline the vendor holds after the first step of `TestAccCodePipeline_tags`. -/
def tags1Stored : StoredPipeline :=
  { arn := pipelineARN testClient "test-pipeline-abc"
    declaration := expandPipelineDeclaration
      (applyDefaults (testAccCodePipelineConfig_tags1 sampleRefs "abc" "key1" "value1"))
    tags := [("key1", "value1")] }

/-- The configuration of the step of `TestAccCodePipeline_pipelinetype` that changes the
execution mode and the pipeline type. -/
def pipelinetypeUpdatedConfig : PipelineResource :=
  testAccCodePipelineConfig_pipelinetypeUpdated sampleRefs "abc"

/-- The outcome of applying that step on the vendor and state the first step left. -/
def updatedPipelinetype : Outcome :=
  applyPlan testClient createdPipelinetype.vendor (some pipelinetypeUpdatedConfig)
    (some createdPipelinetype.d)

/-- The outcome of the second step of `TestAccCodePipeline_tags`. -/
def updatedTags2 : Outcome :=
  resourcePipelineUpdate createdTags1.vendor createdTags1.d tags2Planned

/-- The configuration of `TestAccCodePipeline_emptyStageArtifacts`. -/
def emptyStageArtifactsConfig : PipelineResource :=
  testAccCodePipelineConfig_emptyStageArtifacts sampleRefs "abc"

/-- The outcome of applying it on a vendor that holds nothing. -/
def createdEmptyStageArtifacts : Outcome :=
  applyPlan testClient emptyVendor (some emptyStageArtifactsConfig) none

/-- The configuration of the first step of `TestAccCodePipeline_withGitHubV1SourceAction`, with
a token. -/
def gitHubConfig : PipelineResource :=
  testAccCodePipelineConfig_gitHubv1SourceAction sampleRefs "abc" "ghp-token"

/-- The outcome of applying it on a vendor that holds nothing. -/
def createdGitHub : Outcome :=
  applyPlan testClient emptyVendor (some gitHubConfig) none

/-! ## State attributes as the tests address them -/

/-- The flat attributes of a list of strings under a key: its size under `#` and each entry
under its index. -/
def flatStrings (key : String) (l : List String) : List (String × String) :=
  (key ++ ".#", toString l.length) ::
    l.enum.map (fun e => (key ++ "." ++ toString e.1, e.2))

/-- The flat attributes of a map of strings under a key: its size under `%` and each value
under its key. -/
def flatMap (key : String) (m : List (String × String)) : List (String × String) :=
  (key ++ ".%", toString m.length) :: m.map (fun kv => (key ++ "." ++ kv.1, kv.2))

/-- The flat attributes of an `action` block under a key. -/
def flatAction (key : String) (a : ActionBlock) : List (String × String) :=
  [(key ++ ".name", a.name), (key ++ ".category", a.category), (key ++ ".owner", a.owner),
   (key ++ ".provider", a.provider), (key ++ ".version", a.version),
   (key ++ ".run_order", toString a.run_order), (key ++ ".region", a.region),
   (key ++ ".namespace", a.namespace_), (key ++ ".role_arn", a.role_arn)] ++
    flatStrings (key ++ ".input_artifacts") a.input_artifacts ++
    flatStrings (key ++ ".output_artifacts") a.output_artifacts ++
    flatMap (key ++ ".configuration") a.configuration

/-- The flat attributes of a `stage` block under a key. -/
def flatStage (key : String) (s : StageBlock) : List (String × String) :=
  (key ++ ".name", s.name) :: (key ++ ".action.#", toString s.action.length) ::
    (s.action.enum.map (fun e => flatAction (key ++ ".action." ++ toString e.1) e.2)).flatten

/-- The flat attributes of an `artifact_store` block under a key. -/
def flatArtifactStore (key : String) (b : ArtifactStoreBlock) : List (String × String) :=
  [(key ++ ".location", b.location), (key ++ ".type", b.type), (key ++ ".region", b.region)]

/-- The flat attributes of a `variable` block under a key. -/
def flatVariable (key : String) (b : VariableBlock) : List (String × String) :=
  [(key ++ ".name", b.name), (key ++ ".description", b.description),
   (key ++ ".default_value", b.default_value)]

/-- The attributes of a state under the flat keys the tests use (`stage.#`,
`stage.1.action.0.input_artifacts.#`, `tags.%` and so on). -/
def flatAttributes (d : PipelineResource) : List (String × String) :=
  [("id", d.id), ("arn", d.arn), ("name", d.name), ("role_arn", d.role_arn),
   ("execution_mode", d.execution_mode), ("pipeline_type", d.pipeline_type),
   ("artifact_store.#", toString d.artifact_store.length),
   ("stage.#", toString d.stage.length), ("variable.#", toString d.variable_.length)] ++
    (d.artifact_store.enum.map (fun e =>
      flatArtifactStore ("artifact_store." ++ toString e.1) e.2)).flatten ++
    (d.stage.enum.map (fun e => flatStage ("stage." ++ toString e.1) e.2)).flatten ++
    (d.variable_.enum.map (fun e => flatVariable ("variable." ++ toString e.1) e.2)).flatten ++
    flatMap "tags" d.tags

/-- The check `resource.TestCheckResourceAttr` on a state: the attribute of the key has the
value. -/
def TestCheckResourceAttr (d : PipelineResource) (key value : String) : Bool :=
  (flatAttributes d).lookup key == some value

/-- Whether a state passes every one of a list of `TestCheckResourceAttr` checks. -/
def passes (d : PipelineResource) (checks : List (String × String)) : Bool :=
  checks.all (fun kv => TestCheckResourceAttr d kv.1 kv.2)

/-! ## The expectations of the acceptance tests

Each list holds the `TestCheckResourceAttr` and `TestCheckResourceAttrPair` checks of one test
step, in the order of the test, as key and expected value. The existence check and the check
of the ARN against a pattern are not attribute equalities and are left out. -/

/-- The attribute checks of the first step of `TestAccCodePipeline_basic`. -/
def basicStep1Checks (refs : References) : List (String × String) :=
  [("role_arn", refs.codepipeline_role_arn),
   ("artifact_store.#", "1"),
   ("stage.#", "2"),
   ("stage.0.name", "Source"),
   ("stage.0.action.#", "1"),
   ("stage.0.action.0.name", "Source"),
   ("stage.0.action.0.category", "Source"),
   ("stage.0.action.0.owner", "AWS"),
   ("stage.0.action.0.provider", "CodeStarSourceConnection"),
   ("stage.0.action.0.version", "1"),
   ("stage.0.action.0.input_artifacts.#", "0"),
   ("stage.0.action.0.output_artifacts.#", "1"),
   ("stage.0.action.0.output_artifacts.0", "test"),
   ("stage.0.action.0.configuration.%", "3"),
   ("stage.0.action.0.configuration.FullRepositoryId", "lifesum-terraform/test"),
   ("stage.0.action.0.configuration.BranchName", "main"),
   ("stage.0.action.0.configuration.ConnectionArn", refs.connection_arn),
   ("stage.0.action.0.role_arn", ""),
   ("stage.0.action.0.run_order", "1"),
   ("stage.0.action.0.region", ""),
   ("stage.1.name", "Build"),
   ("stage.1.action.#", "1"),
   ("stage.1.action.0.name", "Build"),
   ("stage.1.action.0.category", "Build"),
   ("stage.1.action.0.owner", "AWS"),
   ("stage.1.action.0.provider", "CodeBuild"),
   ("stage.1.action.0.version", "1"),
   ("stage.1.action.0.input_artifacts.#", "1"),
   ("stage.1.action.0.input_artifacts.0", "test"),
   ("stage.1.action.0.output_artifacts.#", "0"),
   ("stage.1.action.0.configuration.%", "1"),
   ("stage.1.action.0.configuration.ProjectName", "test"),
   ("stage.1.action.0.role_arn", ""),
   ("stage.1.action.0.run_order", "1"),
   ("stage.1.action.0.region", "")]

/-- The attribute checks of the third step of `TestAccCodePipeline_basic`. -/
def basicStep3Checks (refs : References) : List (String × String) :=
  [("stage.#", "2"),
   ("stage.0.name", "Source"),
   ("stage.0.action.#", "1"),
   ("stage.0.action.0.name", "Source"),
   ("stage.0.action.0.input_artifacts.#", "0"),
   ("stage.0.action.0.output_artifacts.#", "1"),
   ("stage.0.action.0.output_artifacts.0", "artifacts"),
   ("stage.0.action.0.configuration.%", "3"),
   ("stage.0.action.0.configuration.FullRepositoryId", "test-terraform/test-repo"),
   ("stage.0.action.0.configuration.BranchName", "stable"),
   ("stage.0.action.0.configuration.ConnectionArn", refs.connection_arn),
   ("stage.1.name", "Build"),
   ("stage.1.action.#", "1"),
   ("stage.1.action.0.name", "Build"),
   ("stage.1.action.0.input_artifacts.#", "1"),
   ("stage.1.action.0.input_artifacts.0", "artifacts"),
   ("stage.1.action.0.configuration.%", "1"),
   ("stage.1.action.0.configuration.ProjectName", "test")]

/-- The attribute checks of the step of `TestAccCodePipeline_emptyStageArtifacts`. -/
def emptyStageArtifactsChecks : List (String × String) :=
  [("artifact_store.#", "1"),
   ("stage.#", "2"),
   ("stage.1.name", "Build"),
   ("stage.1.action.#", "1"),
   ("stage.1.action.0.name", "Build"),
   ("stage.1.action.0.category", "Build"),
   ("stage.1.action.0.owner", "AWS"),
   ("stage.1.action.0.provider", "CodeBuild"),
   ("stage.1.action.0.input_artifacts.#", "1"),
   ("stage.1.action.0.output_artifacts.#", "0")]

/-- The attribute checks of the first step of `TestAccCodePipeline_tags`. -/
def tagsStep1Checks : List (String × String) :=
  [("tags.%", "1"),
   ("tags.key1", "value1")]

/-- The attribute checks of the third step of `TestAccCodePipeline_tags`. -/
def tagsStep3Checks : List (String × String) :=
  [("tags.%", "2"),
   ("tags.key1", "value1updated"),
   ("tags.key2", "value2")]

/-- The attribute checks of the fifth step of `TestAccCodePipeline_tags`. -/
def tagsStep5Checks : List (String × String) :=
  [("tags.%", "1"),
   ("tags.key2", "value2")]

/-- The attribute checks of the first and the fifth step of `TestAccCodePipeline_pipelinetype`. -/
def pipelinetypeStep1Checks (refs : References) : List (String × String) :=
  [("role_arn", refs.codepipeline_role_arn),
   ("artifact_store.#", "1"),
   ("execution_mode", "SUPERSEDED"),
   ("pipeline_type", "V1"),
   ("stage.#", "2"),
   ("stage.0.name", "Source"),
   ("stage.0.action.#", "1"),
   ("stage.0.action.0.name", "Source"),
   ("stage.0.action.0.category", "Source"),
   ("stage.0.action.0.owner", "AWS"),
   ("stage.0.action.0.provider", "CodeStarSourceConnection"),
   ("stage.0.action.0.version", "1"),
   ("stage.0.action.0.input_artifacts.#", "0"),
   ("stage.0.action.0.output_artifacts.#", "1"),
   ("stage.0.action.0.output_artifacts.0", "test"),
   ("stage.0.action.0.configuration.%", "3"),
   ("stage.0.action.0.configuration.FullRepositoryId", "lifesum-terraform/test"),
   ("stage.0.action.0.configuration.BranchName", "main"),
   ("stage.0.action.0.configuration.ConnectionArn", refs.connection_arn),
   ("stage.0.action.0.role_arn", ""),
   ("stage.0.action.0.run_order", "1"),
   ("stage.0.action.0.region", ""),
   ("stage.1.name", "Build"),
   ("stage.1.action.#", "1"),
   ("stage.1.action.0.name", "Build"),
   ("stage.1.action.0.category", "Build"),
   ("stage.1.action.0.owner", "AWS"),
   ("stage.1.action.0.provider", "CodeBuild"),
   ("stage.1.action.0.version", "1"),
   ("stage.1.action.0.input_artifacts.#", "1"),
   ("stage.1.action.0.input_artifacts.0", "test"),
   ("stage.1.action.0.output_artifacts.#", "0"),
   ("stage.1.action.0.configuration.%", "1"),
   ("stage.1.action.0.configuration.ProjectName", "test"),
   ("stage.1.action.0.role_arn", ""),
   ("stage.1.action.0.run_order", "1"),
   ("stage.1.action.0.region", "")]

/-- The attribute checks of the third step of `TestAccCodePipeline_pipelinetype`. -/
def pipelinetypeStep3Checks (refs : References) : List (String × String) :=
  [("execution_mode", "QUEUED"),
   ("pipeline_type", "V2"),
   ("stage.#", "2"),
   ("stage.0.name", "Source"),
   ("stage.0.action.#", "1"),
   ("stage.0.action.0.name", "Source"),
   ("stage.0.action.0.input_artifacts.#", "0"),
   ("stage.0.action.0.output_artifacts.#", "1"),
   ("stage.0.action.0.output_artifacts.0", "artifacts"),
   ("stage.0.action.0.configuration.%", "3"),
   ("stage.0.action.0.configuration.FullRepositoryId", "test-terraform/test-repo"),
   ("stage.0.action.0.configuration.BranchName", "stable"),
   ("stage.0.action.0.configuration.ConnectionArn", refs.connection_arn),
   ("stage.1.name", "Build"),
   ("stage.1.action.#", "1"),
   ("stage.1.action.0.name", "Build"),
   ("stage.1.action.0.input_artifacts.#", "1"),
   ("stage.1.action.0.input_artifacts.0", "artifacts"),
   ("stage.1.action.0.configuration.%", "1"),
   ("stage.1.action.0.configuration.ProjectName", "test"),
   ("variable.#", "2"),
   ("variable.0.name", "test_var1"),
   ("variable.0.description", "This is test pipeline variable 1."),
   ("variable.0.default_value", "value1"),
   ("variable.1.name", "test_var2"),
   ("variable.1.description", "This is test pipeline variable 2."),
   ("variable.1.default_value", "value2")]

/-- The attribute checks of the first step of `TestAccCodePipeline_withGitHubV1SourceAction`. -/
def gitHubStep1Checks (githubToken : String) : List (String × String) :=
  [("stage.#", "2"),
   ("stage.0.action.0.name", "Source"),
   ("stage.0.action.0.category", "Source"),
   ("stage.0.action.0.owner", "ThirdParty"),
   ("stage.0.action.0.provider", "GitHub"),
   ("stage.0.action.0.version", "1"),
   ("stage.0.action.0.configuration.%", "4"),
   ("stage.0.action.0.configuration.Owner", "lifesum-terraform"),
   ("stage.0.action.0.configuration.Repo", "test"),
   ("stage.0.action.0.configuration.Branch", "main"),
   ("stage.0.action.0.configuration.OAuthToken", githubToken)]

/-- The attribute checks of the third step of `TestAccCodePipeline_withGitHubV1SourceAction`. -/
def gitHubStep3Checks (githubToken : String) : List (String × String) :=
  [("stage.#", "2"),
   ("stage.0.action.0.name", "Source"),
   ("stage.0.action.0.category", "Source"),
   ("stage.0.action.0.owner", "ThirdParty"),
   ("stage.0.action.0.provider", "GitHub"),
   ("stage.0.action.0.version", "1"),
   ("stage.0.action.0.configuration.%", "4"),
   ("stage.0.action.0.configuration.Owner", "test-terraform"),
   ("stage.0.action.0.configuration.Repo", "test-repo"),
   ("stage.0.action.0.configuration.Branch", "stable"),
   ("stage.0.action.0.configuration.OAuthToken", githubToken)]

/-! ## The steps of the acceptance tests on the model -/

/-- The second configuration of `TestAccCodePipeline_basic` applied after the first. -/
def updatedBasic : Outcome :=
  applyPlan testClient createdBasic.vendor
    (some (testAccCodePipelineConfig_basicUpdated sampleRefs "abc")) (some createdBasic.d)

/-- The third configuration of `TestAccCodePipeline_tags` applied after the second. -/
def updatedTags3 : Outcome :=
  applyPlan testClient updatedTags2.vendor
    (some (testAccCodePipelineConfig_tags1 sampleRefs "abc" "key2" "value2")) (some updatedTags2.d)

/-- The first configuration of `TestAccCodePipeline_pipelinetype` applied again after the
second. -/
def revertedPipelinetype : Outcome :=
  applyPlan testClient updatedPipelinetype.vendor
    (some (testAccCodePipelineConfig_pipelinetype sampleRefs "abc")) (some updatedPipelinetype.d)

/-- The second configuration of `TestAccCodePipeline_withGitHubV1SourceAction` applied after
the first. -/
def updatedGitHub : Outcome :=
  applyPlan testClient createdGitHub.vendor
    (some (testAccCodePipelineConfig_gitHubv1SourceActionUpdated sampleRefs "abc" "ghp-token"))
    (some createdGitHub.d)

/-! ## The check functions of `codepipeline_test.go` -/

/-- The type `terraform.InstanceState`, as far as the checks read it. -/
structure InstanceState where
  ID : String
deriving DecidableEq, Repr

/-- The type `terraform.ResourceState`, as far as the checks read it. -/
structure ResourceState where
  Type_ : String
  Primary : InstanceState
deriving DecidableEq, Repr

/-- The root module of a `terraform.State`: its resources by name. The order of the list is the
order in which a `range` over the Go map visits them. -/
structure TerraformState where
  Resources : List (String × ResourceState)
deriving DecidableEq, Repr

/-- The finder `tfcodepipeline.FindPipelineByName` on the client of the test provider, which is
not in this file: a function of the name. -/
abbrev Finder := String → Except Error GetPipelineOutput

/-- What `testAccCheckPipelineExists` leaves behind: the error it returns (none for nil), the
pipeline declaration behind the pointer it was given, and the names it looked up. -/
structure CheckResult where
  err : Option Error
  v : PipelineDeclaration
  lookups : List String
deriving DecidableEq, Repr

/-- The error `fmt.Errorf` builds from a message. -/
def Errorf (message : String) : Error :=
  { msg := message, notFound := false }

/-- The loop of `testAccCheckPipelineDestroy` over the resources in the order they are
visited: the error returned and the names looked up, oldest first. -/
def checkPipelineDestroyLoop (find : Finder) : List ResourceState → Option Error × List String
  | [] => (none, [])
  | rs :: rest =>
    if rs.Type_ != "aws_codepipeline" then checkPipelineDestroyLoop find rest
    else
      match find rs.Primary.ID with
      | Except.error err =>
        if err.notFound then
          let r := checkPipelineDestroyLoop find rest
          (r.1, rs.Primary.ID :: r.2)
        else (some err, [rs.Primary.ID])
      | Except.ok _ =>
        (some (Errorf ("CodePipeline Pipeline " ++ rs.Primary.ID ++ " still exists")),
          [rs.Primary.ID])

/-- The check `testAccCheckPipelineDestroy`: the error it returns and the names it looked
up. -/
def testAccCheckPipelineDestroy (find : Finder) (s : TerraformState) :
    Option Error × List String :=
  checkPipelineDestroyLoop find (s.Resources.map Prod.snd)

/-- The check `testAccCheckPipelineExists` for resource name `n` and destination `v`. -/
def testAccCheckPipelineExists (find : Finder) (n : String) (v : PipelineDeclaration)
    (s : TerraformState) : CheckResult :=
  match s.Resources.lookup n with
  | none => { err := some (Errorf ("Not found: " ++ n)), v := v, lookups := [] }
  | some rs =>
    match find rs.Primary.ID with
    | Except.error err => { err := some err, v := v, lookups := [rs.Primary.ID] }
    | Except.ok output => { err := none, v := output.Pipeline, lookups := [rs.Primary.ID] }

/-- The state after the first step of `TestAccCodePipeline_basic`: the pipeline and, of the
other resources of the configuration, the bucket. -/
def basicTerraformState : TerraformState :=
  { Resources :=
      [("aws_s3_bucket.test",
          { Type_ := "aws_s3_bucket", Primary := { ID := "tf-test-pipeline-test-abc" } }),
       ("aws_codepipeline.test",
          { Type_ := "aws_codepipeline", Primary := { ID := "test-pipeline-abc" } })] }

/-- A pipeline declaration that holds nothing, the zero value behind a fresh pointer. -/
def emptyDeclaration : PipelineDeclaration :=
  { Name := "", RoleArn := "", ArtifactStores := [], Stages := [], ExecutionMode := "",
    PipelineType := "", Variables := [] }

/-- A finder that fails for every name with an error that is not a not-found. -/
def deniedFinder : Finder :=
  fun _ => Except.error { msg := "AccessDenied", notFound := false }

/-! ## Applies that send the declaration -/

/-- The desired attributes the engine hands to the handlers for a configuration and a state:
the configuration with its defaults on create, planned against the state on update. -/
def desired (cfg : PipelineResource) : Option PipelineResource → PipelineResource
  | none => applyDefaults cfg
  | some st => planned cfg st

/-- Whether applying a configuration on a state sends the declaration to the vendor in place:
a create, or an update of the pipeline of the same name in which something other than the
tags changed. -/
def sendsDeclaration (cfg : PipelineResource) : Option PipelineResource → Bool
  | none => true
  | some st =>
    cfg.name == st.name && st.id == st.name && declarationChanged st (planned cfg st)

/-- The `region` of every `artifact_store` block, in order. -/
def storeRegions (l : List ArtifactStoreBlock) : List String :=
  l.map (fun b => b.region)

/-- The action at place `j` of the stage at place `i`. -/
def actionAt (d : PipelineResource) (i j : Nat) : Option ActionBlock :=
  match d.stage.get? i with
  | none => none
  | some s => s.action.get? j

/-- The configuration of the second step of `TestAccCodePipeline_MultiRegion_convertSingleRegion`
with `us-west-2` as region and `us-east-1` as alternate region. -/
def multiregionConfig : PipelineResource :=
  testAccCodePipelineConfig_multiregion sampleRefs "abc" "us-west-2" "us-east-1"

/-- The outcome of that step after `testAccCodePipelineConfig_basic` was applied. -/
def convertedToMultiregion : Outcome :=
  applyPlan testClient createdBasic.vendor (some multiregionConfig) (some createdBasic.d)

/-- The outcome of the third step, back to a single artifact store. -/
def convertedBackToBasic : Outcome :=
  applyPlan testClient convertedToMultiregion.vendor
    (some (testAccCodePipelineConfig_backToBasic sampleRefs "abc"))
    (some convertedToMultiregion.d)

/-- The configuration of the third step of `TestAccCodePipeline_MultiRegion_convertSingleRegion`. -/
def backToBasicConfig : PipelineResource :=
  testAccCodePipelineConfig_backToBasic sampleRefs "abc"

/-- The configuration of the first step of `TestAccCodePipeline_basic`. -/
def basicConfig : PipelineResource :=
  testAccCodePipelineConfig_basic sampleRefs "abc"

/-- The configuration of the third step of `TestAccCodePipeline_withGitHubV1SourceAction`. -/
def gitHubUpdatedConfig : PipelineResource :=
  testAccCodePipelineConfig_gitHubv1SourceActionUpdated sampleRefs "abc" "ghp-token"

/-- What `GetPipeline` returns for the pipeline of `testAccCodePipelineConfig_basic`. -/
def basicGetPipelineOutput : GetPipelineOutput :=
  { Pipeline := expandPipelineDeclaration (applyDefaults basicConfig)
    PipelineArn := pipelineARN testClient "test-pipeline-abc" }

/-- The state of `basicTerraformState` with its resources visited in the other order. -/
def basicTerraformStateSwapped : TerraformState :=
  { Resources :=
      [("aws_codepipeline.test",
          { Type_ := "aws_codepipeline", Primary := { ID := "test-pipeline-abc" } }),
       ("aws_s3_bucket.test",
          { Type_ := "aws_s3_bucket", Primary := { ID := "tf-test-pipeline-test-abc" } })] }

/-- The attribute checks of the first step of
`TestAccCodePipeline_MultiRegion_convertSingleRegion`. -/
def convertStep1Checks : List (String × String) :=
  [("artifact_store.#", "1"),
   ("artifact_store.0.region", ""),
   ("stage.1.name", "Build"),
   ("stage.1.action.#", "1"),
   ("stage.1.action.0.name", "Build"),
   ("stage.1.action.0.region", "")]

/-- The attribute checks of the second step of
`TestAccCodePipeline_MultiRegion_convertSingleRegion`. -/
def convertStep2Checks (region alternateRegion : String) : List (String × String) :=
  [("artifact_store.#", "2"),
   ("artifact_store.0.region", region),
   ("artifact_store.1.region", alternateRegion),
   ("stage.1.name", "Build"),
   ("stage.1.action.#", "2"),
   ("stage.1.action.0.name", "Build"),
   ("stage.1.action.0.region", region),
   ("stage.1.action.1.name", alternateRegion ++ "-Build"),
   ("stage.1.action.1.region", alternateRegion)]

/-- The attribute checks of the third step of
`TestAccCodePipeline_MultiRegion_convertSingleRegion`. -/
def convertStep3Checks (region : String) : List (String × String) :=
  [("artifact_store.#", "1"),
   ("artifact_store.0.region", ""),
   ("stage.1.name", "Build"),
   ("stage.1.action.#", "1"),
   ("stage.1.action.0.name", "Build"),
   ("stage.1.action.0.region", region)]

/-- The attribute checks of the first step of `TestAccCodePipeline_MultiRegion_basic` and of
`TestAccCodePipeline_MultiRegion_update`. -/
def multiRegionStep1Checks (region alternateRegion : String) : List (String × String) :=
  [("artifact_store.#", "2"),
   ("stage.1.name", "Build"),
   ("stage.1.action.#", "2"),
   ("stage.1.action.0.name", "Build"),
   ("stage.1.action.0.region", region),
   ("stage.1.action.1.name", alternateRegion ++ "-Build"),
   ("stage.1.action.1.region", alternateRegion)]

/-- The attribute checks of the second step of `TestAccCodePipeline_MultiRegion_update`. -/
def multiRegionUpdateStep2Checks (region alternateRegion : String) : List (String × String) :=
  [("artifact_store.#", "2"),
   ("stage.1.name", "Build"),
   ("stage.1.action.#", "2"),
   ("stage.1.action.0.name", "BuildUpdated"),
   ("stage.1.action.0.region", region),
   ("stage.1.action.1.name", alternateRegion ++ "-BuildUpdated"),
   ("stage.1.action.1.region", alternateRegion)]

/-- The attribute checks of the step of `TestAccCodePipeline_deployWithServiceRole`. -/
def deployWithServiceRoleChecks (refs : References) : List (String × String) :=
  [("stage.2.name", "Deploy"),
   ("stage.2.action.0.category", "Deploy"),
   ("stage.2.action.0.role_arn", refs.codepipeline_action_role_arn)]

/-- The attribute checks of the step of `TestAccCodePipeline_withNamespace`. -/
def withNamespaceChecks : List (String × String) :=
  [("stage.0.action.0.namespace", "SourceVariables")]

/-- The attribute checks of the step of `TestAccCodePipeline_ecr`. -/
def ecrChecks : List (String × String) :=
  [("stage.#", "2"),
   ("stage.0.name", "Source"),
   ("stage.0.action.#", "1"),
   ("stage.0.action.0.name", "Source"),
   ("stage.0.action.0.category", "Source"),
   ("stage.0.action.0.owner", "AWS"),
   ("stage.0.action.0.provider", "ECR"),
   ("stage.0.action.0.version", "1"),
   ("stage.0.action.0.input_artifacts.#", "0"),
   ("stage.0.action.0.output_artifacts.#", "1"),
   ("stage.0.action.0.output_artifacts.0", "test"),
   ("stage.0.action.0.configuration.%", "2"),
   ("stage.0.action.0.configuration.RepositoryName", "my-image-repo"),
   ("stage.0.action.0.configuration.ImageTag", "latest"),
   ("stage.0.action.0.role_arn", ""),
   ("stage.0.action.0.run_order", "1"),
   ("stage.0.action.0.region", ""),
   ("stage.1.name", "Build")]

/-- The outcome of `testAccCodePipelineConfig_multiregion` applied on a vendor that holds
nothing. -/
def createdMultiregion : Outcome :=
  applyPlan testClient emptyVendor (some multiregionConfig) none

/-- The outcome of `testAccCodePipelineConfig_multiregionUpdated` applied after it. -/
def updatedMultiregion : Outcome :=
  applyPlan testClient createdMultiregion.vendor
    (some (testAccCodePipelineConfig_multiregionUpdated sampleRefs "abc" "us-west-2" "us-east-1"))
    (some createdMultiregion.d)

/-- The outcome of `testAccCodePipelineConfig_deployServiceRole` applied on a vendor that holds
nothing. -/
def createdDeployServiceRole : Outcome :=
  applyPlan testClient emptyVendor
    (some (testAccCodePipelineConfig_deployServiceRole sampleRefs "abc")) none

/-- The outcome of `testAccCodePipelineConfig_namespace` applied on a vendor that holds
nothing. -/
def createdNamespace : Outcome :=
  applyPlan testClient emptyVendor (some (testAccCodePipelineConfig_namespace sampleRefs "abc"))
    none

/-- The outcome of `testAccCodePipelineConfig_ecr` applied on a vendor that holds nothing. -/
def createdEcr : Outcome :=
  applyPlan testClient emptyVendor (some (testAccCodePipelineConfig_ecr sampleRefs "abc")) none

/-! ## The pre-check of `codepipeline_test.go` -/

/-- How a helper leaves the test it was called from: it returned, or it ended the test through
`t.Fatalf` or `t.Skipf` with the message given. -/
inductive TestEnd where
  | returned
  | Fatalf (message : String)
  | Skipf (message : String)
deriving DecidableEq, Repr

/-- What `testAccPreCheck` uses of the packages `acctest` and `conns` and of the vendor API,
none of which is in this file: the default region `acctest.Region()`, the diagnostics
`ConfigureProvider` returns for a region, the error `ListPipelines` returns on the client
configured for a region (none for nil), and the predicate `acctest.PreCheckSkipError`. -/
structure Acctest where
  Region : String
  ConfigureProvider : String → Diagnostics
  ListPipelines : String → Option Error
  PreCheckSkipError : Option Error → Bool

/-- The text `%s` prints for an error value. -/
def errorText : Option Error → String
  | some err => err.msg
  | none => "%!s(<nil>)"

/-- What `testAccPreCheck` leaves behind: how it ended, the regions it called
`ConfigureProvider` for and the regions it called `ListPipelines` for, oldest first. -/
structure PreCheckResult where
  outcome : TestEnd
  configured : List String
  calls : List String
deriving DecidableEq, Repr

/-- The loop of `testAccPreCheck` (lines 808-827) over the regions. -/
def preCheckLoop (t : Acctest) : List String → PreCheckResult
  | [] => { outcome := TestEnd.returned, configured := [], calls := [] }
  | region :: rest =>
    if HasError (t.ConfigureProvider region) then
      { outcome := TestEnd.Fatalf ("error getting AWS client for region " ++ region),
        configured := [region], calls := [] }
    else
      let err := t.ListPipelines region
      if t.PreCheckSkipError err then
        { outcome := TestEnd.Skipf ("skipping acceptance testing: " ++ errorText err),
          configured := [region], calls := [region] }
      else
        match err with
        | some e =>
          { outcome := TestEnd.Fatalf ("unexpected PreCheck error: " ++ e.msg),
            configured := [region], calls := [region] }
        | none =>
          let r := preCheckLoop t rest
          { outcome := r.outcome, configured := region :: r.configured,
            calls := region :: r.calls }

/-- The helper `testAccPreCheck`: the default region is appended to the regions passed. -/
def testAccPreCheck (t : Acctest) (regions : List String) : PreCheckResult :=
  preCheckLoop t (regions ++ [t.Region])

/-- A setting with default region `us-west-2` in which `ListPipelines` is denied in
`eu-west-1` and the client of `ap-south-1` cannot be configured. -/
def sampleAcctest : Acctest :=
  { Region := "us-west-2"
    ConfigureProvider := fun region =>
      if region = "ap-south-1" then AppendErrorf [] "invalid region" else []
    ListPipelines := fun region =>
      if region = "eu-west-1" then some { msg := "AccessDenied", notFound := false } else none
    PreCheckSkipError := fun err =>
      match err with
      | some e => e.msg == "UnknownOperationException"
      | none => false }

/-! ## Invariants of the fixtures -/

/-- The arguments the fixture functions take, and the values of `acctest.Region()` and
`acctest.AlternateRegion()` the multi-region fixtures print. -/
structure FixtureArguments where
  refs : References
  rName : String
  tagKey1 : String
  tagValue1 : String
  tagKey2 : String
  tagValue2 : String
  githubToken : String
  region : String
  alternateRegion : String
deriving DecidableEq, Repr

/-- The `aws_codepipeline` block of every `testAccCodePipelineConfig_` function of the test
file, in the order of the file. -/
def pipelineFixtures (p : FixtureArguments) : List PipelineResource :=
  [testAccCodePipelineConfig_basic p.refs p.rName,
   testAccCodePipelineConfig_basicUpdated p.refs p.rName,
   testAccCodePipelineConfig_pipelinetype p.refs p.rName,
   testAccCodePipelineConfig_pipelinetypeUpdated p.refs p.rName,
   testAccCodePipelineConfig_emptyStageArtifacts p.refs p.rName,
   testAccCodePipelineConfig_deployServiceRole p.refs p.rName,
   testAccCodePipelineConfig_tags1 p.refs p.rName p.tagKey1 p.tagValue1,
   testAccCodePipelineConfig_tags2 p.refs p.rName p.tagKey1 p.tagValue1 p.tagKey2 p.tagValue2,
   testAccCodePipelineConfig_multiregion p.refs p.rName p.region p.alternateRegion,
   testAccCodePipelineConfig_multiregionUpdated p.refs p.rName p.region p.alternateRegion,
   testAccCodePipelineConfig_backToBasic p.refs p.rName,
   testAccCodePipelineConfig_namespace p.refs p.rName,
   testAccCodePipelineConfig_gitHubv1SourceAction p.refs p.rName p.githubToken,
   testAccCodePipelineConfig_gitHubv1SourceActionUpdated p.refs p.rName p.githubToken,
   testAccCodePipelineConfig_ecr p.refs p.rName]

/-- Sample arguments for the fixtures. -/
def sampleArguments : FixtureArguments :=
  { refs := sampleRefs, rName := "abc", tagKey1 := "key1", tagValue1 := "value1",
    tagKey2 := "key2", tagValue2 := "value2", githubToken := "ghp-token",
    region := "us-west-2", alternateRegion := "us-east-1" }

/-- The actions of a list of stages, stage after stage. -/
def stageActions : List StageBlock → List ActionBlock
  | [] => []
  | s :: rest => s.action ++ stageActions rest

/-- The `region` of every action of a pipeline, in order; the empty string for an action that
names none. -/
def actionRegions (d : PipelineResource) : List String :=
  (stageActions d.stage).map (fun a => a.region)

/-- Number of `artifact_store` blocks declared with a region. -/
def storesOfRegion (d : PipelineResource) (region : String) : Nat :=
  (d.artifact_store.filter (fun b => b.region == region)).length

/-- The names in the `output_artifacts` of a list of actions. -/
def outputsOf : List ActionBlock → List String
  | [] => []
  | a :: rest => a.output_artifacts ++ outputsOf rest

/-- The names in the `output_artifacts` of the actions of the stages before place `i`. -/
def earlierOutputs (d : PipelineResource) (i : Nat) : List String :=
  outputsOf (stageActions (d.stage.take i))

/-- Whether every non-empty name in the `input_artifacts` of the actions of stage `s`, at place
`i`, is among the earlier outputs. -/
def stageInputsProduced (d : PipelineResource) (i : Nat) (s : StageBlock) : Bool :=
  s.action.all (fun a =>
    a.input_artifacts.all (fun n => n == "" || (earlierOutputs d i).contains n))

/-- Whether every non-empty name in the `input_artifacts` of an action is among the outputs of
the actions of an earlier stage. -/
def inputsProduced (d : PipelineResource) : Bool :=
  (List.range d.stage.length).all (fun i =>
    match d.stage.get? i with
    | none => true
    | some s => stageInputsProduced d i s)

/-- The names of the stages of a pipeline, in order. -/
def stageNameList (d : PipelineResource) : List String :=
  d.stage.map (fun s => s.name)

/-- The names of the actions of a stage, in order. -/
def actionNameList (s : StageBlock) : List String :=
  s.action.map (fun a => a.name)

/-! ## Updates whose read-back differs from the desired attributes -/

/-- The desired attributes of the second step of
`TestAccCodePipeline_MultiRegion_convertSingleRegion`: the multi-region fixture planned against
the state the first step left. -/
def multiregionPlanned : PipelineResource :=
  planned multiregionConfig createdBasic.d

/-- The desired attributes of an update from `testAccCodePipelineConfig_basic` to
`testAccCodePipelineConfig_emptyStageArtifacts`. -/
def emptyStageArtifactsPlanned : PipelineResource :=
  planned emptyStageArtifactsConfig createdBasic.d

/-- The outcome of that update. -/
def updatedToEmptyStageArtifacts : Outcome :=
  resourcePipelineUpdate createdBasic.vendor createdBasic.d emptyStageArtifactsPlanned

end CodePipeline

/-! # Theorems -/

namespace EFS
open Provider

/-! ## Resource data -/

theorem lookup_filter_ne (l : List (String × Value)) (k k2 : String) (h : k2 ≠ k) :
    (l.filter (fun kv => kv.1 != k)).lookup k2 = l.lookup k2 := by
  induction l with
  | nil => rfl
  | cons a t ih =>
    obtain ⟨a1, a2⟩ := a
    by_cases h1 : a1 = k
    · subst h1
      have h2 : (k2 == a1) = false := by simpa using h
      simp [List.filter, List.lookup, h2, ih]
    · have h3 : (a1 != k) = true := by simpa using h1
      by_cases h4 : k2 = a1
      · subst h4
        simp [List.filter, List.lookup, h3]
      · have h5 : (k2 == a1) = false := by simpa using h4
        simp [List.filter, List.lookup, h3, h5, ih]

@[simp]
theorem storedValue_str (k s : String) : storedValue k (Value.str s) = Value.str s := rfl

@[simp]
theorem storedValue_ptr (k : String) (p : Option String) :
    storedValue k (Value.ptr p) = Value.ptr p := rfl

theorem storedValue_security_groups (l : List String) :
    storedValue "security_groups" (Value.strs l) = Value.set l.toFinset := rfl

theorem StringValue_eq_getD (p : Option String) : StringValue p = p.getD "" := by
  cases p <;> rfl

theorem Get_Set_same (d : ResourceData) (k : String) (v : Value) :
    (d.Set k v).Get k = some (storedValue k v) := by
  simp [ResourceData.Set, ResourceData.Get, List.lookup]

theorem Get_Set_other (d : ResourceData) (k k2 : String) (v : Value) (h : k2 ≠ k) :
    (d.Set k v).Get k2 = d.Get k2 := by
  have h2 : (k2 == k) = false := by simpa using h
  simp [ResourceData.Set, ResourceData.Get, List.lookup, h2, lookup_filter_ne _ _ _ h]

/-! ## The three ways through the handler -/

theorem read_lookup_error (c : AWSClient) (conn : Conn) (d : ResourceData) (e : Error)
    (h : conn.findMountTarget (describeMountTargetsInput d) = Except.error e) :
    dataSourceMountTargetRead c conn d =
      { diags := [{ severity := Severity.Error,
                    summary := "reading EFS Mount Target: " ++ e.msg, detail := "" }],
        d := d,
        calls := [Call.findMountTarget (describeMountTargetsInput d)] } := by
  simp [dataSourceMountTargetRead, h, AppendErrorf]

theorem read_securityGroups_error (c : AWSClient) (conn : Conn) (d : ResourceData)
    (mt : MountTargetDescription) (e : Error)
    (h1 : conn.findMountTarget (describeMountTargetsInput d) = Except.ok mt)
    (h2 : conn.DescribeMountTargetSecurityGroups
      { MountTargetId := some (StringValue mt.MountTargetId) } = Except.error e) :
    dataSourceMountTargetRead c conn d =
      { diags := [{ severity := Severity.Error,
                    summary := "reading EFS Mount Target (" ++ StringValue mt.MountTargetId ++
                      ") security groups: " ++ e.msg,
                    detail := "" }],
        d := setMountTargetAttributes c d mt,
        calls := [Call.findMountTarget (describeMountTargetsInput d),
          Call.DescribeMountTargetSecurityGroups
            { MountTargetId := some (StringValue mt.MountTargetId) }] } := by
  have hid : (setMountTargetAttributes c d mt).Id = StringValue mt.MountTargetId := rfl
  simp [dataSourceMountTargetRead, h1, hid, h2, AppendErrorf]

theorem read_ok (c : AWSClient) (conn : Conn) (d : ResourceData)
    (mt : MountTargetDescription) (out : DescribeMountTargetSecurityGroupsOutput)
    (h1 : conn.findMountTarget (describeMountTargetsInput d) = Except.ok mt)
    (h2 : conn.DescribeMountTargetSecurityGroups
      { MountTargetId := some (StringValue mt.MountTargetId) } = Except.ok out) :
    dataSourceMountTargetRead c conn d =
      { diags := [],
        d := (setMountTargetAttributes c d mt).Set "security_groups"
          (Value.strs (StringValueSlice out.SecurityGroups)),
        calls := [Call.findMountTarget (describeMountTargetsInput d),
          Call.DescribeMountTargetSecurityGroups
            { MountTargetId := some (StringValue mt.MountTargetId) }] } := by
  have hid : (setMountTargetAttributes c d mt).Id = StringValue mt.MountTargetId := rfl
  simp [dataSourceMountTargetRead, h1, hid, h2]

/-! ## Error propagation -/

/-- C1, as stated, fails: when the lookup fails with the message `AccessDenied`, the one
diagnostic the read returns reads `reading EFS Mount Target: AccessDenied`; no diagnostic
carries the message `AccessDenied` with nothing added. -/
theorem lookup_error_is_not_verbatim :
    (dataSourceMountTargetRead sampleClient lookupDeniedConn sampleData).diags.map
        (fun g => g.summary) = ["reading EFS Mount Target: AccessDenied"] ∧
      ¬ (∃ g ∈ (dataSourceMountTargetRead sampleClient lookupDeniedConn sampleData).diags,
          g.summary = "AccessDenied") := by
  decide

/-- C1, amended: an error `e` of the lookup comes back as the single error diagnostic
`reading EFS Mount Target: ` followed by the unchanged message of `e`, and an error `e` of the
security-groups call as the single error diagnostic
`reading EFS Mount Target (<id>) security groups: ` followed by the unchanged message of `e`,
where `<id>` is the ID the lookup returned. -/
theorem error_message_follows_context (c : AWSClient) (conn : Conn) (d : ResourceData)
    (e : Error) :
    (conn.findMountTarget (describeMountTargetsInput d) = Except.error e →
      (dataSourceMountTargetRead c conn d).diags =
        [{ severity := Severity.Error, summary := "reading EFS Mount Target: " ++ e.msg,
           detail := "" }]) ∧
    (∀ mt : MountTargetDescription,
      conn.findMountTarget (describeMountTargetsInput d) = Except.ok mt →
      conn.DescribeMountTargetSecurityGroups
        { MountTargetId := some (StringValue mt.MountTargetId) } = Except.error e →
      (dataSourceMountTargetRead c conn d).diags =
        [{ severity := Severity.Error,
           summary := "reading EFS Mount Target (" ++ StringValue mt.MountTargetId ++
             ") security groups: " ++ e.msg,
           detail := "" }]) := by
  constructor
  · intro h
    rw [read_lookup_error c conn d e h]
  · intro mt h1 h2
    rw [read_securityGroups_error c conn d mt e h1 h2]

/-- Witness of C1, amended: the lookup failing and the security-groups call failing with
`AccessDenied`. -/
theorem error_message_follows_context_witness :
    (dataSourceMountTargetRead sampleClient lookupDeniedConn sampleData).diags =
        [{ severity := Severity.Error, summary := "reading EFS Mount Target: AccessDenied",
           detail := "" }] ∧
      (dataSourceMountTargetRead sampleClient securityGroupsDeniedConn sampleData).diags =
        [{ severity := Severity.Error,
           summary := "reading EFS Mount Target (fsmt-1) security groups: AccessDenied",
           detail := "" }] :=
  ⟨(error_message_follows_context sampleClient lookupDeniedConn sampleData
      { msg := "AccessDenied", notFound := false }).1 rfl,
   (error_message_follows_context sampleClient securityGroupsDeniedConn sampleData
      { msg := "AccessDenied", notFound := false }).2 sampleMountTarget rfl rfl⟩

/-- C2, as stated, fails: when the lookup reports not-found, the read returns an error
diagnostic. -/
theorem not_found_lookup_returns_error :
    lookupNotFoundConn.findMountTarget (describeMountTargetsInput sampleData) =
        Except.error { msg := "empty result", notFound := true } ∧
      HasError (dataSourceMountTargetRead sampleClient lookupNotFoundConn sampleData).diags
        = true ∧
      (dataSourceMountTargetRead sampleClient lookupNotFoundConn sampleData).diags =
        [{ severity := Severity.Error, summary := "reading EFS Mount Target: empty result",
           detail := "" }] :=
  ⟨rfl, by decide, by decide⟩

/-- C2, amended: when the lookup reports not-found with error `e`, the read returns the single
error diagnostic `reading EFS Mount Target: ` followed by the message of `e`, as for any other
lookup error, and leaves the data as it was, so without a new ID. -/
theorem not_found_lookup_is_an_error (c : AWSClient) (conn : Conn) (d : ResourceData)
    (e : Error) (h : conn.findMountTarget (describeMountTargetsInput d) = Except.error e)
    (hnf : e.notFound = true) :
    (dataSourceMountTargetRead c conn d).diags =
        [{ severity := Severity.Error, summary := "reading EFS Mount Target: " ++ e.msg,
           detail := "" }] ∧
      HasError (dataSourceMountTargetRead c conn d).diags = true ∧
      (dataSourceMountTargetRead c conn d).d = d ∧
      (dataSourceMountTargetRead c conn d).d.Id = d.Id := by
  have _ := hnf
  rw [read_lookup_error c conn d e h]
  simp [HasError]

/-- Witness of C2, amended: the lookup reporting not-found on data without an ID. -/
theorem not_found_lookup_is_an_error_witness :
    (dataSourceMountTargetRead sampleClient lookupNotFoundConn sampleData).diags =
        [{ severity := Severity.Error,
           summary := "reading EFS Mount Target: " ++ "empty result", detail := "" }] ∧
      HasError (dataSourceMountTargetRead sampleClient lookupNotFoundConn sampleData).diags
        = true ∧
      (dataSourceMountTargetRead sampleClient lookupNotFoundConn sampleData).d = sampleData ∧
      (dataSourceMountTargetRead sampleClient lookupNotFoundConn sampleData).d.Id = "" :=
  not_found_lookup_is_an_error sampleClient lookupNotFoundConn sampleData
    { msg := "empty result", notFound := true } rfl rfl

/-! ## Calls issued -/

/-- C3: every invocation issues the lookup exactly once and the security-groups call at most
once: once when the lookup succeeded, never when it failed. -/
theorem each_call_issued_at_most_once (c : AWSClient) (conn : Conn) (d : ResourceData) :
    lookupCalls (dataSourceMountTargetRead c conn d).calls = 1 ∧
    securityGroupCalls (dataSourceMountTargetRead c conn d).calls ≤ 1 ∧
    securityGroupCalls (dataSourceMountTargetRead c conn d).calls =
      (if succeeded (conn.findMountTarget (describeMountTargetsInput d)) then 1 else 0) := by
  cases h1 : conn.findMountTarget (describeMountTargetsInput d) with
  | error e =>
    rw [read_lookup_error c conn d e h1]
    simp [lookupCalls, securityGroupCalls, succeeded]
  | ok mt =>
    cases h2 : conn.DescribeMountTargetSecurityGroups
        { MountTargetId := some (StringValue mt.MountTargetId) } with
    | error e =>
      rw [read_securityGroups_error c conn d mt e h1 h2]
      simp [lookupCalls, securityGroupCalls, succeeded]
    | ok out =>
      rw [read_ok c conn d mt out h1 h2]
      simp [lookupCalls, securityGroupCalls, succeeded]

theorem mem_toFinset_StringValueSlice (l : List (Option String)) (s : String) :
    s ∈ (StringValueSlice l).toFinset ↔ (some s ∈ l ∨ (s = "" ∧ none ∈ l)) := by
  unfold StringValueSlice
  simp only [List.mem_toFinset, List.mem_map]
  constructor
  · rintro ⟨p, hp, rfl⟩
    cases p with
    | none => exact Or.inr ⟨rfl, hp⟩
    | some x => exact Or.inl hp
  · rintro (h | ⟨rfl, h⟩)
    · exact ⟨some s, h, rfl⟩
    · exact ⟨none, h, rfl⟩

/-- C4: a read that returns no error found a mount target `mt` and got an output `out` from
`DescribeMountTargetSecurityGroups`, called once, after the lookup, with `MountTargetId` the ID
of `mt` (the empty string when `mt` has none); `security_groups`, an attribute of type
`schema.TypeSet`, then holds a set whose elements are exactly the IDs among the entries of
`out`, with the empty string as an element exactly when an entry is absent. -/
theorem security_groups_from_describe_call (c : AWSClient) (conn : Conn) (d : ResourceData)
    (h : HasError (dataSourceMountTargetRead c conn d).diags = false) :
    ∃ mt out,
      conn.findMountTarget (describeMountTargetsInput d) = Except.ok mt ∧
      conn.DescribeMountTargetSecurityGroups
        { MountTargetId := some (mt.MountTargetId.getD "") } = Except.ok out ∧
      (dataSourceMountTargetRead c conn d).calls =
        [Call.findMountTarget (describeMountTargetsInput d),
         Call.DescribeMountTargetSecurityGroups
           { MountTargetId := some (mt.MountTargetId.getD "") }] ∧
      ∃ groups : Finset String,
        (dataSourceMountTargetRead c conn d).d.Get "security_groups" =
          some (Value.set groups) ∧
        ∀ s, s ∈ groups ↔ (some s ∈ out.SecurityGroups ∨ (s = "" ∧ none ∈ out.SecurityGroups)) := by
  cases h1 : conn.findMountTarget (describeMountTargetsInput d) with
  | error e =>
    rw [read_lookup_error c conn d e h1] at h
    simp [HasError] at h
  | ok mt =>
    cases h2 : conn.DescribeMountTargetSecurityGroups
        { MountTargetId := some (StringValue mt.MountTargetId) } with
    | error e =>
      rw [read_securityGroups_error c conn d mt e h1 h2] at h
      simp [HasError] at h
    | ok out =>
      have hr := read_ok c conn d mt out h1 h2
      rw [StringValue_eq_getD] at h2 hr
      refine ⟨mt, out, rfl, h2, ?_, (StringValueSlice out.SecurityGroups).toFinset, ?_,
        mem_toFinset_StringValueSlice out.SecurityGroups⟩
      · rw [hr]
      · rw [hr]
        simp only []
        rw [Get_Set_same, storedValue_security_groups]

/-- Witness of C4: a read on which both calls succeed and the output has two IDs and an absent
entry, and one whose output names the same ID twice. -/
theorem security_groups_from_describe_call_witness :
    HasError (dataSourceMountTargetRead sampleClient sampleConn sampleData).diags = false ∧
    (∃ mt out,
      sampleConn.findMountTarget (describeMountTargetsInput sampleData) = Except.ok mt ∧
      sampleConn.DescribeMountTargetSecurityGroups
        { MountTargetId := some (mt.MountTargetId.getD "") } = Except.ok out ∧
      (dataSourceMountTargetRead sampleClient sampleConn sampleData).calls =
        [Call.findMountTarget (describeMountTargetsInput sampleData),
         Call.DescribeMountTargetSecurityGroups
           { MountTargetId := some (mt.MountTargetId.getD "") }] ∧
      ∃ groups : Finset String,
        (dataSourceMountTargetRead sampleClient sampleConn sampleData).d.Get "security_groups" =
          some (Value.set groups) ∧
        ∀ s, s ∈ groups ↔
          (some s ∈ out.SecurityGroups ∨ (s = "" ∧ none ∈ out.SecurityGroups))) ∧
    (dataSourceMountTargetRead sampleClient sampleConn sampleData).calls =
      [Call.findMountTarget { MountTargetId := some "fsmt-1" },
       Call.DescribeMountTargetSecurityGroups { MountTargetId := some "fsmt-1" }] ∧
    (∃ groups : Finset String,
      (dataSourceMountTargetRead sampleClient sampleConn sampleData).d.Get "security_groups" =
        some (Value.set groups) ∧ groups = {"sg-1", "", "sg-2"} ∧ groups.card = 3) ∧
    (∃ groups : Finset String,
      (dataSourceMountTargetRead sampleClient repeatedGroupConn sampleData).d.Get
        "security_groups" = some (Value.set groups) ∧ groups = {"sg-1"} ∧ groups.card = 1) ∧
    (dataSourceMountTargetRead sampleClient noIDConn sampleData).calls =
      [Call.findMountTarget { MountTargetId := some "fsmt-1" },
       Call.DescribeMountTargetSecurityGroups { MountTargetId := some "" }] :=
  ⟨by decide, security_groups_from_describe_call sampleClient sampleConn sampleData (by decide),
   by decide, ⟨_, rfl, by decide, by decide⟩, ⟨_, rfl, by decide, by decide⟩, by decide⟩

end EFS

namespace CodePipeline
open Provider

/-! ## The vendor store -/

theorem find_map_of_pred_eq {α : Type} (p : α → Bool) (f : α → α) (l : List α)
    (h : ∀ q, p (f q) = p q) : (l.map f).find? p = (l.find? p).map f := by
  induction l with
  | nil => rfl
  | cons a t ih =>
    simp only [List.map_cons, List.find?_cons, h a]
    cases p a <;> simp [ih]

theorem find_DeletePipeline (v v2 : Vendor) (name : String)
    (h : v.DeletePipeline name = Except.ok v2) : v2.find name = none := by
  unfold Vendor.DeletePipeline at h
  cases hf : v.find name with
  | none => simp [hf] at h
  | some sp =>
    simp only [hf] at h
    injection h with h
    subst h
    simp [Vendor.find, List.find?_eq_none]

theorem read_not_found (v : Vendor) (d : PipelineResource) (h : v.find d.id = none) :
    resourcePipelineRead v d =
      { diags := [], d := { d with id := "" }, vendor := v, calls := [Call.GetPipeline d.id] } := by
  simp [resourcePipelineRead, Vendor.GetPipeline, h, pipelineNotFound]

/-- C8 (on the modelled read handler): once a pipeline was deleted at the vendor by a call the
provider did not make, the read of its state issues one `GetPipeline`, returns no diagnostic
and clears the ID, so nothing is recorded, and the plan for a configuration that still has the
pipeline proposes to create it. -/
theorem read_after_external_delete (v v2 : Vendor) (st cfg : PipelineResource)
    (h : v.DeletePipeline st.id = Except.ok v2) :
    (resourcePipelineRead v2 st).diags = [] ∧
    recorded (resourcePipelineRead v2 st).d = none ∧
    (resourcePipelineRead v2 st).calls = [Call.GetPipeline st.id] ∧
    plan (some cfg) (recorded (resourcePipelineRead v2 st).d) = PlanAction.Create := by
  rw [read_not_found v2 st (find_DeletePipeline v v2 st.id h)]
  simp [recorded, plan]

/-! ## Tag and untag calls -/

theorem find_retag (v : Vendor) (arn : String) (g : Tags → Tags) (n : String) :
    (v.retag arn g).find n =
      (v.find n).map (fun q => if q.arn == arn then { q with tags := g q.tags } else q) := by
  unfold Vendor.retag Vendor.find
  apply find_map_of_pred_eq
  intro q
  by_cases h : (q.arn == arn) = true <;> simp [h]

theorem findARN_retag (v : Vendor) (arn : String) (g : Tags → Tags) (a : String) :
    (v.retag arn g).findARN a =
      (v.findARN a).map (fun q => if q.arn == arn then { q with tags := g q.tags } else q) := by
  unfold Vendor.retag Vendor.findARN
  apply find_map_of_pred_eq
  intro q
  by_cases h : (q.arn == arn) = true <;> simp [h]

theorem retag_retag (v : Vendor) (arn : String) (g1 g2 : Tags → Tags) :
    (v.retag arn g1).retag arn g2 = v.retag arn (fun t => g2 (g1 t)) := by
  unfold Vendor.retag
  simp only [List.map_map]
  congr 1
  apply List.map_congr_left
  intro q _
  by_cases h : q.arn = arn <;> simp [h]

theorem retag_id (v : Vendor) (arn : String) : v.retag arn (fun t => t) = v := by
  unfold Vendor.retag
  have : (fun q : StoredPipeline => if q.arn == arn then { q with tags := q.tags } else q) = id := by
    funext q
    by_cases h : (q.arn == arn) = true <;> simp [h]
  simp [this]

theorem removeTags_nil (t : Tags) : removeTags t [] = t := by
  simp [removeTags]

theorem mergeTags_nil (t : Tags) : mergeTags t [] = t := by
  simp [mergeTags, List.lookup]

/-- The tags a tag update leaves on the ARN. -/
theorem updateTags_ok (v v2 : Vendor) (arn : String) (o n : Tags)
    (h : (updateTags v arn o n).1 = Except.ok v2) :
    v2 = v.retag arn (fun t => mergeTags (removeTags t (removedTagKeys o n)) (updatedTags o n)) := by
  unfold updateTags at h
  by_cases hr : (removedTagKeys o n).isEmpty = true
  · have hr2 : removedTagKeys o n = [] := by simpa using hr
    by_cases hu : (updatedTags o n).isEmpty = true
    · have hu2 : updatedTags o n = [] := by simpa using hu
      simp only [hr, hu, if_true] at h
      injection h with h
      subst h
      simp [hr2, hu2, removeTags_nil, mergeTags_nil, retag_id]
    · simp only [hr, hu, if_true] at h
      simp only [Vendor.TagResource] at h
      cases hf : v.findARN arn with
      | none => simp [hf] at h
      | some sp =>
        simp [hf] at h
        subst h
        simp [hr2, removeTags_nil]
  · simp only [hr] at h
    simp only [Vendor.UntagResource] at h
    cases hf : v.findARN arn with
    | none => simp [hf] at h
    | some sp =>
      simp only [hf] at h
      by_cases hu : (updatedTags o n).isEmpty = true
      · have hu2 : updatedTags o n = [] := by simpa using hu
        simp [hu] at h
        subst h
        simp [hu2, mergeTags_nil]
      · simp [hu, Vendor.TagResource] at h
        cases hf2 : (v.retag arn (fun tags => removeTags tags (removedTagKeys o n))).findARN arn with
        | none => simp [hf2] at h
        | some sp2 =>
          simp [hf2] at h
          subst h
          rw [retag_retag]

/-! ## Tags as maps -/

theorem lookup_filter_key (l : Tags) (P : String → Bool) (k : String) :
    (l.filter (fun kv => P kv.1)).lookup k = if P k then l.lookup k else none := by
  induction l with
  | nil => simp [List.lookup]
  | cons a t ih =>
    obtain ⟨a1, a2⟩ := a
    by_cases h1 : k = a1
    · subst h1
      by_cases hp : P k = true
      · simp [List.filter, hp, List.lookup]
      · have hp2 : P k = false := by simpa using hp
        simp [List.filter, hp2, ih]
    · have h2 : (k == a1) = false := by simpa using h1
      by_cases hp : P a1 = true
      · simp [List.filter, hp, List.lookup, h2, ih]
      · have hp2 : P a1 = false := by simpa using hp
        simp [List.filter, hp2, List.lookup, h2, ih]

theorem lookup_isSome_iff_mem_keys (l : Tags) (k : String) :
    (l.lookup k).isSome = true ↔ k ∈ l.map Prod.fst := by
  induction l with
  | nil => simp [List.lookup]
  | cons a t ih =>
    obtain ⟨a1, a2⟩ := a
    by_cases h1 : k = a1
    · subst h1
      simp [List.lookup]
    · have h2 : (k == a1) = false := by simpa using h1
      simp [List.lookup, h2, ih, h1]

theorem lookup_append_tags (a b : Tags) (k : String) :
    (a ++ b).lookup k = match a.lookup k with
      | some x => some x
      | none => b.lookup k := by
  induction a with
  | nil => simp [List.lookup]
  | cons x t ih =>
    obtain ⟨x1, x2⟩ := x
    by_cases h1 : k = x1
    · subst h1
      simp [List.lookup]
    · have h2 : (k == x1) = false := by simpa using h1
      simp [List.lookup, h2, ih]

theorem lookup_removeTags (t : Tags) (keys : List String) (k : String) :
    (removeTags t keys).lookup k = if keys.contains k then none else t.lookup k := by
  unfold removeTags
  rw [lookup_filter_key t (fun x => !(keys.contains x)) k]
  by_cases h : keys.contains k = true <;> simp [h]

theorem lookup_mergeTags (t new : Tags) (k : String) :
    (mergeTags t new).lookup k = match new.lookup k with
      | some x => some x
      | none => t.lookup k := by
  unfold mergeTags
  rw [lookup_append_tags, lookup_filter_key t (fun x => (new.lookup x).isNone) k]
  cases h : new.lookup k <;> simp

theorem lookup_updatedTags (o n : Tags) (k : String) :
    (updatedTags o n).lookup k = if o.lookup k = n.lookup k then none else n.lookup k := by
  unfold updatedTags
  rw [lookup_filter_key n (fun x => o.lookup x != n.lookup x) k]
  by_cases h : o.lookup k = n.lookup k <;> simp [h]

theorem contains_removedTagKeys (o n : Tags) (k : String) :
    (removedTagKeys o n).contains k = ((o.lookup k).isSome && (n.lookup k).isNone) := by
  unfold removedTagKeys
  rw [Bool.eq_iff_iff]
  simp only [Bool.and_eq_true, lookup_isSome_iff_mem_keys]
  simp [List.mem_filter]

/-- After the untag and tag calls of a tag update, every key has the value the new tags give
it, provided the tags on the ARN were the old tags. -/
theorem lookup_after_update (t o n : Tags) (hsync : ∀ k, t.lookup k = o.lookup k) (k : String) :
    (mergeTags (removeTags t (removedTagKeys o n)) (updatedTags o n)).lookup k = n.lookup k := by
  rw [lookup_mergeTags, lookup_updatedTags, lookup_removeTags, contains_removedTagKeys, hsync k]
  cases ho : o.lookup k <;> cases hn : n.lookup k <;> simp
  rename_i x y
  by_cases hxy : x = y <;> simp [hxy]

/-! ## The read handler -/

theorem findARN_of_find (v : Vendor) (n : String) (sp : StoredPipeline)
    (h : v.find n = some sp) : ∃ sp2, v.findARN sp.arn = some sp2 := by
  have hm : sp ∈ v.pipelines := List.mem_of_find?_eq_some h
  have hs : (v.findARN sp.arn).isSome = true := by
    unfold Vendor.findARN
    rw [List.find?_isSome]
    exact ⟨sp, hm, by simp⟩
  exact Option.isSome_iff_exists.mp hs

theorem name_of_find (v : Vendor) (n : String) (sp : StoredPipeline)
    (h : v.find n = some sp) : sp.declaration.Name = n := by
  have := List.find?_some h
  simpa using this

theorem arn_of_findARN (v : Vendor) (a : String) (sp : StoredPipeline)
    (h : v.findARN a = some sp) : sp.arn = a := by
  have := List.find?_some h
  simpa using this

theorem read_found (v : Vendor) (d : PipelineResource) (sp sp2 : StoredPipeline)
    (h : v.find d.id = some sp) (h2 : v.findARN sp.arn = some sp2) :
    resourcePipelineRead v d =
      { diags := []
        d :=
          { id := d.id
            arn := sp.arn
            name := sp.declaration.Name
            role_arn := sp.declaration.RoleArn
            artifact_store := sp.declaration.ArtifactStores.map flattenArtifactStore
            stage := flattenStageDeclarations d 0
              (maskDeclaration v.secretMask sp.declaration).Stages
            execution_mode := sp.declaration.ExecutionMode
            pipeline_type := sp.declaration.PipelineType
            variable_ := sp.declaration.Variables.map flattenVariableDeclaration
            tags := sp2.tags }
        vendor := v
        calls := [Call.GetPipeline d.id, Call.ListTagsForResource sp.arn] } := by
  simp [resourcePipelineRead, Vendor.GetPipeline, h, Vendor.ListTagsForResource, h2,
    maskDeclaration]

/-! ## The update handler -/

theorem find_UpdatePipeline (v v1 : Vendor) (p : PipelineDeclaration)
    (h : v.UpdatePipeline p = Except.ok v1) (n : String) :
    v1.find n = (v.find n).map (fun q =>
      if q.declaration.Name == p.Name then { q with declaration := p } else q) := by
  unfold Vendor.UpdatePipeline at h
  cases hf : v.find p.Name with
  | none => simp [hf] at h
  | some sp =>
    simp only [hf] at h
    injection h with h
    subst h
    unfold Vendor.find
    apply find_map_of_pred_eq
    intro q
    by_cases hq : q.declaration.Name = p.Name
    · simp [hq]
    · simp [hq]

theorem findARN_UpdatePipeline (v v1 : Vendor) (p : PipelineDeclaration)
    (h : v.UpdatePipeline p = Except.ok v1) (a : String) :
    v1.findARN a = (v.findARN a).map (fun q =>
      if q.declaration.Name == p.Name then { q with declaration := p } else q) := by
  unfold Vendor.UpdatePipeline at h
  cases hf : v.find p.Name with
  | none => simp [hf] at h
  | some sp =>
    simp only [hf] at h
    injection h with h
    subst h
    unfold Vendor.findARN
    apply find_map_of_pred_eq
    intro q
    by_cases hq : q.declaration.Name = p.Name
    · simp [hq]
    · simp [hq]

theorem exists_of_UpdatePipeline (v v1 : Vendor) (p : PipelineDeclaration)
    (h : v.UpdatePipeline p = Except.ok v1) : ∃ sp, v.find p.Name = some sp := by
  unfold Vendor.UpdatePipeline at h
  cases hf : v.find p.Name with
  | none => simp [hf] at h
  | some sp => exact ⟨sp, rfl⟩

theorem secretMask_UpdatePipeline (v v1 : Vendor) (p : PipelineDeclaration)
    (h : v.UpdatePipeline p = Except.ok v1) : v1.secretMask = v.secretMask := by
  unfold Vendor.UpdatePipeline at h
  cases hf : v.find p.Name with
  | none => simp [hf] at h
  | some sp =>
    simp only [hf] at h
    injection h with h
    subst h
    rfl

theorem hasError_AppendErrorf (m : String) : HasError (AppendErrorf [] m) = true := by
  simp [HasError, AppendErrorf]

/-- The steps of an update that returns no error. -/
theorem update_steps (v : Vendor) (old d : PipelineResource)
    (hok : HasError (resourcePipelineUpdate v old d).diags = false) :
    ∃ v1 v2 calls1 calls2,
      ((declarationChanged old d = true ∧
          v.UpdatePipeline (expandPipelineDeclaration d) = Except.ok v1 ∧
          calls1 = [Call.UpdatePipeline (expandPipelineDeclaration d)]) ∨
        (declarationChanged old d = false ∧ v1 = v ∧ calls1 = [])) ∧
      updateTags v1 d.arn old.tags d.tags = (Except.ok v2, calls2) ∧
      resourcePipelineUpdate v old d =
        { resourcePipelineRead v2 d with
          calls := calls1 ++ calls2 ++ (resourcePipelineRead v2 d).calls } := by
  by_cases hc : declarationChanged old d = true
  · cases hu : v.UpdatePipeline (expandPipelineDeclaration d) with
    | error e =>
      simp only [resourcePipelineUpdate, hc, if_true, hu] at hok
      rw [hasError_AppendErrorf] at hok
      cases hok
    | ok v1 =>
      rcases ht : updateTags v1 d.arn old.tags d.tags with ⟨res, calls2⟩
      cases res with
      | error e =>
        simp only [resourcePipelineUpdate, hc, if_true, hu, ht] at hok
        rw [hasError_AppendErrorf] at hok
        cases hok
      | ok v2 =>
        refine ⟨v1, v2, _, calls2, Or.inl ⟨hc, rfl, rfl⟩, ht, ?_⟩
        simp [resourcePipelineUpdate, hc, hu, ht]
  · have hc2 : declarationChanged old d = false := by simpa using hc
    rcases ht : updateTags v d.arn old.tags d.tags with ⟨res, calls2⟩
    cases res with
    | error e =>
      simp only [resourcePipelineUpdate, hc2, Bool.false_eq_true, if_false, ht] at hok
      rw [hasError_AppendErrorf] at hok
      cases hok
    | ok v2 =>
      refine ⟨v, v2, [], calls2, Or.inr ⟨hc2, rfl, rfl⟩, ht, ?_⟩
      simp [resourcePipelineUpdate, hc2, ht]

theorem names_flattenActionDeclarations (d : PipelineResource) (i j : Nat)
    (acts : List ActionDeclaration) :
    (flattenActionDeclarations d i j acts).map (fun a => a.name) = acts.map (fun a => a.Name) := by
  induction acts generalizing j with
  | nil => rfl
  | cons a t ih => simp [flattenActionDeclarations, flattenActionDeclaration, ih]

theorem names_flattenStageDeclarations (d : PipelineResource) (i : Nat)
    (sts : List StageDeclaration) :
    stageNames (flattenStageDeclarations d i sts) =
      sts.map (fun s => (s.Name, s.Actions.map (fun a => a.Name))) := by
  induction sts generalizing i with
  | nil => rfl
  | cons s t ih =>
    have ih2 := ih (i + 1)
    unfold stageNames at ih2 ⊢
    simp [flattenStageDeclarations, names_flattenActionDeclarations, ih2]

theorem names_read_back (d d2 : PipelineResource) (mask : String) :
    stageNames (flattenStageDeclarations d 0
      (maskDeclaration mask (expandPipelineDeclaration d2)).Stages) = stageNames d2.stage := by
  rw [names_flattenStageDeclarations]
  simp [maskDeclaration, expandPipelineDeclaration, stageNames, expandStageDeclaration,
    expandActionDeclaration, List.map_map, Function.comp_def]

theorem secretMask_retag (v : Vendor) (arn : String) (g : Tags → Tags) :
    (v.retag arn g).secretMask = v.secretMask := rfl

theorem updateTags_calls (v : Vendor) (arn : String) (o n : Tags) (call : Call)
    (h : call ∈ (updateTags v arn o n).2) :
    call = Call.UntagResource arn (removedTagKeys o n) ∨
      call = Call.TagResource arn (updatedTags o n) := by
  unfold updateTags at h
  by_cases hr : (removedTagKeys o n).isEmpty = true
  · by_cases hu : (updatedTags o n).isEmpty = true
    · simp [hr, hu] at h
    · simp [hr, hu] at h
      exact Or.inr h
  · simp only [hr] at h
    cases hun : v.UntagResource arn (removedTagKeys o n) with
    | error e =>
      simp [hun] at h
      exact Or.inl h
    | ok v1 =>
      by_cases hu : (updatedTags o n).isEmpty = true
      · simp [hun, hu] at h
        exact Or.inl h
      · simp [hun, hu] at h
        exact h

theorem read_calls (v : Vendor) (d : PipelineResource) (call : Call)
    (h : call ∈ (resourcePipelineRead v d).calls) :
    call = Call.GetPipeline d.id ∨ ∃ a, call = Call.ListTagsForResource a := by
  unfold resourcePipelineRead at h
  cases hg : v.GetPipeline d.id with
  | error e =>
    by_cases hn : e.notFound = true
    · simp [hg, hn] at h
      exact Or.inl h
    · simp [hg, hn] at h
      exact Or.inl h
  | ok out =>
    cases hl : v.ListTagsForResource out.PipelineArn with
    | error e =>
      simp [hg, hl] at h
      rcases h with h | h
      · exact Or.inl h
      · exact Or.inr ⟨_, h⟩
    | ok tags =>
      simp [hg, hl] at h
      rcases h with h | h
      · exact Or.inl h
      · exact Or.inr ⟨_, h⟩

/-- The stored pipeline an update that changed the declaration leaves under the name, and the
state it reads back. -/
theorem update_result (v : Vendor) (old d : PipelineResource)
    (hid : d.id = d.name) (hchg : declarationChanged old d = true)
    (hok : HasError (resourcePipelineUpdate v old d).diags = false) :
    ∃ (sp sp2 : StoredPipeline) (tags : Tags),
      v.find d.name = some sp ∧
      (resourcePipelineUpdate v old d).vendor.find d.name =
        some { arn := sp.arn, declaration := expandPipelineDeclaration d, tags := tags } ∧
      (resourcePipelineUpdate v old d).diags = [] ∧
      (resourcePipelineUpdate v old d).d =
        { id := d.id
          arn := sp.arn
          name := d.name
          role_arn := d.role_arn
          artifact_store :=
            (expandPipelineDeclaration d).ArtifactStores.map flattenArtifactStore
          stage := flattenStageDeclarations d 0
            (maskDeclaration v.secretMask (expandPipelineDeclaration d)).Stages
          execution_mode := d.execution_mode
          pipeline_type := d.pipeline_type
          variable_ := (expandPipelineDeclaration d).Variables.map flattenVariableDeclaration
          tags := sp2.tags } := by
  obtain ⟨v1, v2, calls1, calls2, hstep, htags, heq⟩ := update_steps v old d hok
  rcases hstep with ⟨_, hu, _⟩ | ⟨hc, _, _⟩
  · obtain ⟨sp, hsp⟩ := exists_of_UpdatePipeline v v1 _ hu
    have hname : (expandPipelineDeclaration d).Name = d.name := rfl
    rw [hname] at hsp
    have hspn : sp.declaration.Name = d.name := name_of_find v _ sp hsp
    have h1 : v1.find d.name =
        some { arn := sp.arn, declaration := expandPipelineDeclaration d, tags := sp.tags } := by
      rw [find_UpdatePipeline v v1 _ hu, hsp]
      simp [hspn, hname]
    have hv2 := updateTags_ok v1 v2 d.arn old.tags d.tags (by rw [htags])
    have h2 : ∃ tags, v2.find d.name =
        some { arn := sp.arn, declaration := expandPipelineDeclaration d, tags := tags } := by
      rw [hv2, find_retag, h1]
      by_cases ha : sp.arn = d.arn
      · exact ⟨mergeTags (removeTags sp.tags (removedTagKeys old.tags d.tags))
          (updatedTags old.tags d.tags), by simp [ha]⟩
      · exact ⟨sp.tags, by simp [ha]⟩
    obtain ⟨tags, h2⟩ := h2
    obtain ⟨sp2, h3⟩ := findARN_of_find v2 d.name _ h2
    have hm : v2.secretMask = v.secretMask := by
      rw [hv2, secretMask_retag, secretMask_UpdatePipeline v v1 _ hu]
    have hr := read_found v2 d _ sp2 (by rw [hid]; exact h2) h3
    refine ⟨sp, sp2, tags, hsp, ?_, ?_, ?_⟩
    · rw [heq, hr]
      exact h2
    · rw [heq, hr]
    · rw [heq, hr, hm]
      rfl
  · rw [hc] at hchg
    cases hchg

theorem stage_ne_declarationChanged (old d : PipelineResource) (h : old.stage ≠ d.stage) :
    declarationChanged old d = true := by
  simp [declarationChanged, h]

/-! ## Changes in place -/

theorem update_calls (v : Vendor) (old d : PipelineResource) (call : Call)
    (h : call ∈ (resourcePipelineUpdate v old d).calls) :
    call = Call.UpdatePipeline (expandPipelineDeclaration d) ∨
      call = Call.UntagResource d.arn (removedTagKeys old.tags d.tags) ∨
      call = Call.TagResource d.arn (updatedTags old.tags d.tags) ∨
      call = Call.GetPipeline d.id ∨ ∃ a, call = Call.ListTagsForResource a := by
  unfold resourcePipelineUpdate at h
  by_cases hc : declarationChanged old d = true
  · simp only [hc, if_true] at h
    cases hu : v.UpdatePipeline (expandPipelineDeclaration d) with
    | error e =>
      simp only [hu, List.mem_singleton] at h
      exact Or.inl h
    | ok v1 =>
      simp only [hu] at h
      rcases ht : updateTags v1 d.arn old.tags d.tags with ⟨res, calls2⟩
      have hc2 : calls2 = (updateTags v1 d.arn old.tags d.tags).2 := by rw [ht]
      cases res with
      | error e =>
        simp only [ht, List.mem_append, List.mem_singleton] at h
        rcases h with h | h
        · exact Or.inl h
        · rw [hc2] at h
          rcases updateTags_calls _ _ _ _ _ h with h | h
          · exact Or.inr (Or.inl h)
          · exact Or.inr (Or.inr (Or.inl h))
      | ok v2 =>
        simp only [ht, List.mem_append, List.mem_singleton] at h
        rcases h with (h | h) | h
        · exact Or.inl h
        · rw [hc2] at h
          rcases updateTags_calls _ _ _ _ _ h with h | h
          · exact Or.inr (Or.inl h)
          · exact Or.inr (Or.inr (Or.inl h))
        · exact Or.inr (Or.inr (Or.inr (read_calls _ _ _ h)))
  · have hc3 : declarationChanged old d = false := by simpa using hc
    simp only [hc3, Bool.false_eq_true, if_false] at h
    rcases ht : updateTags v d.arn old.tags d.tags with ⟨res, calls2⟩
    have hc2 : calls2 = (updateTags v d.arn old.tags d.tags).2 := by rw [ht]
    cases res with
    | error e =>
      simp only [ht, List.nil_append] at h
      rw [hc2] at h
      rcases updateTags_calls _ _ _ _ _ h with h | h
      · exact Or.inr (Or.inl h)
      · exact Or.inr (Or.inr (Or.inl h))
    | ok v2 =>
      simp only [ht, List.nil_append, List.mem_append] at h
      rcases h with h | h
      · rw [hc2] at h
        rcases updateTags_calls _ _ _ _ _ h with h | h
        · exact Or.inr (Or.inl h)
        · exact Or.inr (Or.inr (Or.inl h))
      · exact Or.inr (Or.inr (Or.inr (read_calls _ _ _ h)))

theorem update_never_creates_or_deletes (v : Vendor) (old d : PipelineResource) (call : Call)
    (h : call ∈ (resourcePipelineUpdate v old d).calls) : createsOrDeletes call = false := by
  rcases update_calls v old d call h with h | h | h | h | ⟨a, h⟩ <;> subst h <;> rfl

theorem applyPlan_update (c : Client) (v : Vendor) (cfg st : PipelineResource)
    (hname : cfg.name = st.name) (hchg : declarationChanged st (planned cfg st) = true) :
    applyPlan c v (some cfg) (some st) = resourcePipelineUpdate v st (planned cfg st) ∧
      plan (some cfg) (some st) = PlanAction.Update := by
  simp [applyPlan, plan, hname, hchg]

/-- C6 (on the modelled plan and update handler): for a pipeline in state, a configuration of the
same name whose execution mode or pipeline type (the configured value, or the default when
omitted) differs from the state is planned as an update; applying it issues no create and no
delete call, issues `UpdatePipeline` for the same name, keeps the ID, and reads back the
configured execution mode and pipeline type. -/
theorem mode_and_type_change_in_place (c : Client) (v : Vendor) (cfg st : PipelineResource)
    (hname : cfg.name = st.name) (hid : st.id = st.name)
    (hchg : (applyDefaults cfg).execution_mode ≠ st.execution_mode ∨
      (applyDefaults cfg).pipeline_type ≠ st.pipeline_type)
    (hok : HasError (applyPlan c v (some cfg) (some st)).diags = false) :
    plan (some cfg) (some st) = PlanAction.Update ∧
    (∀ call ∈ (applyPlan c v (some cfg) (some st)).calls, createsOrDeletes call = false) ∧
    Call.UpdatePipeline (expandPipelineDeclaration (planned cfg st)) ∈
      (applyPlan c v (some cfg) (some st)).calls ∧
    (expandPipelineDeclaration (planned cfg st)).Name = st.name ∧
    (applyPlan c v (some cfg) (some st)).d.id = st.id ∧
    (applyPlan c v (some cfg) (some st)).d.execution_mode = (applyDefaults cfg).execution_mode ∧
    (applyPlan c v (some cfg) (some st)).d.pipeline_type = (applyDefaults cfg).pipeline_type := by
  have hdc : declarationChanged st (planned cfg st) = true := by
    have h1 : (planned cfg st).execution_mode = (applyDefaults cfg).execution_mode := rfl
    have h2 : (planned cfg st).pipeline_type = (applyDefaults cfg).pipeline_type := rfl
    rcases hchg with h | h
    · have : st.execution_mode ≠ (planned cfg st).execution_mode := by
        rw [h1]; exact fun e => h e.symm
      simp [declarationChanged, this]
    · have : st.pipeline_type ≠ (planned cfg st).pipeline_type := by
        rw [h2]; exact fun e => h e.symm
      simp [declarationChanged, this]
  obtain ⟨happ, hplan⟩ := applyPlan_update c v cfg st hname hdc
  rw [happ] at hok ⊢
  have hpid : (planned cfg st).id = (planned cfg st).name := by
    show st.id = cfg.name
    rw [hid, hname]
  obtain ⟨sp, sp2, tags, _, _, _, hd⟩ := update_result v st (planned cfg st) hpid hdc hok
  obtain ⟨v1, v2, calls1, calls2, hstep, _, heq⟩ := update_steps v st (planned cfg st) hok
  refine ⟨hplan, ?_, ?_, ?_, ?_, ?_, ?_⟩
  · intro call hcall
    exact update_never_creates_or_deletes v st _ call hcall
  · rcases hstep with ⟨_, _, h⟩ | ⟨h, _, _⟩
    · rw [heq, h]
      simp
    · rw [h] at hdc
      cases hdc
  · show cfg.name = st.name
    exact hname
  · rw [hd]
    rfl
  · rw [hd]
    rfl
  · rw [hd]
    rfl

/-- Tag and untag calls leave every stored declaration as it is. -/
theorem updateTags_keeps_declarations (v v2 : Vendor) (arn : String) (o n : Tags)
    (h : (updateTags v arn o n).1 = Except.ok v2) (name : String) :
    (v2.find name).map (fun q => q.declaration) = (v.find name).map (fun q => q.declaration) := by
  rw [updateTags_ok v v2 arn o n h, find_retag]
  cases v.find name with
  | none => rfl
  | some sp =>
    by_cases ha : sp.arn = arn <;> simp [ha]

/-- The calls of a tag update that succeeds: an `UntagResource` when a key is to be removed,
then a `TagResource` when a tag is new or changed. -/
theorem updateTags_calls_ok (v v2 : Vendor) (arn : String) (o n : Tags)
    (h : (updateTags v arn o n).1 = Except.ok v2) :
    (updateTags v arn o n).2 =
      (if (removedTagKeys o n).isEmpty then []
        else [Call.UntagResource arn (removedTagKeys o n)]) ++
      (if (updatedTags o n).isEmpty then []
        else [Call.TagResource arn (updatedTags o n)]) := by
  unfold updateTags at h ⊢
  by_cases hr : (removedTagKeys o n).isEmpty = true
  · by_cases hu : (updatedTags o n).isEmpty = true
    · simp [hr, hu]
    · simp [hr, hu]
  · simp only [hr] at h ⊢
    cases hun : v.UntagResource arn (removedTagKeys o n) with
    | error e => simp [hun] at h
    | ok v1 =>
      by_cases hu : (updatedTags o n).isEmpty = true
      · simp [hu]
      · simp [hu]

theorem mem_of_lookup (l : Tags) (k w : String) (h : l.lookup k = some w) : (k, w) ∈ l := by
  induction l with
  | nil => cases h
  | cons a t ih =>
    obtain ⟨a1, a2⟩ := a
    by_cases hk : k = a1
    · subst hk
      simp [List.lookup] at h
      subst h
      exact List.mem_cons_self _ _
    · have hk2 : (k == a1) = false := by simpa using hk
      simp only [List.lookup, hk2] at h
      exact List.mem_cons_of_mem _ (ih h)

/-- Tags maps that differ give the tag update something to do: a key to remove or a tag to
send. -/
theorem tag_change_of_not_sameTags (o n : Tags) (h : sameTags n o = false) :
    removedTagKeys o n ≠ [] ∨ updatedTags o n ≠ [] := by
  by_contra hcon
  rw [not_or, not_not, not_not] at hcon
  obtain ⟨hr, hu⟩ := hcon
  have hu2 : ∀ kv ∈ n, o.lookup kv.1 = n.lookup kv.1 := by
    intro kv hkv
    by_contra hne
    have hm : kv ∈ updatedTags o n := by
      unfold updatedTags
      rw [List.mem_filter]
      exact ⟨hkv, by simpa using hne⟩
    rw [hu] at hm
    cases hm
  have hr2 : ∀ kv ∈ o, n.lookup kv.1 ≠ none := by
    intro kv hkv hnone
    have hm : kv.1 ∈ removedTagKeys o n := by
      unfold removedTagKeys
      rw [List.mem_filter]
      exact ⟨List.mem_map_of_mem _ hkv, by simp [hnone]⟩
    rw [hr] at hm
    cases hm
  have hs : sameTags n o = true := by
    unfold sameTags
    rw [Bool.and_eq_true, List.all_eq_true, List.all_eq_true]
    constructor
    · intro kv hkv
      simpa using hu2 kv hkv
    · intro kv hkv
      cases hl : n.lookup kv.1 with
      | none => exact absurd hl (hr2 kv hkv)
      | some w =>
        have h3 := hu2 (kv.1, w) (mem_of_lookup n kv.1 w hl)
        simp only [] at h3
        rw [h3, hl]
        simp
  rw [hs] at h
  cases h

/-- C7 (on the modelled update handler): when the state matches the vendor (the pipeline of the
ID is the pipeline of the ARN, with the tags of the state), an update that returns no error
reads back tags that give every key the value the configured tags give it; the only calls are
an `UpdatePipeline`, an `UntagResource` and a `TagResource` on the ARN, and the calls of the
read; when only the tags changed there is no `UpdatePipeline` and the stored declaration
is the one from before; and the tag calls never alter a stored declaration. The calls are
exactly: the `UpdatePipeline` when the declaration changed, then an `UntagResource` on the ARN
with the removed keys when there is one, then a `TagResource` on the ARN with the new and
changed tags when there is one, then the two calls of the read; so when the tags maps differ
at least one of the two tag calls is issued. -/
theorem tags_change_by_separate_calls (v : Vendor) (old d : PipelineResource) (sp : StoredPipeline)
    (hfind : v.find d.id = some sp) (harn : v.findARN d.arn = some sp)
    (hsync : ∀ k, sp.tags.lookup k = old.tags.lookup k)
    (hok : HasError (resourcePipelineUpdate v old d).diags = false) :
    (∀ k, (resourcePipelineUpdate v old d).d.tags.lookup k = d.tags.lookup k) ∧
    (∀ call ∈ (resourcePipelineUpdate v old d).calls,
      call = Call.UpdatePipeline (expandPipelineDeclaration d) ∨
      call = Call.UntagResource d.arn (removedTagKeys old.tags d.tags) ∨
      call = Call.TagResource d.arn (updatedTags old.tags d.tags) ∨
      call = Call.GetPipeline d.id ∨ ∃ a, call = Call.ListTagsForResource a) ∧
    (declarationChanged old d = false →
      (∀ p, Call.UpdatePipeline p ∉ (resourcePipelineUpdate v old d).calls) ∧
      ((resourcePipelineUpdate v old d).vendor.find d.id).map (fun q => q.declaration) =
        some sp.declaration) ∧
    (∀ (w w2 : Vendor) (name : String),
      (updateTags w d.arn old.tags d.tags).1 = Except.ok w2 →
      (w2.find name).map (fun q => q.declaration) =
        (w.find name).map (fun q => q.declaration)) ∧
    (resourcePipelineUpdate v old d).calls =
      (if declarationChanged old d then [Call.UpdatePipeline (expandPipelineDeclaration d)]
        else []) ++
      (if (removedTagKeys old.tags d.tags).isEmpty then []
        else [Call.UntagResource d.arn (removedTagKeys old.tags d.tags)]) ++
      (if (updatedTags old.tags d.tags).isEmpty then []
        else [Call.TagResource d.arn (updatedTags old.tags d.tags)]) ++
      [Call.GetPipeline d.id, Call.ListTagsForResource d.arn] ∧
    (removedTagKeys old.tags d.tags ≠ [] →
      Call.UntagResource d.arn (removedTagKeys old.tags d.tags) ∈
        (resourcePipelineUpdate v old d).calls) ∧
    (updatedTags old.tags d.tags ≠ [] →
      Call.TagResource d.arn (updatedTags old.tags d.tags) ∈
        (resourcePipelineUpdate v old d).calls) ∧
    (sameTags d.tags old.tags = false →
      Call.UntagResource d.arn (removedTagKeys old.tags d.tags) ∈
        (resourcePipelineUpdate v old d).calls ∨
      Call.TagResource d.arn (updatedTags old.tags d.tags) ∈
        (resourcePipelineUpdate v old d).calls) := by
  obtain ⟨v1, v2, calls1, calls2, hstep, htags, heq⟩ := update_steps v old d hok
  have hsparn : sp.arn = d.arn := arn_of_findARN v d.arn sp harn
  -- the stored pipeline after the declaration step
  have h1 : ∃ sp1 : StoredPipeline, v1.find d.id = some sp1 ∧ v1.findARN d.arn = some sp1 ∧
      sp1.tags = sp.tags ∧ sp1.arn = d.arn := by
    rcases hstep with ⟨_, hu, _⟩ | ⟨_, hv, _⟩
    · refine ⟨if sp.declaration.Name == (expandPipelineDeclaration d).Name then
          { sp with declaration := expandPipelineDeclaration d } else sp, ?_, ?_, ?_, ?_⟩
      · rw [find_UpdatePipeline v v1 _ hu, hfind]
        rfl
      · rw [findARN_UpdatePipeline v v1 _ hu, harn]
        rfl
      · by_cases hn : sp.declaration.Name = (expandPipelineDeclaration d).Name <;> simp [hn]
      · by_cases hn : sp.declaration.Name = (expandPipelineDeclaration d).Name <;>
          simp [hn, hsparn]
    · subst hv
      exact ⟨sp, hfind, harn, rfl, hsparn⟩
  obtain ⟨sp1, hf1, ha1, ht1, harn1⟩ := h1
  have hv2 := updateTags_ok v1 v2 d.arn old.tags d.tags (by rw [htags])
  have hf2 : v2.find d.id = some (StoredPipeline.mk sp1.arn sp1.declaration
      (mergeTags (removeTags sp1.tags (removedTagKeys old.tags d.tags))
        (updatedTags old.tags d.tags))) := by
    rw [hv2, find_retag, hf1]
    simp [harn1]
  have ha2 : v2.findARN d.arn = some (StoredPipeline.mk sp1.arn sp1.declaration
      (mergeTags (removeTags sp1.tags (removedTagKeys old.tags d.tags))
        (updatedTags old.tags d.tags))) := by
    rw [hv2, findARN_retag, ha1]
    simp [harn1]
  have hr := read_found v2 d _ _ hf2 (by rw [harn1]; exact ha2)
  have hcalls : (resourcePipelineUpdate v old d).calls =
      (if declarationChanged old d then [Call.UpdatePipeline (expandPipelineDeclaration d)]
        else []) ++
      (if (removedTagKeys old.tags d.tags).isEmpty then []
        else [Call.UntagResource d.arn (removedTagKeys old.tags d.tags)]) ++
      (if (updatedTags old.tags d.tags).isEmpty then []
        else [Call.TagResource d.arn (updatedTags old.tags d.tags)]) ++
      [Call.GetPipeline d.id, Call.ListTagsForResource d.arn] := by
    have hc1 : calls1 = (if declarationChanged old d then
        [Call.UpdatePipeline (expandPipelineDeclaration d)] else []) := by
      rcases hstep with ⟨h, _, hc⟩ | ⟨h, _, hc⟩
      · rw [h, hc]
        rfl
      · rw [h, hc]
        rfl
    have hc2 : calls2 = (updateTags v1 d.arn old.tags d.tags).2 := by rw [htags]
    rw [heq, hr]
    simp only []
    rw [hc1, hc2, updateTags_calls_ok v1 v2 d.arn old.tags d.tags (by rw [htags]), harn1]
    simp only [List.append_assoc]
  have huntag : removedTagKeys old.tags d.tags ≠ [] →
      Call.UntagResource d.arn (removedTagKeys old.tags d.tags) ∈
        (resourcePipelineUpdate v old d).calls := by
    intro hne
    have he : (removedTagKeys old.tags d.tags).isEmpty = false := by
      cases hl : removedTagKeys old.tags d.tags with
      | nil => exact absurd hl hne
      | cons a t => rfl
    rw [hcalls]
    simp [he]
  have htag : updatedTags old.tags d.tags ≠ [] →
      Call.TagResource d.arn (updatedTags old.tags d.tags) ∈
        (resourcePipelineUpdate v old d).calls := by
    intro hne
    have he : (updatedTags old.tags d.tags).isEmpty = false := by
      cases hl : updatedTags old.tags d.tags with
      | nil => exact absurd hl hne
      | cons a t => rfl
    rw [hcalls]
    simp [he]
  refine ⟨?_, ?_, ?_, ?_, hcalls, huntag, htag, ?_⟩
  rotate_right
  · intro hdiff
    rcases tag_change_of_not_sameTags old.tags d.tags hdiff with h | h
    · exact Or.inl (huntag h)
    · exact Or.inr (htag h)
  · intro k
    rw [heq, hr]
    simp only []
    rw [ht1]
    exact lookup_after_update sp.tags old.tags d.tags hsync k
  · intro call hcall
    exact update_calls v old d call hcall
  · intro hsame
    have hv1 : v1 = v ∧ calls1 = [] := by
      rcases hstep with ⟨h, _, _⟩ | ⟨_, h1, h2⟩
      · rw [hsame] at h
        cases h
      · exact ⟨h1, h2⟩
    obtain ⟨hv1, hcalls1⟩ := hv1
    subst hv1
    constructor
    · intro p hp
      rw [heq, hcalls1] at hp
      simp only [List.nil_append, List.mem_append] at hp
      have hc2 : calls2 = (updateTags v1 d.arn old.tags d.tags).2 := by rw [htags]
      rcases hp with hp | hp
      · rw [hc2] at hp
        rcases updateTags_calls _ _ _ _ _ hp with h | h <;> cases h
      · rcases read_calls _ _ _ hp with h | ⟨a, h⟩ <;> cases h
    · rw [heq, hr]
      simp only []
      rw [hf2]
      rw [hfind] at hf1
      injection hf1 with hf1
      subst hf1
      rfl
  · intro w w2 name hw
    exact updateTags_keeps_declarations w w2 d.arn old.tags d.tags hw name

/-! ## The create handler and the artifact names -/

theorem find_CreatePipeline (c : Client) (v v1 : Vendor) (p : PipelineDeclaration) (tags : Tags)
    (h : v.CreatePipeline c p tags = Except.ok v1) :
    v1.find p.Name = some { arn := pipelineARN c p.Name, declaration := p, tags := tags } ∧
      v1.secretMask = v.secretMask := by
  unfold Vendor.CreatePipeline at h
  cases hf : v.find p.Name with
  | some sp => simp [hf] at h
  | none =>
    simp only [hf] at h
    injection h with h
    subst h
    constructor
    · unfold Vendor.find at hf ⊢
      simp only [List.find?_append, hf]
      simp
    · rfl

/-- The steps of a create that returns no error. -/
theorem create_steps (c : Client) (v : Vendor) (d : PipelineResource)
    (hok : HasError (resourcePipelineCreate c v d).diags = false) :
    ∃ v1, v.CreatePipeline c (expandPipelineDeclaration d) d.tags = Except.ok v1 ∧
      resourcePipelineCreate c v d =
        { resourcePipelineRead v1 { d with id := d.name } with
          calls := Call.CreatePipeline (expandPipelineDeclaration d) d.tags ::
            (resourcePipelineRead v1 { d with id := d.name }).calls } := by
  cases hc : v.CreatePipeline c (expandPipelineDeclaration d) d.tags with
  | error e =>
    simp only [resourcePipelineCreate, hc] at hok
    rw [hasError_AppendErrorf] at hok
    cases hok
  | ok v1 =>
    refine ⟨v1, rfl, ?_⟩
    simp only [resourcePipelineCreate, hc]
    rfl

/-- The state a create that returns no error records. -/
theorem create_result (c : Client) (v : Vendor) (d : PipelineResource)
    (hok : HasError (resourcePipelineCreate c v d).diags = false) :
    ∃ sp2 : StoredPipeline,
      (resourcePipelineCreate c v d).diags = [] ∧
      (resourcePipelineCreate c v d).d =
        { id := d.name
          arn := pipelineARN c d.name
          name := d.name
          role_arn := d.role_arn
          artifact_store :=
            (expandPipelineDeclaration d).ArtifactStores.map flattenArtifactStore
          stage := flattenStageDeclarations { d with id := d.name } 0
            (maskDeclaration v.secretMask (expandPipelineDeclaration d)).Stages
          execution_mode := d.execution_mode
          pipeline_type := d.pipeline_type
          variable_ := (expandPipelineDeclaration d).Variables.map flattenVariableDeclaration
          tags := sp2.tags } := by
  obtain ⟨v1, hc, heq⟩ := create_steps c v d hok
  obtain ⟨hf, hm⟩ := find_CreatePipeline c v v1 _ _ hc
  have hname : (expandPipelineDeclaration d).Name = d.name := rfl
  rw [hname] at hf
  obtain ⟨sp2, h3⟩ := findARN_of_find v1 d.name _ hf
  have hr := read_found v1 { d with id := d.name } _ sp2 hf h3
  refine ⟨sp2, ?_, ?_⟩
  · rw [heq, hr]
  · rw [heq, hr, hm]
    rfl

theorem artifacts_flattenActionDeclarations (d : PipelineResource) (i j : Nat)
    (acts : List ActionDeclaration) :
    (flattenActionDeclarations d i j acts).map (fun a => (a.input_artifacts, a.output_artifacts)) =
      acts.map (fun a => (a.InputArtifacts, a.OutputArtifacts)) := by
  induction acts generalizing j with
  | nil => rfl
  | cons a t ih => simp [flattenActionDeclarations, flattenActionDeclaration, ih]

theorem artifacts_flattenStageDeclarations (d : PipelineResource) (i : Nat)
    (sts : List StageDeclaration) :
    stageArtifacts (flattenStageDeclarations d i sts) =
      sts.map (fun s => s.Actions.map (fun a => (a.InputArtifacts, a.OutputArtifacts))) := by
  induction sts generalizing i with
  | nil => rfl
  | cons s t ih =>
    have ih2 := ih (i + 1)
    unfold stageArtifacts at ih2 ⊢
    simp [flattenStageDeclarations, artifacts_flattenActionDeclarations, ih2]

/-- The artifact names read back from the declaration of a configuration are its non-empty
artifact names. -/
theorem artifacts_read_back (d d2 : PipelineResource) (mask : String) :
    stageArtifacts (flattenStageDeclarations d 0
      (maskDeclaration mask (expandPipelineDeclaration d2)).Stages) =
      d2.stage.map (fun s => s.action.map (fun a =>
        (a.input_artifacts.filter (fun n => n != ""),
         a.output_artifacts.filter (fun n => n != "")))) := by
  rw [artifacts_flattenStageDeclarations]
  simp [maskDeclaration, expandPipelineDeclaration, expandStageDeclaration,
    expandActionDeclaration, expandArtifacts, List.map_map, Function.comp_def]

theorem artifacts_plannedActions (cfgs sts : List ActionBlock) :
    (plannedActions cfgs sts).map (fun a => (a.input_artifacts, a.output_artifacts)) =
      cfgs.map (fun a => (a.input_artifacts, a.output_artifacts)) := by
  induction cfgs generalizing sts with
  | nil => simp [plannedActions]
  | cons a t ih =>
    cases sts with
    | nil => simp [plannedActions, plannedAction, ih]
    | cons b u => simp [plannedActions, plannedAction, ih]

theorem artifacts_plannedStages (cfgs sts : List StageBlock) :
    stageArtifacts (plannedStages cfgs sts) = stageArtifacts cfgs := by
  induction cfgs generalizing sts with
  | nil => simp [plannedStages, stageArtifacts]
  | cons s t ih =>
    cases sts with
    | nil =>
      have ih2 := ih []
      unfold stageArtifacts at ih2 ⊢
      simp [plannedStages, artifacts_plannedActions, ih2]
    | cons b u =>
      have ih2 := ih u
      unfold stageArtifacts at ih2 ⊢
      simp [plannedStages, artifacts_plannedActions, ih2]

theorem filter_nonempty_eq_self (l : List String) (h : l.filter (fun n => n != "") = l) :
    "" ∉ l := by
  intro hm
  rw [← h] at hm
  simp [List.mem_filter] at hm

/-- A configuration with an empty artifact name differs from every state that holds the
non-empty names only. -/
theorem planned_differs_of_empty_artifact (cfg st : PipelineResource)
    (hst : stageArtifacts st.stage = cfg.stage.map (fun s => s.action.map (fun a =>
        (a.input_artifacts.filter (fun n => n != ""),
         a.output_artifacts.filter (fun n => n != "")))))
    (hempty : ∃ s ∈ cfg.stage, ∃ a ∈ s.action, "" ∈ a.input_artifacts ∨ "" ∈ a.output_artifacts) :
    declarationChanged st (planned cfg st) = true := by
  apply stage_ne_declarationChanged
  intro heq
  have h1 : stageArtifacts st.stage = stageArtifacts cfg.stage := by
    have : (planned cfg st).stage = plannedStages cfg.stage st.stage := rfl
    rw [this] at heq
    conv_lhs => rw [heq]
    exact artifacts_plannedStages cfg.stage st.stage
  rw [hst] at h1
  unfold stageArtifacts at h1
  obtain ⟨s, hs, a, ha, hor⟩ := hempty
  have h2 := (List.map_inj_left.mp h1) s hs
  have h3 := (List.map_inj_left.mp h2) a ha
  simp only [Prod.mk.injEq] at h3
  rcases hor with h | h
  · exact filter_nonempty_eq_self _ h3.1 h
  · exact filter_nonempty_eq_self _ h3.2 h

/-- C9 (on the modelled handlers): the declaration of an action holds its non-empty configured
artifact names in order (`["test", ""]` gives `["test"]`, `[""]` gives none); after a create
that returns no error the artifacts read back are those names; and when some configured name
is empty, the plan after the apply is not empty. -/
theorem empty_artifact_names_are_dropped (c : Client) (v : Vendor) (cfg : PipelineResource)
    (hok : HasError (applyPlan c v (some cfg) none).diags = false) :
    (∀ a : ActionBlock,
      (expandActionDeclaration a).InputArtifacts = a.input_artifacts.filter (fun n => n != "") ∧
      (expandActionDeclaration a).OutputArtifacts =
        a.output_artifacts.filter (fun n => n != "")) ∧
    (expandArtifacts ["test", ""] = ["test"] ∧ expandArtifacts [""] = []) ∧
    stageArtifacts (applyPlan c v (some cfg) none).d.stage =
      cfg.stage.map (fun s => s.action.map (fun a =>
        (a.input_artifacts.filter (fun n => n != ""),
         a.output_artifacts.filter (fun n => n != "")))) ∧
    ((∃ s ∈ cfg.stage, ∃ a ∈ s.action, "" ∈ a.input_artifacts ∨ "" ∈ a.output_artifacts) →
      plan (some cfg) (recorded (applyPlan c v (some cfg) none).d) ≠ PlanAction.NoOp) := by
  have happ : applyPlan c v (some cfg) none = resourcePipelineCreate c v (applyDefaults cfg) := rfl
  rw [happ] at hok ⊢
  obtain ⟨sp2, _, hd⟩ := create_result c v (applyDefaults cfg) hok
  have hart : stageArtifacts (resourcePipelineCreate c v (applyDefaults cfg)).d.stage =
      cfg.stage.map (fun s => s.action.map (fun a =>
        (a.input_artifacts.filter (fun n => n != ""),
         a.output_artifacts.filter (fun n => n != "")))) := by
    rw [hd]
    exact artifacts_read_back _ (applyDefaults cfg) v.secretMask
  refine ⟨fun a => ⟨rfl, rfl⟩, ⟨by decide, by decide⟩, hart, ?_⟩
  intro hempty
  generalize hst : (resourcePipelineCreate c v (applyDefaults cfg)).d = st at hart
  unfold recorded
  by_cases hid : (st.id == "") = true
  · simp [hid, plan]
  · have hdc := planned_differs_of_empty_artifact cfg st hart hempty
    by_cases hn : (cfg.name != st.name) = true
    · simp [hid, plan, hn]
    · simp [hid, plan, hn, hdc]

/-! ## Import -/

theorem withoutTokenEntry_setOAuthToken (l : List (String × String)) (t : String) :
    withoutTokenEntry (setOAuthToken t l) = withoutTokenEntry l := by
  unfold withoutTokenEntry setOAuthToken
  induction l with
  | nil => rfl
  | cons a r ih =>
    obtain ⟨a1, a2⟩ := a
    cases h : (a1 == "OAuthToken") with
    | true =>
      have h2 : (a1 != "OAuthToken") = false := by simp [bne, h]
      simp only [List.map_cons, h, if_true, List.filter_cons, h2]
      exact ih
    | false =>
      have h2 : (a1 != "OAuthToken") = true := by simp [bne, h]
      simp only [List.map_cons, h, List.filter_cons, h2, if_true]
      simp only [Bool.false_eq_true, if_false, List.filter_cons, h2, if_true]
      rw [ih]

theorem withoutToken_flattenActionDeclaration (d d2 : PipelineResource) (i j : Nat)
    (a : ActionDeclaration) :
    (flattenActionDeclaration d i j a).withoutOAuthToken =
      (flattenActionDeclaration d2 i j a).withoutOAuthToken := by
  unfold flattenActionDeclaration ActionBlock.withoutOAuthToken
  cases hp : (a.Provider == "GitHub") with
  | true => simp only [if_true, withoutTokenEntry_setOAuthToken]
  | false => rfl

theorem withoutToken_flattenActionDeclarations (d d2 : PipelineResource) (i j : Nat)
    (acts : List ActionDeclaration) :
    (flattenActionDeclarations d i j acts).map ActionBlock.withoutOAuthToken =
      (flattenActionDeclarations d2 i j acts).map ActionBlock.withoutOAuthToken := by
  induction acts generalizing j with
  | nil => rfl
  | cons a t ih =>
    simp only [flattenActionDeclarations, List.map_cons]
    rw [ih (j + 1), withoutToken_flattenActionDeclaration d d2 i j a]

theorem withoutToken_flattenStageDeclarations (d d2 : PipelineResource) (i : Nat)
    (sts : List StageDeclaration) :
    (flattenStageDeclarations d i sts).map StageBlock.withoutOAuthToken =
      (flattenStageDeclarations d2 i sts).map StageBlock.withoutOAuthToken := by
  induction sts generalizing i with
  | nil => rfl
  | cons s t ih =>
    simp only [flattenStageDeclarations, List.map_cons]
    rw [ih (i + 1)]
    simp only [StageBlock.withoutOAuthToken]
    rw [withoutToken_flattenActionDeclarations d d2 i 0 s.Actions]

theorem read_vendor (v : Vendor) (d : PipelineResource) : (resourcePipelineRead v d).vendor = v := by
  unfold resourcePipelineRead
  cases v.GetPipeline d.id with
  | error e => by_cases h : e.notFound = true <;> simp [h]
  | ok out =>
    cases hl : v.ListTagsForResource out.PipelineArn <;> simp [hl]

/-- A read and an import of the same ID on the same vendor record the same state, up to the
`OAuthToken` entries of the action configurations. -/
theorem import_agrees_with_read (v : Vendor) (d st : PipelineResource)
    (h : recorded (resourcePipelineRead v d).d = some st) :
    (resourcePipelineImport v st.id).diags = [] ∧
      recorded (resourcePipelineImport v st.id).d = some (resourcePipelineImport v st.id).d ∧
      withoutOAuthToken (resourcePipelineImport v st.id).d = withoutOAuthToken st := by
  cases hf : v.find d.id with
  | none =>
    rw [read_not_found v d hf] at h
    simp [recorded] at h
  | some sp =>
    obtain ⟨sp2, h2⟩ := findARN_of_find v d.id sp hf
    rw [read_found v d sp sp2 hf h2] at h
    unfold recorded at h
    by_cases hid : (d.id == "") = true
    · simp [hid] at h
    · simp only [hid] at h
      injection h with h
      subst h
      simp only []
      have hi := read_found v
        { id := d.id, name := "", role_arn := "", artifact_store := [], stage := [] } sp sp2 hf h2
      unfold resourcePipelineImport
      rw [hi]
      refine ⟨rfl, ?_, ?_⟩
      · simp only [recorded, hid]
        rfl
      · unfold withoutOAuthToken
        simp only []
        rw [withoutToken_flattenStageDeclarations _ d 0]

theorem import_after_create (c : Client) (v : Vendor) (d st : PipelineResource)
    (hok : HasError (resourcePipelineCreate c v d).diags = false)
    (hrec : recorded (resourcePipelineCreate c v d).d = some st) :
    (resourcePipelineImport (resourcePipelineCreate c v d).vendor st.id).diags = [] ∧
      withoutOAuthToken (resourcePipelineImport (resourcePipelineCreate c v d).vendor st.id).d =
        withoutOAuthToken st := by
  obtain ⟨v1, _, heq⟩ := create_steps c v d hok
  rw [heq] at hrec ⊢
  simp only [] at hrec ⊢
  rw [read_vendor]
  have h := import_agrees_with_read v1 _ st hrec
  exact ⟨h.1, h.2.2⟩

theorem import_after_update (v : Vendor) (old d st : PipelineResource)
    (hok : HasError (resourcePipelineUpdate v old d).diags = false)
    (hrec : recorded (resourcePipelineUpdate v old d).d = some st) :
    (resourcePipelineImport (resourcePipelineUpdate v old d).vendor st.id).diags = [] ∧
      withoutOAuthToken (resourcePipelineImport (resourcePipelineUpdate v old d).vendor st.id).d =
        withoutOAuthToken st := by
  obtain ⟨v1, v2, calls1, calls2, _, _, heq⟩ := update_steps v old d hok
  rw [heq] at hrec ⊢
  simp only [] at hrec ⊢
  rw [read_vendor]
  have h := import_agrees_with_read v2 _ st hrec
  exact ⟨h.1, h.2.2⟩

/-- C10 (on the modelled handlers): after an apply that created, updated or replaced a pipeline
without error and recorded a state, an import by the ID of that state returns no diagnostic
and a state that equals the recorded one once the `OAuthToken` entry is taken out of the
configuration map of every action on both sides. -/
theorem import_matches_recorded_state (c : Client) (v : Vendor) (cfg : PipelineResource)
    (state : Option PipelineResource) (st : PipelineResource)
    (hplan : plan (some cfg) state ≠ PlanAction.NoOp)
    (hok : HasError (applyPlan c v (some cfg) state).diags = false)
    (hrec : recorded (applyPlan c v (some cfg) state).d = some st) :
    (resourcePipelineImport (applyPlan c v (some cfg) state).vendor st.id).diags = [] ∧
      withoutOAuthToken (resourcePipelineImport (applyPlan c v (some cfg) state).vendor st.id).d =
        withoutOAuthToken st := by
  cases state with
  | none => exact import_after_create c v (applyDefaults cfg) st hok hrec
  | some s0 =>
    by_cases hn : (cfg.name != s0.name) = true
    · have happ : applyPlan c v (some cfg) (some s0) =
          (if HasError (resourcePipelineDelete v s0).diags then resourcePipelineDelete v s0
           else
            { resourcePipelineCreate c (resourcePipelineDelete v s0).vendor (applyDefaults cfg) with
              calls := (resourcePipelineDelete v s0).calls ++
                (resourcePipelineCreate c (resourcePipelineDelete v s0).vendor
                  (applyDefaults cfg)).calls }) := by
        simp [applyPlan, hn]
      rw [happ] at hok hrec ⊢
      by_cases hd : HasError (resourcePipelineDelete v s0).diags = true
      · simp only [hd, if_true] at hok
        cases hok
      · simp only [hd] at hok hrec ⊢
        exact import_after_create c _ (applyDefaults cfg) st hok hrec
    · by_cases hs : (!declarationChanged s0 (planned cfg s0) && sameTags cfg.tags s0.tags) = true
      · exfalso
        apply hplan
        simp [plan, hn, hs]
      · have happ : applyPlan c v (some cfg) (some s0) =
            resourcePipelineUpdate v s0 (planned cfg s0) := by
          simp only [applyPlan, hn, hs]
          rfl
        rw [happ] at hok hrec ⊢
        exact import_after_update v s0 (planned cfg s0) st hok hrec

/-! ## Witnesses on the fixtures -/

/-- Witness of C6: the step of `TestAccCodePipeline_pipelinetype` from `SUPERSEDED` and `V1` to
`QUEUED` and `V2`. -/
theorem mode_and_type_change_in_place_witness :
    pipelinetypeUpdatedConfig.name = createdPipelinetype.d.name ∧
    createdPipelinetype.d.execution_mode = "SUPERSEDED" ∧
    createdPipelinetype.d.pipeline_type = "V1" ∧
    (plan (some pipelinetypeUpdatedConfig) (some createdPipelinetype.d) = PlanAction.Update ∧
      (∀ call ∈ updatedPipelinetype.calls, createsOrDeletes call = false) ∧
      Call.UpdatePipeline (expandPipelineDeclaration
          (planned pipelinetypeUpdatedConfig createdPipelinetype.d)) ∈
        updatedPipelinetype.calls ∧
      (expandPipelineDeclaration (planned pipelinetypeUpdatedConfig createdPipelinetype.d)).Name =
        createdPipelinetype.d.name ∧
      updatedPipelinetype.d.id = createdPipelinetype.d.id ∧
      updatedPipelinetype.d.execution_mode =
        (applyDefaults pipelinetypeUpdatedConfig).execution_mode ∧
      updatedPipelinetype.d.pipeline_type =
        (applyDefaults pipelinetypeUpdatedConfig).pipeline_type) ∧
    updatedPipelinetype.d.execution_mode = "QUEUED" ∧
    updatedPipelinetype.d.pipeline_type = "V2" :=
  ⟨by decide, by decide, by decide,
   mode_and_type_change_in_place testClient createdPipelinetype.vendor pipelinetypeUpdatedConfig
     createdPipelinetype.d (by decide) (by decide) (Or.inl (by decide)) (by decide),
   by decide, by decide⟩

/-- Witness of C7: the step of `TestAccCodePipeline_tags` from one tag to two. -/
theorem tags_change_by_separate_calls_witness :
    createdTags1.vendor.find tags2Planned.id = some tags1Stored ∧
    createdTags1.vendor.findARN tags2Planned.arn = some tags1Stored ∧
    HasError updatedTags2.diags = false ∧
    ((∀ k, updatedTags2.d.tags.lookup k = tags2Planned.tags.lookup k) ∧
      (∀ call ∈ updatedTags2.calls,
        call = Call.UpdatePipeline (expandPipelineDeclaration tags2Planned) ∨
        call = Call.UntagResource tags2Planned.arn
          (removedTagKeys createdTags1.d.tags tags2Planned.tags) ∨
        call = Call.TagResource tags2Planned.arn
          (updatedTags createdTags1.d.tags tags2Planned.tags) ∨
        call = Call.GetPipeline tags2Planned.id ∨ ∃ a, call = Call.ListTagsForResource a) ∧
      (declarationChanged createdTags1.d tags2Planned = false →
        (∀ p, Call.UpdatePipeline p ∉ updatedTags2.calls) ∧
        (updatedTags2.vendor.find tags2Planned.id).map (fun q => q.declaration) =
          some tags1Stored.declaration) ∧
      (∀ (w w2 : Vendor) (name : String),
        (updateTags w tags2Planned.arn createdTags1.d.tags tags2Planned.tags).1 = Except.ok w2 →
        (w2.find name).map (fun q => q.declaration) =
          (w.find name).map (fun q => q.declaration)) ∧
      updatedTags2.calls =
        (if declarationChanged createdTags1.d tags2Planned then
          [Call.UpdatePipeline (expandPipelineDeclaration tags2Planned)] else []) ++
        (if (removedTagKeys createdTags1.d.tags tags2Planned.tags).isEmpty then []
          else [Call.UntagResource tags2Planned.arn
            (removedTagKeys createdTags1.d.tags tags2Planned.tags)]) ++
        (if (updatedTags createdTags1.d.tags tags2Planned.tags).isEmpty then []
          else [Call.TagResource tags2Planned.arn
            (updatedTags createdTags1.d.tags tags2Planned.tags)]) ++
        [Call.GetPipeline tags2Planned.id, Call.ListTagsForResource tags2Planned.arn] ∧
      (removedTagKeys createdTags1.d.tags tags2Planned.tags ≠ [] →
        Call.UntagResource tags2Planned.arn
          (removedTagKeys createdTags1.d.tags tags2Planned.tags) ∈ updatedTags2.calls) ∧
      (updatedTags createdTags1.d.tags tags2Planned.tags ≠ [] →
        Call.TagResource tags2Planned.arn
          (updatedTags createdTags1.d.tags tags2Planned.tags) ∈ updatedTags2.calls) ∧
      (sameTags tags2Planned.tags createdTags1.d.tags = false →
        Call.UntagResource tags2Planned.arn
          (removedTagKeys createdTags1.d.tags tags2Planned.tags) ∈ updatedTags2.calls ∨
        Call.TagResource tags2Planned.arn
          (updatedTags createdTags1.d.tags tags2Planned.tags) ∈ updatedTags2.calls)) ∧
    declarationChanged createdTags1.d tags2Planned = false ∧
    sameTags tags2Planned.tags createdTags1.d.tags = false ∧
    updatedTags2.calls =
      [Call.TagResource "arn:aws:codepipeline:us-west-2:123456789012:test-pipeline-abc"
         [("key1", "value1updated"), ("key2", "value2")],
       Call.GetPipeline "test-pipeline-abc",
       Call.ListTagsForResource "arn:aws:codepipeline:us-west-2:123456789012:test-pipeline-abc"] ∧
    updatedTags2.d.tags = [("key1", "value1updated"), ("key2", "value2")] :=
  ⟨by decide, by decide, by decide,
   tags_change_by_separate_calls createdTags1.vendor createdTags1.d tags2Planned tags1Stored
     (by decide) (by decide) (fun _ => rfl) (by decide),
   by decide, by decide, by decide, by decide⟩

/-- Witness of C8: the pipeline of `testAccCodePipelineConfig_basic`, deleted at the vendor. -/
theorem read_after_external_delete_witness :
    createdBasic.vendor.DeletePipeline basicState.id = Except.ok emptyVendor ∧
    ((resourcePipelineRead emptyVendor basicState).diags = [] ∧
      recorded (resourcePipelineRead emptyVendor basicState).d = none ∧
      (resourcePipelineRead emptyVendor basicState).calls = [Call.GetPipeline basicState.id] ∧
      plan (some (testAccCodePipelineConfig_basic sampleRefs "abc"))
        (recorded (resourcePipelineRead emptyVendor basicState).d) = PlanAction.Create) :=
  ⟨rfl, read_after_external_delete createdBasic.vendor emptyVendor basicState
    (testAccCodePipelineConfig_basic sampleRefs "abc") rfl⟩

/-- Witness of C9: the configuration of `TestAccCodePipeline_emptyStageArtifacts`. -/
theorem empty_artifact_names_are_dropped_witness :
    HasError createdEmptyStageArtifacts.diags = false ∧
    stageArtifacts emptyStageArtifactsConfig.stage = [[([], ["test"])], [(["test", ""], [""])]] ∧
    stageArtifacts createdEmptyStageArtifacts.d.stage = [[([], ["test"])], [(["test"], [])]] ∧
    plan (some emptyStageArtifactsConfig) (recorded createdEmptyStageArtifacts.d) ≠
      PlanAction.NoOp :=
  ⟨by decide, by decide, by decide,
   (empty_artifact_names_are_dropped testClient emptyVendor emptyStageArtifactsConfig
      (by decide)).2.2.2
     ⟨_, List.mem_cons_of_mem _ (List.mem_singleton.mpr rfl), _, List.mem_singleton.mpr rfl,
       Or.inr (List.mem_singleton.mpr rfl)⟩⟩

/-- Witness of C10: the GitHub pipeline of `TestAccCodePipeline_withGitHubV1SourceAction`; the
recorded state has the configured token, the imported state an empty one. -/
theorem import_matches_recorded_state_witness :
    plan (some gitHubConfig) none ≠ PlanAction.NoOp ∧
    HasError createdGitHub.diags = false ∧
    recorded createdGitHub.d = some createdGitHub.d ∧
    ((resourcePipelineImport createdGitHub.vendor createdGitHub.d.id).diags = [] ∧
      withoutOAuthToken (resourcePipelineImport createdGitHub.vendor createdGitHub.d.id).d =
        withoutOAuthToken createdGitHub.d) ∧
    (createdGitHub.d.stage.map (fun s => s.action.map (fun a =>
        a.configuration.lookup "OAuthToken"))) = [[some "ghp-token"], [none]] ∧
    ((resourcePipelineImport createdGitHub.vendor createdGitHub.d.id).d.stage.map (fun s =>
        s.action.map (fun a => a.configuration.lookup "OAuthToken"))) = [[some ""], [none]] :=
  ⟨by decide, by decide, by decide,
   import_matches_recorded_state testClient emptyVendor gitHubConfig none createdGitHub.d
     (by decide) (by decide) (by decide),
   by decide, by decide⟩

/-! ## The model against the expectations of the tests

The handlers, the plan and the vendor are modelled; the fixtures and the checks are the ones of
the test file. On the model every attribute check of these steps passes, and the plan after a
step is empty exactly where the test expects it to be. -/

/-- The steps of `TestAccCodePipeline_basic`: both applies return no error, pass their checks
and leave an empty plan. -/
theorem model_passes_basic :
    HasError createdBasic.diags = false ∧
    passes createdBasic.d (basicStep1Checks sampleRefs) = true ∧
    plan (some (testAccCodePipelineConfig_basic sampleRefs "abc")) (recorded createdBasic.d) =
      PlanAction.NoOp ∧
    HasError updatedBasic.diags = false ∧
    passes updatedBasic.d (basicStep3Checks sampleRefs) = true ∧
    plan (some (testAccCodePipelineConfig_basicUpdated sampleRefs "abc"))
      (recorded updatedBasic.d) = PlanAction.NoOp := by
  decide

/-- The step of `TestAccCodePipeline_emptyStageArtifacts`: the apply returns no error and passes
its checks, and the plan after it is not empty, as the test expects. -/
theorem model_passes_emptyStageArtifacts :
    HasError createdEmptyStageArtifacts.diags = false ∧
    passes createdEmptyStageArtifacts.d emptyStageArtifactsChecks = true ∧
    plan (some emptyStageArtifactsConfig) (recorded createdEmptyStageArtifacts.d) =
      PlanAction.Update := by
  decide

/-- The steps of `TestAccCodePipeline_tags`: one tag, then a changed value and a second key,
then the first key removed. -/
theorem model_passes_tags :
    passes createdTags1.d tagsStep1Checks = true ∧
    HasError updatedTags2.diags = false ∧
    passes updatedTags2.d tagsStep3Checks = true ∧
    HasError updatedTags3.diags = false ∧
    passes updatedTags3.d tagsStep5Checks = true ∧
    updatedTags3.calls =
      [Call.UntagResource "arn:aws:codepipeline:us-west-2:123456789012:test-pipeline-abc"
         ["key1"],
       Call.GetPipeline "test-pipeline-abc",
       Call.ListTagsForResource "arn:aws:codepipeline:us-west-2:123456789012:test-pipeline-abc"] ∧
    plan (some (testAccCodePipelineConfig_tags1 sampleRefs "abc" "key2" "value2"))
      (recorded updatedTags3.d) = PlanAction.NoOp := by
  decide

/-- The steps of `TestAccCodePipeline_pipelinetype`: `V1`, then `QUEUED` and `V2` with two
variables, then back. -/
theorem model_passes_pipelinetype :
    passes createdPipelinetype.d (pipelinetypeStep1Checks sampleRefs) = true ∧
    HasError updatedPipelinetype.diags = false ∧
    passes updatedPipelinetype.d (pipelinetypeStep3Checks sampleRefs) = true ∧
    HasError revertedPipelinetype.diags = false ∧
    passes revertedPipelinetype.d (pipelinetypeStep1Checks sampleRefs) = true ∧
    plan (some (testAccCodePipelineConfig_pipelinetype sampleRefs "abc"))
      (recorded revertedPipelinetype.d) = PlanAction.NoOp := by
  decide

/-- The steps of `TestAccCodePipeline_withGitHubV1SourceAction`: the state keeps the configured
token although the vendor returns a mask. -/
theorem model_passes_gitHub :
    HasError createdGitHub.diags = false ∧
    passes createdGitHub.d (gitHubStep1Checks "ghp-token") = true ∧
    plan (some gitHubConfig) (recorded createdGitHub.d) = PlanAction.NoOp ∧
    HasError updatedGitHub.diags = false ∧
    passes updatedGitHub.d (gitHubStep3Checks "ghp-token") = true := by
  decide

end CodePipeline

namespace EFS
open Provider

/-! ## Diagnostics, request and computed names of the mount-target read -/

theorem read_without_error (c : AWSClient) (conn : Conn) (d : ResourceData)
    (h : HasError (dataSourceMountTargetRead c conn d).diags = false) :
    ∃ mt out,
      conn.findMountTarget (describeMountTargetsInput d) = Except.ok mt ∧
      conn.DescribeMountTargetSecurityGroups
        { MountTargetId := some (StringValue mt.MountTargetId) } = Except.ok out ∧
      dataSourceMountTargetRead c conn d =
        { diags := [],
          d := (setMountTargetAttributes c d mt).Set "security_groups"
            (Value.strs (StringValueSlice out.SecurityGroups)),
          calls := [Call.findMountTarget (describeMountTargetsInput d),
            Call.DescribeMountTargetSecurityGroups
              { MountTargetId := some (StringValue mt.MountTargetId) }] } := by
  cases h1 : conn.findMountTarget (describeMountTargetsInput d) with
  | error e =>
    rw [read_lookup_error c conn d e h1] at h
    simp [HasError] at h
  | ok mt =>
    cases h2 : conn.DescribeMountTargetSecurityGroups
        { MountTargetId := some (StringValue mt.MountTargetId) } with
    | error e =>
      rw [read_securityGroups_error c conn d mt e h1 h2] at h
      simp [HasError] at h
    | ok out => exact ⟨mt, out, rfl, h2, read_ok c conn d mt out h1 h2⟩

theorem Get_file_system_arn (c : AWSClient) (d : ResourceData) (mt : MountTargetDescription)
    (v : Value) :
    ((setMountTargetAttributes c d mt).Set "security_groups" v).Get "file_system_arn" =
      some (Value.str (ARN.String
        { Partition := c.Partition, Service := "elasticfilesystem", Region := c.Region,
          AccountID := c.AccountID, Resource := "file-system/" ++ StringValue mt.FileSystemId })) := by
  simp [setMountTargetAttributes, Get_Set_other, Get_Set_same]

theorem arn_string (p r a f : String) :
    ARN.String { Partition := p, Service := "elasticfilesystem", Region := r, AccountID := a,
                 Resource := "file-system/" ++ f } =
      "arn:" ++ p ++ ":elasticfilesystem:" ++ r ++ ":" ++ a ++ ":file-system/" ++ f := by
  simp [ARN.String, String.append_assoc]
  rfl


theorem GetOk_eq_nonEmptyString (d : ResourceData) (key : String) :
    (match d.GetOk key with
      | (v, true) => some v
      | _ => none) = nonEmptyString d key := by
  unfold ResourceData.GetOk nonEmptyString
  cases hg : d.Get key with
  | none => rfl
  | some v =>
    cases v with
    | str s =>
      by_cases hs : s = ""
      · simp [hs]
      · have hb : (s != "") = true := by simpa using hs
        simp [hs, hb]
    | ptr p =>
      cases p with
      | none => simp [StringValue]
      | some s =>
        by_cases hs : s = ""
        · simp [hs, StringValue]
        · have hb : (s != "") = true := by simpa using hs
          simp [hs, hb, StringValue]
    | strs l => rfl
    | set g => rfl

/-- C17: the read returns no diagnostic exactly when the lookup and the security-groups call
both succeed; when the lookup fails with `e` it returns the single error diagnostic
`reading EFS Mount Target: ` followed by the message of `e`; when the security-groups call
fails with `e` it returns the single error diagnostic
`reading EFS Mount Target (<id>) security groups: ` followed by the message of `e`, where
`<id>` is the ID the lookup returned. -/
theorem diagnostics_of_read (c : AWSClient) (conn : Conn) (d : ResourceData) :
    ((dataSourceMountTargetRead c conn d).diags = [] ↔
      ∃ mt out, conn.findMountTarget (describeMountTargetsInput d) = Except.ok mt ∧
        conn.DescribeMountTargetSecurityGroups
          { MountTargetId := some (StringValue mt.MountTargetId) } = Except.ok out) ∧
    (∀ e, conn.findMountTarget (describeMountTargetsInput d) = Except.error e →
      (dataSourceMountTargetRead c conn d).diags =
        [{ severity := Severity.Error, summary := "reading EFS Mount Target: " ++ e.msg,
           detail := "" }]) ∧
    (∀ mt e, conn.findMountTarget (describeMountTargetsInput d) = Except.ok mt →
      conn.DescribeMountTargetSecurityGroups
        { MountTargetId := some (StringValue mt.MountTargetId) } = Except.error e →
      (dataSourceMountTargetRead c conn d).diags =
        [{ severity := Severity.Error,
           summary := "reading EFS Mount Target (" ++ StringValue mt.MountTargetId ++
             ") security groups: " ++ e.msg,
           detail := "" }]) := by
  refine ⟨?_, ?_, ?_⟩
  · constructor
    · intro h
      have hh : HasError (dataSourceMountTargetRead c conn d).diags = false := by
        rw [h]; rfl
      obtain ⟨mt, out, h1, h2, _⟩ := read_without_error c conn d hh
      exact ⟨mt, out, h1, h2⟩
    · rintro ⟨mt, out, h1, h2⟩
      rw [read_ok c conn d mt out h1 h2]
  · intro e h
    rw [read_lookup_error c conn d e h]
  · intro mt e h1 h2
    rw [read_securityGroups_error c conn d mt e h1 h2]

/-- Witness of C17: both calls succeeding, the lookup reporting not-found, and the
security-groups call failing. -/
theorem diagnostics_of_read_witness :
    (dataSourceMountTargetRead sampleClient sampleConn sampleData).diags = [] ∧
    (dataSourceMountTargetRead sampleClient lookupNotFoundConn sampleData).diags =
      [{ severity := Severity.Error, summary := "reading EFS Mount Target: empty result",
         detail := "" }] ∧
    (dataSourceMountTargetRead sampleClient securityGroupsDeniedConn sampleData).diags =
      [{ severity := Severity.Error,
         summary := "reading EFS Mount Target (fsmt-1) security groups: AccessDenied",
         detail := "" }] :=
  ⟨(diagnostics_of_read sampleClient sampleConn sampleData).1.mpr
      ⟨sampleMountTarget, { SecurityGroups := [some "sg-1", none, some "sg-2"] }, rfl, rfl⟩,
   (diagnostics_of_read sampleClient lookupNotFoundConn sampleData).2.1
      { msg := "empty result", notFound := true } rfl,
   (diagnostics_of_read sampleClient securityGroupsDeniedConn sampleData).2.2 sampleMountTarget
      { msg := "AccessDenied", notFound := false } rfl rfl⟩

/-- C18: the request the handler builds, and passes to the lookup as its first call, is the
request of the specification: each of `AccessPointId`, `FileSystemId` and `MountTargetId` is
the attribute of the same name when that is set to a non-empty string and absent otherwise;
with none of the three set the request has no filter. -/
theorem request_filters_from_attributes (c : AWSClient) (conn : Conn) (d : ResourceData) :
    describeMountTargetsInput d = describeMountTargetsInputSpec d ∧
    (dataSourceMountTargetRead c conn d).calls.head? =
      some (Call.findMountTarget (describeMountTargetsInputSpec d)) ∧
    (nonEmptyString d "access_point_id" = none → nonEmptyString d "file_system_id" = none →
      nonEmptyString d "mount_target_id" = none →
      describeMountTargetsInput d =
        { AccessPointId := none, FileSystemId := none, MountTargetId := none }) := by
  have h : describeMountTargetsInput d = describeMountTargetsInputSpec d := by
    have h1 := GetOk_eq_nonEmptyString d "access_point_id"
    have h2 := GetOk_eq_nonEmptyString d "file_system_id"
    have h3 := GetOk_eq_nonEmptyString d "mount_target_id"
    unfold describeMountTargetsInput describeMountTargetsInputSpec
    rw [← h1, ← h2, ← h3]
    rcases d.GetOk "access_point_id" with ⟨v1, b1⟩
    rcases d.GetOk "file_system_id" with ⟨v2, b2⟩
    rcases d.GetOk "mount_target_id" with ⟨v3, b3⟩
    cases b1 <;> cases b2 <;> cases b3 <;> rfl
  refine ⟨h, ?_, ?_⟩
  · rw [← h]
    cases h1 : conn.findMountTarget (describeMountTargetsInput d) with
    | error e => rw [read_lookup_error c conn d e h1]; rfl
    | ok mt =>
      cases h2 : conn.DescribeMountTargetSecurityGroups
          { MountTargetId := some (StringValue mt.MountTargetId) } with
      | error e => rw [read_securityGroups_error c conn d mt e h1 h2]; rfl
      | ok out => rw [read_ok c conn d mt out h1 h2]; rfl
  · intro h1 h2 h3
    rw [h]
    unfold describeMountTargetsInputSpec
    rw [h1, h2, h3]

/-- Witness of C18: a configuration with a file system and an empty mount-target ID, and one
with no filter. -/
theorem request_filters_from_attributes_witness :
    describeMountTargetsInput sampleFilterData =
      { AccessPointId := none, FileSystemId := some "fs-1", MountTargetId := none } ∧
    describeMountTargetsInput sampleEmptyData =
      { AccessPointId := none, FileSystemId := none, MountTargetId := none } :=
  ⟨(request_filters_from_attributes sampleClient sampleConn sampleFilterData).1,
   (request_filters_from_attributes sampleClient sampleConn sampleEmptyData).2.2 rfl rfl rfl⟩


theorem Get_dns_name (c : AWSClient) (d : ResourceData) (mt : MountTargetDescription)
    (v : Value) :
    ((setMountTargetAttributes c d mt).Set "security_groups" v).Get "dns_name" =
      some (Value.str (c.RegionalHostname (StringValue mt.FileSystemId ++ ".efs"))) := by
  simp [setMountTargetAttributes, Get_Set_other, Get_Set_same]

theorem Get_mount_target_dns_name (c : AWSClient) (d : ResourceData)
    (mt : MountTargetDescription) (v : Value) :
    ((setMountTargetAttributes c d mt).Set "security_groups" v).Get "mount_target_dns_name" =
      some (Value.str (c.RegionalHostname
        (StringValue mt.AvailabilityZoneName ++ "." ++ StringValue mt.FileSystemId ++ ".efs"))) := by
  simp [setMountTargetAttributes, Get_Set_other, Get_Set_same]

/-- C19: after a read without error, `file_system_arn` is
`arn:<partition>:elasticfilesystem:<region>:<account-id>:file-system/<fsID>` with the
partition, region and account of the client and the file-system ID of the mount target the
lookup returned, the empty string when that is absent. -/
theorem file_system_arn_of_read (c : AWSClient) (conn : Conn) (d : ResourceData)
    (h : HasError (dataSourceMountTargetRead c conn d).diags = false) :
    ∃ mt, conn.findMountTarget (describeMountTargetsInput d) = Except.ok mt ∧
      (dataSourceMountTargetRead c conn d).d.Get "file_system_arn" =
        some (Value.str ("arn:" ++ c.Partition ++ ":elasticfilesystem:" ++ c.Region ++ ":" ++
          c.AccountID ++ ":file-system/" ++ StringValue mt.FileSystemId)) := by
  obtain ⟨mt, out, h1, _, hr⟩ := read_without_error c conn d h
  refine ⟨mt, h1, ?_⟩
  rw [hr]
  simp only []
  rw [Get_file_system_arn, arn_string]

/-- Witness of C19: the file system `fs-1` in `us-west-2`. -/
theorem file_system_arn_of_read_witness :
    HasError (dataSourceMountTargetRead sampleClient sampleConn sampleData).diags = false ∧
    (∃ mt, sampleConn.findMountTarget (describeMountTargetsInput sampleData) = Except.ok mt ∧
      (dataSourceMountTargetRead sampleClient sampleConn sampleData).d.Get "file_system_arn" =
        some (Value.str ("arn:" ++ sampleClient.Partition ++ ":elasticfilesystem:" ++
          sampleClient.Region ++ ":" ++ sampleClient.AccountID ++ ":file-system/" ++
          StringValue mt.FileSystemId))) ∧
    (dataSourceMountTargetRead sampleClient sampleConn sampleData).d.Get "file_system_arn" =
      some (Value.str "arn:aws:elasticfilesystem:us-west-2:123456789012:file-system/fs-1") :=
  ⟨by decide, file_system_arn_of_read sampleClient sampleConn sampleData (by decide), by decide⟩

/-- C20: after a read without error, `dns_name` is the regional hostname of the client for the
file-system ID followed by `.efs`, and `mount_target_dns_name` is the regional hostname, by the
same function, for the availability-zone name, a dot, and that same file-system prefix; with
no zone name the prefix starts with the dot. -/
theorem dns_names_of_read (c : AWSClient) (conn : Conn) (d : ResourceData)
    (h : HasError (dataSourceMountTargetRead c conn d).diags = false) :
    ∃ mt, conn.findMountTarget (describeMountTargetsInput d) = Except.ok mt ∧
      (dataSourceMountTargetRead c conn d).d.Get "dns_name" =
        some (Value.str (c.RegionalHostname (StringValue mt.FileSystemId ++ ".efs"))) ∧
      (dataSourceMountTargetRead c conn d).d.Get "mount_target_dns_name" =
        some (Value.str (c.RegionalHostname
          (StringValue mt.AvailabilityZoneName ++ "." ++
            (StringValue mt.FileSystemId ++ ".efs")))) ∧
      (mt.AvailabilityZoneName = none →
        (dataSourceMountTargetRead c conn d).d.Get "mount_target_dns_name" =
          some (Value.str (c.RegionalHostname
            ("." ++ (StringValue mt.FileSystemId ++ ".efs"))))) := by
  obtain ⟨mt, out, h1, _, hr⟩ := read_without_error c conn d h
  refine ⟨mt, h1, ?_, ?_, ?_⟩
  · rw [hr]
    exact Get_dns_name c d mt _
  · rw [hr]
    simp only []
    rw [Get_mount_target_dns_name, String.append_assoc]
  · intro hz
    rw [hr]
    simp only []
    rw [Get_mount_target_dns_name, String.append_assoc, hz]
    simp [StringValue]

/-- Witness of C20: a mount target in zone `us-west-2a`, and one without a zone name. -/
theorem dns_names_of_read_witness :
    HasError (dataSourceMountTargetRead sampleClient sampleConn sampleData).diags = false ∧
    (∃ mt, sampleConn.findMountTarget (describeMountTargetsInput sampleData) = Except.ok mt ∧
      (dataSourceMountTargetRead sampleClient sampleConn sampleData).d.Get "dns_name" =
        some (Value.str (sampleClient.RegionalHostname (StringValue mt.FileSystemId ++ ".efs"))) ∧
      (dataSourceMountTargetRead sampleClient sampleConn sampleData).d.Get
          "mount_target_dns_name" =
        some (Value.str (sampleClient.RegionalHostname
          (StringValue mt.AvailabilityZoneName ++ "." ++
            (StringValue mt.FileSystemId ++ ".efs")))) ∧
      (mt.AvailabilityZoneName = none →
        (dataSourceMountTargetRead sampleClient sampleConn sampleData).d.Get
            "mount_target_dns_name" =
          some (Value.str (sampleClient.RegionalHostname
            ("." ++ (StringValue mt.FileSystemId ++ ".efs")))))) ∧
    (dataSourceMountTargetRead sampleClient sampleConn sampleData).d.Get "dns_name" =
      some (Value.str "fs-1.efs.us-west-2.amazonaws.com") ∧
    (dataSourceMountTargetRead sampleClient sampleConn sampleData).d.Get "mount_target_dns_name" =
      some (Value.str "us-west-2a.fs-1.efs.us-west-2.amazonaws.com") ∧
    (dataSourceMountTargetRead sampleClient noZoneConn sampleData).d.Get "mount_target_dns_name" =
      some (Value.str ".fs-1.efs.us-west-2.amazonaws.com") :=
  ⟨by decide, dns_names_of_read sampleClient sampleConn sampleData (by decide),
   by decide, by decide, by decide⟩

end EFS

namespace CodePipeline
open Provider

/-! ## The check functions -/

theorem destroyLoop_nil_iff (find : Finder) (l : List ResourceState) :
    (checkPipelineDestroyLoop find l).1 = none ↔
      ∀ rs ∈ l, rs.Type_ = "aws_codepipeline" →
        ∃ e, find rs.Primary.ID = Except.error e ∧ e.notFound = true := by
  induction l with
  | nil => simp [checkPipelineDestroyLoop]
  | cons rs rest ih =>
    unfold checkPipelineDestroyLoop
    by_cases ht : rs.Type_ = "aws_codepipeline"
    · have hb : (rs.Type_ != "aws_codepipeline") = false := by simp [ht]
      simp only [hb, Bool.false_eq_true, if_false]
      cases hf : find rs.Primary.ID with
      | error e =>
        by_cases hn : e.notFound = true
        · simp only [hn, if_true]
          rw [ih]
          constructor
          · intro h x hx
            rcases List.mem_cons.mp hx with hx | hx
            · subst hx
              intro _
              exact ⟨e, hf, hn⟩
            · exact h x hx
          · intro h x hx
            exact h x (List.mem_cons_of_mem _ hx)
        · simp only [hn]
          constructor
          · intro h
            cases h
          · intro h
            obtain ⟨e2, he2, hn2⟩ := h rs (List.mem_cons_self _ _) ht
            rw [hf] at he2
            injection he2 with he2
            subst he2
            exact absurd hn2 hn
      | ok out =>
        simp only []
        constructor
        · intro h
          cases h
        · intro h
          obtain ⟨e2, he2, _⟩ := h rs (List.mem_cons_self _ _) ht
          rw [hf] at he2
          cases he2
    · have hb : (rs.Type_ != "aws_codepipeline") = true := by simp [ht]
      simp only [hb, if_true]
      rw [ih]
      constructor
      · intro h x hx
        rcases List.mem_cons.mp hx with hx | hx
        · subst hx
          intro hx2
          exact absurd hx2 ht
        · exact h x hx
      · intro h x hx
        exact h x (List.mem_cons_of_mem _ hx)

theorem destroyLoop_lookups (find : Finder) (l : List ResourceState) :
    ∃ rest, (l.filter (fun rs => rs.Type_ == "aws_codepipeline")).map (fun rs => rs.Primary.ID) =
      (checkPipelineDestroyLoop find l).2 ++ rest := by
  induction l with
  | nil => exact ⟨[], rfl⟩
  | cons rs tl ih =>
    obtain ⟨rest, hrest⟩ := ih
    unfold checkPipelineDestroyLoop
    by_cases ht : rs.Type_ = "aws_codepipeline"
    · have hb : (rs.Type_ != "aws_codepipeline") = false := by simp [ht]
      have hc : (rs.Type_ == "aws_codepipeline") = true := by simp [ht]
      simp only [hb, Bool.false_eq_true, if_false, List.filter_cons, hc, if_true, List.map_cons]
      cases hf : find rs.Primary.ID with
      | error e =>
        by_cases hn : e.notFound = true
        · simp only [hn, if_true]
          exact ⟨rest, by rw [hrest]; rfl⟩
        · simp only [hn]
          exact ⟨_, rfl⟩
      | ok out => exact ⟨_, rfl⟩
    · have hb : (rs.Type_ != "aws_codepipeline") = true := by simp [ht]
      have hc : (rs.Type_ == "aws_codepipeline") = false := by simp [ht]
      simp only [hb, if_true, List.filter_cons, hc]
      exact ⟨rest, hrest⟩

/-- C15: the check `testAccCheckPipelineDestroy` returns nil exactly when the finder reports
not-found for the ID of every resource of type `aws_codepipeline`; the names it looks up are
IDs of resources of that type, in visiting order, up to where it stops; and whether it returns
nil is the same for every order in which the resources are visited. -/
theorem destroy_check_nil_iff_all_not_found (find : Finder) (s : TerraformState) :
    ((testAccCheckPipelineDestroy find s).1 = none ↔
      ∀ rs ∈ s.Resources.map Prod.snd, rs.Type_ = "aws_codepipeline" →
        ∃ e, find rs.Primary.ID = Except.error e ∧ e.notFound = true) ∧
    (∃ rest,
      ((s.Resources.map Prod.snd).filter (fun rs => rs.Type_ == "aws_codepipeline")).map
          (fun rs => rs.Primary.ID) =
        (testAccCheckPipelineDestroy find s).2 ++ rest) ∧
    (∀ s2 : TerraformState, s.Resources.Perm s2.Resources →
      ((testAccCheckPipelineDestroy find s).1 = none ↔
        (testAccCheckPipelineDestroy find s2).1 = none)) := by
  refine ⟨destroyLoop_nil_iff find _, destroyLoop_lookups find _, ?_⟩
  intro s2 hp
  unfold testAccCheckPipelineDestroy
  rw [destroyLoop_nil_iff, destroyLoop_nil_iff]
  have hp2 : (s.Resources.map Prod.snd).Perm (s2.Resources.map Prod.snd) := hp.map _
  constructor
  · intro h rs hrs
    exact h rs (hp2.mem_iff.mpr hrs)
  · intro h rs hrs
    exact h rs (hp2.mem_iff.mp hrs)

/-- C16: the check `testAccCheckPipelineExists` returns the error `Not found: n` without a
lookup and leaves the destination as it was when `n` is not a resource of the root module;
returns the error of the finder unchanged and leaves the destination as it was when the
lookup of the ID of the resource fails; and otherwise returns nil with the found pipeline
declaration in the destination. -/
theorem exists_check_cases (find : Finder) (n : String) (v : PipelineDeclaration)
    (s : TerraformState) :
    (s.Resources.lookup n = none →
      testAccCheckPipelineExists find n v s =
        { err := some (Errorf ("Not found: " ++ n)), v := v, lookups := [] }) ∧
    (∀ rs e, s.Resources.lookup n = some rs → find rs.Primary.ID = Except.error e →
      testAccCheckPipelineExists find n v s =
        { err := some e, v := v, lookups := [rs.Primary.ID] }) ∧
    (∀ rs out, s.Resources.lookup n = some rs → find rs.Primary.ID = Except.ok out →
      testAccCheckPipelineExists find n v s =
        { err := none, v := out.Pipeline, lookups := [rs.Primary.ID] }) := by
  refine ⟨?_, ?_, ?_⟩
  · intro h
    simp [testAccCheckPipelineExists, h]
  · intro rs e h hf
    simp [testAccCheckPipelineExists, h, hf]
  · intro rs out h hf
    simp [testAccCheckPipelineExists, h, hf]


/-! ## Places in the stage list -/

theorem get_flattenActionDeclarations (d : PipelineResource) (i j k : Nat)
    (acts : List ActionDeclaration) :
    (flattenActionDeclarations d i j acts).get? k =
      (acts.get? k).map (flattenActionDeclaration d i (j + k)) := by
  induction acts generalizing j k with
  | nil => simp [flattenActionDeclarations]
  | cons a t ih =>
    cases k with
    | zero => simp [flattenActionDeclarations]
    | succ k =>
      simp only [flattenActionDeclarations, List.get?_cons_succ]
      rw [ih (j + 1) k]
      have : j + 1 + k = j + (k + 1) := by omega
      rw [this]

theorem get_flattenStageDeclarations (d : PipelineResource) (i k : Nat)
    (sts : List StageDeclaration) :
    (flattenStageDeclarations d i sts).get? k =
      (sts.get? k).map (fun s =>
        { name := s.Name, action := flattenActionDeclarations d (i + k) 0 s.Actions }) := by
  induction sts generalizing i k with
  | nil => simp [flattenStageDeclarations]
  | cons a t ih =>
    cases k with
    | zero => simp [flattenStageDeclarations]
    | succ k =>
      simp only [flattenStageDeclarations, List.get?_cons_succ]
      rw [ih (i + 1) k]
      have : i + 1 + k = i + (k + 1) := by omega
      rw [this]

theorem get_plannedActions (cfgs sts : List ActionBlock) (k : Nat) :
    (plannedActions cfgs sts).get? k =
      (cfgs.get? k).map (fun a => plannedAction a (sts.get? k)) := by
  induction cfgs generalizing sts k with
  | nil => simp [plannedActions]
  | cons a t ih =>
    cases sts with
    | nil =>
      cases k with
      | zero => simp [plannedActions]
      | succ k =>
        simp only [plannedActions, List.get?_cons_succ]
        rw [ih [] k]
        simp
    | cons b u =>
      cases k with
      | zero => simp [plannedActions]
      | succ k =>
        simp only [plannedActions, List.get?_cons_succ]
        rw [ih u k]

theorem get_plannedStages (cfgs sts : List StageBlock) (k : Nat) :
    (plannedStages cfgs sts).get? k =
      (cfgs.get? k).map (fun s =>
        StageBlock.mk s.name (plannedActions s.action
          (match sts.get? k with
            | none => []
            | some t => t.action))) := by
  induction cfgs generalizing sts k with
  | nil => simp [plannedStages]
  | cons a t ih =>
    cases sts with
    | nil =>
      cases k with
      | zero => simp [plannedStages]
      | succ k =>
        simp only [plannedStages, List.get?_cons_succ]
        rw [ih [] k]
        simp
    | cons b u =>
      cases k with
      | zero => simp [plannedStages]
      | succ k =>
        simp only [plannedStages, List.get?_cons_succ]
        rw [ih u k]

/-- The action of the desired attributes at a place where the configuration has an action: it
has the configured values, but for `run_order` and `region`. -/
theorem actionAt_desired (cfg : PipelineResource) (state : Option PipelineResource)
    (i j : Nat) (a : ActionBlock) (h : actionAt cfg i j = some a) :
    ∃ a2, actionAt (desired cfg state) i j = some a2 ∧ a2.provider = a.provider ∧
      a2.configuration = a.configuration ∧ a2.role_arn = a.role_arn ∧
      (state = none → a2 = a) := by
  unfold actionAt at h
  cases hs : cfg.stage.get? i with
  | none =>
    rw [hs] at h
    cases h
  | some s =>
    rw [hs] at h
    simp only [] at h
    cases state with
    | none =>
      refine ⟨a, ?_, rfl, rfl, rfl, fun _ => rfl⟩
      show actionAt (applyDefaults cfg) i j = some a
      unfold actionAt
      have : (applyDefaults cfg).stage = cfg.stage := rfl
      rw [this, hs]
      exact h
    | some st =>
      have hst : (desired cfg (some st)).stage = plannedStages cfg.stage st.stage := rfl
      unfold actionAt
      rw [hst, get_plannedStages, hs]
      simp only [Option.map_some']
      rw [get_plannedActions, h]
      simp only [Option.map_some']
      refine ⟨_, rfl, ?_, ?_, ?_, ?_⟩
      · unfold plannedAction
        split <;> rfl
      · unfold plannedAction
        split <;> rfl
      · unfold plannedAction
        split <;> rfl
      · intro hc
        cases hc


/-! ## Attributes read back after the declaration was sent -/

/-- What an apply that sends the declaration and returns no error reads back. -/
theorem apply_declaration_result (c : Client) (v : Vendor) (cfg : PipelineResource)
    (state : Option PipelineResource) (hs : sendsDeclaration cfg state = true)
    (hok : HasError (applyPlan c v (some cfg) state).diags = false) :
    ∃ dd : PipelineResource, dd.stage = (desired cfg state).stage ∧
      (applyPlan c v (some cfg) state).d.stage =
        flattenStageDeclarations dd 0
          (maskDeclaration v.secretMask (expandPipelineDeclaration (desired cfg state))).Stages ∧
      (applyPlan c v (some cfg) state).d.artifact_store =
        (cfg.artifact_store.map expandArtifactStore).map flattenArtifactStore ∧
      (applyPlan c v (some cfg) state).d.variable_ =
        (cfg.variable_.map expandVariableDeclaration).map flattenVariableDeclaration ∧
      (applyPlan c v (some cfg) state).d.execution_mode = (applyDefaults cfg).execution_mode ∧
      (applyPlan c v (some cfg) state).d.pipeline_type = (applyDefaults cfg).pipeline_type := by
  cases state with
  | none =>
    have happ : applyPlan c v (some cfg) none =
        resourcePipelineCreate c v (applyDefaults cfg) := rfl
    rw [happ] at hok ⊢
    obtain ⟨sp2, _, hd⟩ := create_result c v (applyDefaults cfg) hok
    refine ⟨{ applyDefaults cfg with id := (applyDefaults cfg).name }, rfl, ?_, ?_, ?_, ?_, ?_⟩
      <;> rw [hd] <;> rfl
  | some st =>
    simp only [sendsDeclaration, Bool.and_eq_true, beq_iff_eq] at hs
    obtain ⟨⟨hname, hid⟩, hchg⟩ := hs
    obtain ⟨happ, _⟩ := applyPlan_update c v cfg st hname hchg
    rw [happ] at hok ⊢
    have hpid : (planned cfg st).id = (planned cfg st).name := by
      show st.id = cfg.name
      rw [hid, hname]
    obtain ⟨sp, sp2, tags, _, _, _, hd⟩ := update_result v st (planned cfg st) hpid hchg hok
    refine ⟨planned cfg st, rfl, ?_, ?_, ?_, ?_, ?_⟩ <;> rw [hd] <;> rfl

theorem flatten_expand_artifactStore (b : ArtifactStoreBlock) :
    flattenArtifactStore (expandArtifactStore b) = b := by
  obtain ⟨location, type, key, region⟩ := b
  unfold flattenArtifactStore expandArtifactStore optionalString
  cases key with
  | none => by_cases hr : region = "" <;> simp [hr]
  | some k => by_cases hr : region = "" <;> simp [hr]

theorem flatten_expand_variable (b : VariableBlock) :
    flattenVariableDeclaration (expandVariableDeclaration b) = b := rfl

theorem getD_optionalString (s : String) : (optionalString s).getD "" = s := by
  unfold optionalString
  by_cases h : s = "" <;> simp [h]


theorem get_map {α β : Type} (f : α → β) (l : List α) (k : Nat) :
    (l.map f).get? k = (l.get? k).map f := by
  induction l generalizing k with
  | nil => rfl
  | cons a t ih =>
    cases k with
    | zero => rfl
    | succ k => exact ih k

theorem priorOAuthToken_eq (d : PipelineResource) (i j : Nat) :
    priorOAuthToken d i j =
      match actionAt d i j with
      | none => ""
      | some a => (a.configuration.lookup "OAuthToken").getD "" := by
  unfold priorOAuthToken actionAt
  cases d.stage.get? i with
  | none => rfl
  | some s => cases s.action.get? j <;> rfl

theorem actionAt_congr (d d2 : PipelineResource) (h : d.stage = d2.stage) (i j : Nat) :
    actionAt d i j = actionAt d2 i j := by
  unfold actionAt
  rw [h]

/-- The action read back at a place where the desired attributes have an action. -/
theorem actionAt_flatten (dd d st : PipelineResource) (m : String) (i j : Nat) (a : ActionBlock)
    (h : actionAt d i j = some a)
    (hst : st.stage = flattenStageDeclarations dd 0
      (maskDeclaration m (expandPipelineDeclaration d)).Stages) :
    actionAt st i j = some (flattenActionDeclaration dd i j
      { expandActionDeclaration a with
        Configuration := maskConfiguration m (expandActionDeclaration a).Configuration }) := by
  unfold actionAt at h ⊢
  cases hs : d.stage.get? i with
  | none =>
    rw [hs] at h
    cases h
  | some s =>
    rw [hs] at h
    simp only [] at h
    rw [hst, get_flattenStageDeclarations]
    have hg : (maskDeclaration m (expandPipelineDeclaration d)).Stages.get? i =
        some { Name := s.name,
               Actions := (s.action.map expandActionDeclaration).map (fun x =>
                 { x with Configuration := maskConfiguration m x.Configuration }) } := by
      simp only [maskDeclaration, expandPipelineDeclaration, get_map, hs, Option.map_some',
        expandStageDeclaration]
    rw [hg]
    simp only [Option.map_some', Nat.zero_add]
    rw [get_flattenActionDeclarations]
    simp only [get_map, h, Option.map_some', Nat.zero_add]

theorem lookup_setOAuthToken (t : String) (l : List (String × String)) :
    (setOAuthToken t l).lookup "OAuthToken" = (l.lookup "OAuthToken").map (fun _ => t) := by
  unfold setOAuthToken
  induction l with
  | nil => rfl
  | cons a r ih =>
    obtain ⟨a1, a2⟩ := a
    by_cases h1 : a1 = "OAuthToken"
    · subst h1
      simp [List.lookup]
    · have h2 : ("OAuthToken" == a1) = false := by
        simpa using fun e => h1 e.symm
      have h3 : (a1 == "OAuthToken") = false := by simpa using h1
      rw [List.map_cons]
      simp only [h3, Bool.false_eq_true, if_false]
      rw [List.lookup_cons, List.lookup_cons, h2]
      exact ih


/-- C11 (on the modelled handlers): after a create, or an update in place that sends the
declaration, that returns no error, the `artifact_store` blocks read back are the configured
ones: a single configured store that names no region reads back as exactly one store with the
empty region, and in general there is one store per configured store, in configured order,
each with its configured region. -/
theorem artifact_stores_read_back (c : Client) (v : Vendor) (cfg : PipelineResource)
    (state : Option PipelineResource) (hs : sendsDeclaration cfg state = true)
    (hok : HasError (applyPlan c v (some cfg) state).diags = false) :
    (applyPlan c v (some cfg) state).d.artifact_store = cfg.artifact_store ∧
    (∀ b, cfg.artifact_store = [b] → b.region = "" →
      ∃ b2, (applyPlan c v (some cfg) state).d.artifact_store = [b2] ∧ b2.region = "") ∧
    (applyPlan c v (some cfg) state).d.artifact_store.length = cfg.artifact_store.length ∧
    storeRegions (applyPlan c v (some cfg) state).d.artifact_store =
      storeRegions cfg.artifact_store := by
  obtain ⟨dd, _, _, hstore, _, _, _⟩ := apply_declaration_result c v cfg state hs hok
  have h : (applyPlan c v (some cfg) state).d.artifact_store = cfg.artifact_store := by
    rw [hstore, List.map_map]
    conv_rhs => rw [← List.map_id cfg.artifact_store]
    apply List.map_congr_left
    intro b _
    exact flatten_expand_artifactStore b
  refine ⟨h, ?_, ?_, ?_⟩
  · intro b hb hr
    exact ⟨b, by rw [h, hb], hr⟩
  · rw [h]
  · rw [h]

theorem declarationChanged_false_execution_mode (old d : PipelineResource)
    (h : declarationChanged old d = false) : old.execution_mode = d.execution_mode := by
  unfold declarationChanged at h
  simp only [Bool.or_eq_false_iff] at h
  simpa using h.1.1.2

/-- The execution mode after an apply that has nothing to do: the one in the state, which is
the planned one. -/
theorem applyPlan_noop_execution_mode (c : Client) (v : Vendor) (cfg st : PipelineResource)
    (h : plan (some cfg) (some st) = PlanAction.NoOp) :
    (applyPlan c v (some cfg) (some st)).d.execution_mode =
      (applyDefaults cfg).execution_mode := by
  unfold plan at h
  unfold applyPlan
  by_cases hn : (cfg.name != st.name) = true
  · simp [hn] at h
  · by_cases hc : (!declarationChanged st (planned cfg st) && sameTags cfg.tags st.tags) = true
    · simp only [hn, hc, if_true, if_false, Bool.false_eq_true]
      have hd : declarationChanged st (planned cfg st) = false := by
        cases hdc : declarationChanged st (planned cfg st) with
        | false => rfl
        | true => simp [hdc] at hc
      exact declarationChanged_false_execution_mode st (planned cfg st) hd
    · simp [hn, hc] at h

/-- The execution mode after a replacement, a delete followed by a create, that returns no
error: the planned one. -/
theorem applyPlan_replace_execution_mode (c : Client) (v : Vendor) (cfg st : PipelineResource)
    (hn : cfg.name ≠ st.name)
    (hok : HasError (applyPlan c v (some cfg) (some st)).diags = false) :
    (applyPlan c v (some cfg) (some st)).d.execution_mode =
      (applyDefaults cfg).execution_mode := by
  have hn2 : (cfg.name != st.name) = true := by simpa using hn
  unfold applyPlan at hok ⊢
  simp only [hn2, if_true] at hok ⊢
  by_cases hd : HasError (resourcePipelineDelete v st).diags = true
  · simp only [hd, if_true] at hok
    cases hok
  · simp only [hd, if_false, Bool.false_eq_true] at hok ⊢
    obtain ⟨sp2, _, hr⟩ := create_result c (resourcePipelineDelete v st).vendor
      (applyDefaults cfg) hok
    show (resourcePipelineCreate c (resourcePipelineDelete v st).vendor
      (applyDefaults cfg)).d.execution_mode = _
    rw [hr]

/-- The execution mode an update that changed nothing but tags reads back: the one of the
declaration the vendor holds. -/
theorem update_tags_only_execution_mode (v : Vendor) (old d : PipelineResource)
    (sp : StoredPipeline) (hc : declarationChanged old d = false)
    (hfind : v.find d.id = some sp)
    (hok : HasError (resourcePipelineUpdate v old d).diags = false) :
    (resourcePipelineUpdate v old d).d.execution_mode = sp.declaration.ExecutionMode := by
  obtain ⟨v1, v2, calls1, calls2, hstep, htags, heq⟩ := update_steps v old d hok
  have hv1 : v1 = v := by
    rcases hstep with ⟨h, _, _⟩ | ⟨_, h, _⟩
    · rw [hc] at h
      cases h
    · exact h
  subst hv1
  have hv2 := updateTags_ok v1 v2 d.arn old.tags d.tags (by rw [htags])
  have hf2 : ∃ sp2 : StoredPipeline, v2.find d.id = some sp2 ∧
      sp2.declaration = sp.declaration := by
    rw [hv2, find_retag, hfind]
    by_cases harn : (sp.arn == d.arn) = true
    · refine ⟨{ sp with tags := mergeTags (removeTags sp.tags
        (removedTagKeys old.tags d.tags)) (updatedTags old.tags d.tags) }, ?_, rfl⟩
      simp only [Option.map, harn, if_true]
    · exact ⟨sp, by simp only [Option.map, harn, Bool.false_eq_true, if_false], rfl⟩
  obtain ⟨sp2, hf2, hdecl⟩ := hf2
  obtain ⟨sp3, h3⟩ := findARN_of_find v2 d.id sp2 hf2
  rw [heq, read_found v2 d sp2 sp3 hf2 h3]
  simp only []
  rw [hdecl]

/-- C12 (on the modelled handlers): after a create that returns no error, on any vendor, every
action whose configuration omits `role_arn`, `region` and `run_order` reads back with the
empty `role_arn`, the empty `region` and `run_order` 1. A configuration that omits
`execution_mode` reads back `SUPERSEDED` after every apply that returns no error, on any
vendor and state: after a create or an update in place that sends the declaration, after a
replacement, after an apply that has nothing to do, and after an update of tags only when the
vendor holds the execution mode the state records. -/
theorem omitted_attributes_read_back (c : Client) (cfg : PipelineResource) :
    (∀ v, HasError (applyPlan c v (some cfg) none).diags = false →
      ∀ i j a, actionAt cfg i j = some a →
        a.role_arn = "" → a.region = "" → a.run_order = 0 →
        ∃ a2, actionAt (applyPlan c v (some cfg) none).d i j = some a2 ∧
          a2.role_arn = "" ∧ a2.region = "" ∧ a2.run_order = 1) ∧
    (cfg.execution_mode = "" →
      (∀ v state, sendsDeclaration cfg state = true →
        HasError (applyPlan c v (some cfg) state).diags = false →
        (applyPlan c v (some cfg) state).d.execution_mode = "SUPERSEDED") ∧
      (∀ v st, cfg.name ≠ st.name →
        HasError (applyPlan c v (some cfg) (some st)).diags = false →
        (applyPlan c v (some cfg) (some st)).d.execution_mode = "SUPERSEDED") ∧
      (∀ v st, plan (some cfg) (some st) = PlanAction.NoOp →
        (applyPlan c v (some cfg) (some st)).d.execution_mode = "SUPERSEDED") ∧
      (∀ v st sp, cfg.name = st.name → declarationChanged st (planned cfg st) = false →
        sameTags cfg.tags st.tags = false →
        v.find st.id = some sp → sp.declaration.ExecutionMode = st.execution_mode →
        HasError (applyPlan c v (some cfg) (some st)).diags = false →
        (applyPlan c v (some cfg) (some st)).d.execution_mode = "SUPERSEDED")) := by
  constructor
  · intro v hok i j a ha hrole hregion horder
    obtain ⟨dd, _, hstage, _, _, _, _⟩ := apply_declaration_result c v cfg none rfl hok
    have hd : actionAt (desired cfg none) i j = some a := by
      rw [actionAt_congr (desired cfg none) cfg rfl]
      exact ha
    have h := actionAt_flatten dd (desired cfg none) _ v.secretMask i j a hd hstage
    refine ⟨_, h, ?_, ?_, ?_⟩
    · simp [flattenActionDeclaration, expandActionDeclaration, hrole, optionalString]
    · simp [flattenActionDeclaration, expandActionDeclaration, hregion, optionalString]
    · simp [flattenActionDeclaration, expandActionDeclaration, horder]
  · intro hmode
    have hdef : (applyDefaults cfg).execution_mode = "SUPERSEDED" := by
      simp [applyDefaults, hmode]
    refine ⟨?_, ?_, ?_, ?_⟩
    · intro v state hs hok2
      obtain ⟨dd, _, _, _, _, hexec, _⟩ := apply_declaration_result c v cfg state hs hok2
      rw [hexec, hdef]
    · intro v st hn hok2
      rw [applyPlan_replace_execution_mode c v cfg st hn hok2, hdef]
    · intro v st hp
      rw [applyPlan_noop_execution_mode c v cfg st hp, hdef]
    · intro v st sp hn hc htags hfind hsync hok2
      have hn2 : (cfg.name != st.name) = false := by simpa using hn
      have happ : applyPlan c v (some cfg) (some st) =
          resourcePipelineUpdate v st (planned cfg st) := by
        unfold applyPlan
        simp [hn2, hc, htags]
      rw [happ] at hok2 ⊢
      rw [update_tags_only_execution_mode v st (planned cfg st) sp hc hfind hok2, hsync,
        declarationChanged_false_execution_mode st (planned cfg st) hc]
      exact hdef

/-- The `OAuthToken` read back at a place where the desired attributes have a `GitHub` action
with a token, when the stages read back are those of the declaration of the desired
attributes. -/
theorem token_read_back (dd d st : PipelineResource) (m : String) (i j : Nat)
    (a : ActionBlock) (tok : String) (hdd : dd.stage = d.stage)
    (ha : actionAt d i j = some a) (hp : a.provider = "GitHub")
    (ht : a.configuration.lookup "OAuthToken" = some tok)
    (hst : st.stage = flattenStageDeclarations dd 0
      (maskDeclaration m (expandPipelineDeclaration d)).Stages) :
    ∃ a2, actionAt st i j = some a2 ∧ a2.configuration.lookup "OAuthToken" = some tok := by
  have h := actionAt_flatten dd d st m i j a ha hst
  refine ⟨_, h, ?_⟩
  have hprior : priorOAuthToken dd i j = tok := by
    rw [priorOAuthToken_eq, actionAt_congr dd d hdd, ha]
    simp only []
    rw [ht]
    rfl
  have hgit : ((expandActionDeclaration a).Provider == "GitHub") = true := by
    show (a.provider == "GitHub") = true
    rw [hp]
    rfl
  unfold flattenActionDeclaration
  simp only [hgit, if_true]
  rw [lookup_setOAuthToken, hprior]
  unfold maskConfiguration
  rw [lookup_setOAuthToken]
  show Option.map _ (Option.map _ (a.configuration.lookup "OAuthToken")) = _
  rw [ht]
  rfl

/-- The stages an update that changed nothing but tags reads back: those of the declaration
the vendor holds. -/
theorem update_tags_only_stages (v : Vendor) (old d : PipelineResource) (sp : StoredPipeline)
    (hc : declarationChanged old d = false) (hfind : v.find d.id = some sp)
    (hok : HasError (resourcePipelineUpdate v old d).diags = false) :
    (resourcePipelineUpdate v old d).d.stage =
      flattenStageDeclarations d 0 (maskDeclaration v.secretMask sp.declaration).Stages := by
  obtain ⟨v1, v2, calls1, calls2, hstep, htags, heq⟩ := update_steps v old d hok
  have hv1 : v1 = v := by
    rcases hstep with ⟨h, _, _⟩ | ⟨_, h, _⟩
    · rw [hc] at h
      cases h
    · exact h
  subst hv1
  have hv2 := updateTags_ok v1 v2 d.arn old.tags d.tags (by rw [htags])
  have hf2 : ∃ sp2 : StoredPipeline, v2.find d.id = some sp2 ∧
      sp2.declaration = sp.declaration := by
    rw [hv2, find_retag, hfind]
    by_cases harn : (sp.arn == d.arn) = true
    · refine ⟨{ sp with tags := mergeTags (removeTags sp.tags
        (removedTagKeys old.tags d.tags)) (updatedTags old.tags d.tags) }, ?_, rfl⟩
      simp only [Option.map, harn, if_true]
    · exact ⟨sp, by simp only [Option.map, harn, Bool.false_eq_true, if_false], rfl⟩
  obtain ⟨sp2, hf2, hdecl⟩ := hf2
  obtain ⟨sp3, h3⟩ := findARN_of_find v2 d.id sp2 hf2
  have hm : v2.secretMask = v1.secretMask := by rw [hv2, secretMask_retag]
  rw [heq, read_found v2 d sp2 sp3 hf2 h3]
  simp only []
  rw [hdecl, hm]

/-- C13 (on the modelled handlers): for an action of provider `GitHub` whose configuration has
an `OAuthToken`, the vendor returns its mask for that key, whatever the mask is; after a
create or an update in place that sends the declaration and returns no error, the action read
back at the same place has the configured token under `OAuthToken`; and so it has after an
update that changes nothing but tags, when the vendor holds the declaration of the desired
attributes. -/
theorem oauth_token_kept_from_configuration (c : Client) (v : Vendor) (cfg : PipelineResource)
    (i j : Nat) (a : ActionBlock) (tok : String)
    (ha : actionAt cfg i j = some a) (hp : a.provider = "GitHub")
    (ht : a.configuration.lookup "OAuthToken" = some tok) :
    (maskConfiguration v.secretMask (expandActionDeclaration a).Configuration).lookup "OAuthToken" =
      some v.secretMask ∧
    (∀ state, sendsDeclaration cfg state = true →
      HasError (applyPlan c v (some cfg) state).diags = false →
      ∃ a2, actionAt (applyPlan c v (some cfg) state).d i j = some a2 ∧
        a2.configuration.lookup "OAuthToken" = some tok) ∧
    (∀ st sp, declarationChanged st (planned cfg st) = false →
      v.find (planned cfg st).id = some sp →
      sp.declaration = expandPipelineDeclaration (planned cfg st) →
      HasError (resourcePipelineUpdate v st (planned cfg st)).diags = false →
      ∃ a2, actionAt (resourcePipelineUpdate v st (planned cfg st)).d i j = some a2 ∧
        a2.configuration.lookup "OAuthToken" = some tok) := by
  refine ⟨?_, ?_, ?_⟩
  · unfold maskConfiguration
    rw [lookup_setOAuthToken]
    show Option.map _ (a.configuration.lookup "OAuthToken") = _
    rw [ht]
    rfl
  · intro state hs hok
    obtain ⟨dd, hdd, hstage, _, _, _, _⟩ := apply_declaration_result c v cfg state hs hok
    obtain ⟨a1, ha1, hprov, hconf, _, _⟩ := actionAt_desired cfg state i j a ha
    exact token_read_back dd (desired cfg state) _ v.secretMask i j a1 tok hdd ha1
      (by rw [hprov, hp]) (by rw [hconf, ht]) hstage
  · intro st sp hc hfind hdecl hok
    obtain ⟨a1, ha1, hprov, hconf, _, _⟩ := actionAt_desired cfg (some st) i j a ha
    have hstage := update_tags_only_stages v st (planned cfg st) sp hc hfind hok
    rw [hdecl] at hstage
    exact token_read_back (planned cfg st) (planned cfg st) _ v.secretMask i j a1 tok rfl ha1
      (by rw [hprov, hp]) (by rw [hconf, ht]) hstage

/-- C14 (on the modelled handlers): for a configuration of pipeline type `V2`, after a create or
an update in place that sends the declaration and returns no error, the state has pipeline
type `V2` and its `variable` blocks are the configured ones in the configured order, each with
its name, description and default value. -/
theorem variables_read_back (c : Client) (v : Vendor) (cfg : PipelineResource)
    (state : Option PipelineResource) (hs : sendsDeclaration cfg state = true)
    (hok : HasError (applyPlan c v (some cfg) state).diags = false)
    (hv2 : cfg.pipeline_type = "V2") :
    (applyPlan c v (some cfg) state).d.pipeline_type = "V2" ∧
    (applyPlan c v (some cfg) state).d.variable_ = cfg.variable_ ∧
    (∀ k b, cfg.variable_.get? k = some b →
      ∃ b2, (applyPlan c v (some cfg) state).d.variable_.get? k = some b2 ∧
        b2.name = b.name ∧ b2.description = b.description ∧
        b2.default_value = b.default_value) := by
  obtain ⟨dd, _, _, _, hvar, _, htype⟩ := apply_declaration_result c v cfg state hs hok
  have h : (applyPlan c v (some cfg) state).d.variable_ = cfg.variable_ := by
    rw [hvar, List.map_map]
    conv_rhs => rw [← List.map_id cfg.variable_]
    apply List.map_congr_left
    intro b _
    exact flatten_expand_variable b
  refine ⟨?_, h, ?_⟩
  · rw [htype]
    simp [applyDefaults, hv2]
  · intro k b hb
    exact ⟨b, by rw [h, hb], rfl, rfl, rfl⟩


/-! ## Witnesses on the fixtures, continued -/

/-- Witness of C11: the step of `TestAccCodePipeline_MultiRegion_convertSingleRegion` back from
two artifact stores to one. -/
theorem artifact_stores_read_back_witness :
    sendsDeclaration backToBasicConfig (some convertedToMultiregion.d) = true ∧
    HasError convertedBackToBasic.diags = false ∧
    storeRegions convertedToMultiregion.d.artifact_store = ["us-west-2", "us-east-1"] ∧
    (convertedBackToBasic.d.artifact_store = backToBasicConfig.artifact_store ∧
      (∀ b, backToBasicConfig.artifact_store = [b] → b.region = "" →
        ∃ b2, convertedBackToBasic.d.artifact_store = [b2] ∧ b2.region = "") ∧
      convertedBackToBasic.d.artifact_store.length = backToBasicConfig.artifact_store.length ∧
      storeRegions convertedBackToBasic.d.artifact_store =
        storeRegions backToBasicConfig.artifact_store) ∧
    storeRegions convertedBackToBasic.d.artifact_store = [""] ∧
    storeRegions createdBasic.d.artifact_store = [""] :=
  ⟨by decide, by decide, by decide,
   artifact_stores_read_back testClient convertedToMultiregion.vendor backToBasicConfig
     (some convertedToMultiregion.d) (by decide) (by decide),
   by decide, by decide⟩

/-- Witness of C12: the `Build` action and the pipeline of `testAccCodePipelineConfig_basic`
after the create, and the last step of `TestAccCodePipeline_pipelinetype`, the update from
`QUEUED` back to a configuration that omits `execution_mode`. -/
theorem omitted_attributes_read_back_witness :
    HasError createdBasic.diags = false ∧
    (∃ a2, actionAt createdBasic.d 1 0 = some a2 ∧
      a2.role_arn = "" ∧ a2.region = "" ∧ a2.run_order = 1) ∧
    createdBasic.d.execution_mode = "SUPERSEDED" ∧
    (testAccCodePipelineConfig_pipelinetype sampleRefs "abc").execution_mode = "" ∧
    updatedPipelinetype.d.execution_mode = "QUEUED" ∧
    sendsDeclaration (testAccCodePipelineConfig_pipelinetype sampleRefs "abc")
      (some updatedPipelinetype.d) = true ∧
    HasError revertedPipelinetype.diags = false ∧
    revertedPipelinetype.d.execution_mode = "SUPERSEDED" :=
  ⟨by decide,
   (omitted_attributes_read_back testClient basicConfig).1 emptyVendor (by decide) 1 0 _
     rfl rfl rfl rfl,
   ((omitted_attributes_read_back testClient basicConfig).2 rfl).1 emptyVendor none
     rfl (by decide),
   rfl, by decide, by decide, by decide,
   ((omitted_attributes_read_back testClient
      (testAccCodePipelineConfig_pipelinetype sampleRefs "abc")).2 rfl).1
     updatedPipelinetype.vendor (some updatedPipelinetype.d) (by decide) (by decide)⟩

/-- Witness of C13: the update step of `TestAccCodePipeline_withGitHubV1SourceAction`. -/
theorem oauth_token_kept_from_configuration_witness :
    sendsDeclaration gitHubUpdatedConfig (some createdGitHub.d) = true ∧
    HasError updatedGitHub.diags = false ∧
    (maskConfiguration createdGitHub.vendor.secretMask
        [("Owner", "test-terraform"), ("Repo", "test-repo"), ("Branch", "stable"),
         ("OAuthToken", "ghp-token")]).lookup "OAuthToken" = some "****" ∧
    (∃ a2, actionAt updatedGitHub.d 0 0 = some a2 ∧
      a2.configuration.lookup "OAuthToken" = some "ghp-token") :=
  ⟨by decide, by decide,
   (oauth_token_kept_from_configuration testClient createdGitHub.vendor gitHubUpdatedConfig
     0 0 _ "ghp-token" rfl rfl rfl).1,
   (oauth_token_kept_from_configuration testClient createdGitHub.vendor gitHubUpdatedConfig
     0 0 _ "ghp-token" rfl rfl rfl).2.1 (some createdGitHub.d) (by decide) (by decide)⟩

/-- Witness of C14: the step of `TestAccCodePipeline_pipelinetype` that adds two variables. -/
theorem variables_read_back_witness :
    sendsDeclaration pipelinetypeUpdatedConfig (some createdPipelinetype.d) = true ∧
    HasError updatedPipelinetype.diags = false ∧
    (updatedPipelinetype.d.pipeline_type = "V2" ∧
      updatedPipelinetype.d.variable_ = pipelinetypeUpdatedConfig.variable_ ∧
      (∀ k b, pipelinetypeUpdatedConfig.variable_.get? k = some b →
        ∃ b2, updatedPipelinetype.d.variable_.get? k = some b2 ∧
          b2.name = b.name ∧ b2.description = b.description ∧
          b2.default_value = b.default_value)) ∧
    updatedPipelinetype.d.variable_.map (fun b => b.name) = ["test_var1", "test_var2"] :=
  ⟨by decide, by decide,
   variables_read_back testClient createdPipelinetype.vendor pipelinetypeUpdatedConfig
     (some createdPipelinetype.d) (by decide) (by decide) rfl,
   by decide⟩

/-- Witness of C15: a state with a bucket and a pipeline, on a vendor without the pipeline, on a
vendor with it, and on a finder that fails. -/
theorem destroy_check_nil_iff_all_not_found_witness :
    (testAccCheckPipelineDestroy emptyVendor.GetPipeline basicTerraformState).1 = none ∧
    (∀ rs ∈ basicTerraformState.Resources.map Prod.snd, rs.Type_ = "aws_codepipeline" →
      ∃ e, emptyVendor.GetPipeline rs.Primary.ID = Except.error e ∧ e.notFound = true) ∧
    (testAccCheckPipelineDestroy emptyVendor.GetPipeline basicTerraformState).2 =
      ["test-pipeline-abc"] ∧
    ((testAccCheckPipelineDestroy createdBasic.vendor.GetPipeline basicTerraformState).1 = none ↔
      (testAccCheckPipelineDestroy createdBasic.vendor.GetPipeline
        basicTerraformStateSwapped).1 = none) ∧
    (testAccCheckPipelineDestroy createdBasic.vendor.GetPipeline basicTerraformState).1 =
      some (Errorf "CodePipeline Pipeline test-pipeline-abc still exists") ∧
    (testAccCheckPipelineDestroy deniedFinder basicTerraformState).1 =
      some { msg := "AccessDenied", notFound := false } :=
  ⟨by decide,
   (destroy_check_nil_iff_all_not_found emptyVendor.GetPipeline basicTerraformState).1.mp
     (by decide),
   by decide,
   (destroy_check_nil_iff_all_not_found createdBasic.vendor.GetPipeline
     basicTerraformState).2.2 basicTerraformStateSwapped (List.Perm.swap _ _ _),
   by decide, by decide⟩

/-- Witness of C16: a name that is not in the state, a finder that fails, and a pipeline that is
found. -/
theorem exists_check_cases_witness :
    testAccCheckPipelineExists createdBasic.vendor.GetPipeline "aws_codepipeline.missing"
        emptyDeclaration basicTerraformState =
      { err := some (Errorf ("Not found: " ++ "aws_codepipeline.missing")),
        v := emptyDeclaration, lookups := [] } ∧
    testAccCheckPipelineExists deniedFinder "aws_codepipeline.test" emptyDeclaration
        basicTerraformState =
      { err := some { msg := "AccessDenied", notFound := false }, v := emptyDeclaration,
        lookups := ["test-pipeline-abc"] } ∧
    testAccCheckPipelineExists createdBasic.vendor.GetPipeline "aws_codepipeline.test"
        emptyDeclaration basicTerraformState =
      { err := none, v := basicGetPipelineOutput.Pipeline, lookups := ["test-pipeline-abc"] } :=
  ⟨(exists_check_cases createdBasic.vendor.GetPipeline "aws_codepipeline.missing"
      emptyDeclaration basicTerraformState).1 rfl,
   (exists_check_cases deniedFinder "aws_codepipeline.test" emptyDeclaration
      basicTerraformState).2.1 { Type_ := "aws_codepipeline", Primary := { ID := "test-pipeline-abc" } }
      { msg := "AccessDenied", notFound := false } rfl rfl,
   (exists_check_cases createdBasic.vendor.GetPipeline "aws_codepipeline.test" emptyDeclaration
      basicTerraformState).2.2 { Type_ := "aws_codepipeline", Primary := { ID := "test-pipeline-abc" } }
      basicGetPipelineOutput rfl rfl⟩

/-! ## The model against the expectations of the other tests -/

/-- The steps of `TestAccCodePipeline_MultiRegion_convertSingleRegion`: one artifact store, two,
and one again; after the last step the action keeps the region it had. -/
theorem model_passes_convertSingleRegion :
    passes createdBasic.d convertStep1Checks = true ∧
    HasError convertedToMultiregion.diags = false ∧
    passes convertedToMultiregion.d (convertStep2Checks "us-west-2" "us-east-1") = true ∧
    plan (some multiregionConfig) (recorded convertedToMultiregion.d) = PlanAction.NoOp ∧
    HasError convertedBackToBasic.diags = false ∧
    passes convertedBackToBasic.d (convertStep3Checks "us-west-2") = true ∧
    plan (some backToBasicConfig) (recorded convertedBackToBasic.d) = PlanAction.NoOp := by
  decide

/-- The steps of `TestAccCodePipeline_MultiRegion_basic` and
`TestAccCodePipeline_MultiRegion_update`. -/
theorem model_passes_multiRegion :
    HasError createdMultiregion.diags = false ∧
    passes createdMultiregion.d (multiRegionStep1Checks "us-west-2" "us-east-1") = true ∧
    HasError updatedMultiregion.diags = false ∧
    passes updatedMultiregion.d (multiRegionUpdateStep2Checks "us-west-2" "us-east-1") = true := by
  decide

/-- The steps of `TestAccCodePipeline_deployWithServiceRole`, `TestAccCodePipeline_withNamespace`
and `TestAccCodePipeline_ecr`. -/
theorem model_passes_single_step_tests :
    HasError createdDeployServiceRole.diags = false ∧
    passes createdDeployServiceRole.d (deployWithServiceRoleChecks sampleRefs) = true ∧
    HasError createdNamespace.diags = false ∧
    passes createdNamespace.d withNamespaceChecks = true ∧
    HasError createdEcr.diags = false ∧
    passes createdEcr.d ecrChecks = true := by
  decide

end CodePipeline

namespace EFS
open Provider

/-! ## What the mount-target read writes -/

theorem writtenBy_append (d d2 : ResourceData) (l : List String)
    (h : d2.written = d.written ++ l) : writtenBy d d2 = l := by
  unfold writtenBy
  rw [h]
  exact List.drop_left _ _

theorem written_setMountTargetAttributes (c : AWSClient) (d : ResourceData)
    (mt : MountTargetDescription) :
    (setMountTargetAttributes c d mt).written = d.written ++
      ["availability_zone_id", "availability_zone_name", "dns_name", "file_system_arn",
       "file_system_id", "ip_address", "mount_target_dns_name", "mount_target_id",
       "network_interface_id", "owner_id", "subnet_id"] := by
  simp [setMountTargetAttributes, ResourceData.Set, ResourceData.SetId]

theorem Get_setMountTargetAttributes_other (c : AWSClient) (d : ResourceData)
    (mt : MountTargetDescription) (k : String)
    (h : k ∉ ["availability_zone_id", "availability_zone_name", "dns_name", "file_system_arn",
       "file_system_id", "ip_address", "mount_target_dns_name", "mount_target_id",
       "network_interface_id", "owner_id", "subnet_id"]) :
    (setMountTargetAttributes c d mt).Get k = d.Get k := by
  simp only [List.mem_cons, List.mem_singleton, not_or, List.mem_nil_iff, or_false] at h
  obtain ⟨h1, h2, h3, h4, h5, h6, h7, h8, h9, h10, h11⟩ := h
  unfold setMountTargetAttributes
  simp only []
  rw [Get_Set_other _ _ _ _ h11, Get_Set_other _ _ _ _ h10, Get_Set_other _ _ _ _ h9,
    Get_Set_other _ _ _ _ h8, Get_Set_other _ _ _ _ h7, Get_Set_other _ _ _ _ h6,
    Get_Set_other _ _ _ _ h5, Get_Set_other _ _ _ _ h4, Get_Set_other _ _ _ _ h3,
    Get_Set_other _ _ _ _ h2, Get_Set_other _ _ _ _ h1]
  rfl

theorem GetString_str (d : ResourceData) (k s : String) (h : d.Get k = some (Value.str s)) :
    d.GetString k = s := by
  simp [ResourceData.GetString, ResourceData.GetOk, h]

theorem GetString_ptr (d : ResourceData) (k : String) (p : Option String)
    (h : d.Get k = some (Value.ptr p)) : d.GetString k = StringValue p := by
  simp [ResourceData.GetString, ResourceData.GetOk, h]

theorem Get_attributes_written (c : AWSClient) (d : ResourceData) (mt : MountTargetDescription) :
    (setMountTargetAttributes c d mt).Get "availability_zone_id" =
      some (Value.ptr mt.AvailabilityZoneId) ∧
    (setMountTargetAttributes c d mt).Get "availability_zone_name" =
      some (Value.ptr mt.AvailabilityZoneName) ∧
    (setMountTargetAttributes c d mt).Get "dns_name" =
      some (Value.str (c.RegionalHostname (StringValue mt.FileSystemId ++ ".efs"))) ∧
    (setMountTargetAttributes c d mt).Get "file_system_arn" =
      some (Value.str ("arn:" ++ c.Partition ++ ":elasticfilesystem:" ++ c.Region ++ ":" ++
        c.AccountID ++ ":file-system/" ++ StringValue mt.FileSystemId)) ∧
    (setMountTargetAttributes c d mt).Get "file_system_id" =
      some (Value.str (StringValue mt.FileSystemId)) ∧
    (setMountTargetAttributes c d mt).Get "ip_address" = some (Value.ptr mt.IpAddress) ∧
    (setMountTargetAttributes c d mt).Get "mount_target_dns_name" =
      some (Value.str (c.RegionalHostname
        (StringValue mt.AvailabilityZoneName ++ "." ++ StringValue mt.FileSystemId ++ ".efs"))) ∧
    (setMountTargetAttributes c d mt).Get "mount_target_id" =
      some (Value.ptr mt.MountTargetId) ∧
    (setMountTargetAttributes c d mt).Get "network_interface_id" =
      some (Value.ptr mt.NetworkInterfaceId) ∧
    (setMountTargetAttributes c d mt).Get "owner_id" = some (Value.ptr mt.OwnerId) ∧
    (setMountTargetAttributes c d mt).Get "subnet_id" = some (Value.ptr mt.SubnetId) := by
  have harn := arn_string c.Partition c.Region c.AccountID (StringValue mt.FileSystemId)
  refine ⟨?_, ?_, ?_, ?_, ?_, ?_, ?_, ?_, ?_, ?_, ?_⟩ <;>
    simp [setMountTargetAttributes, Get_Set_other, Get_Set_same, harn]

/-- C21: after a read without error, for whatever data the read started from, the ID and the
`mount_target_id` attribute are both the `MountTargetId` the lookup returned, the empty string
when that is absent, and `file_system_id` is the file-system ID that `file_system_arn` and
`dns_name` are built from. -/
theorem id_and_file_system_id_of_read (c : AWSClient) (conn : Conn) (d : ResourceData)
    (h : HasError (dataSourceMountTargetRead c conn d).diags = false) :
    ∃ mt, conn.findMountTarget (describeMountTargetsInput d) = Except.ok mt ∧
      (dataSourceMountTargetRead c conn d).d.Id = StringValue mt.MountTargetId ∧
      (dataSourceMountTargetRead c conn d).d.Get "mount_target_id" =
        some (Value.ptr mt.MountTargetId) ∧
      (dataSourceMountTargetRead c conn d).d.GetString "mount_target_id" =
        StringValue mt.MountTargetId ∧
      (mt.MountTargetId = none →
        (dataSourceMountTargetRead c conn d).d.Id = "" ∧
        (dataSourceMountTargetRead c conn d).d.GetString "mount_target_id" = "") ∧
      ∃ fsID, fsID = StringValue mt.FileSystemId ∧
        (dataSourceMountTargetRead c conn d).d.GetString "file_system_id" = fsID ∧
        (dataSourceMountTargetRead c conn d).d.GetString "file_system_arn" =
          "arn:" ++ c.Partition ++ ":elasticfilesystem:" ++ c.Region ++ ":" ++ c.AccountID ++
            ":file-system/" ++ fsID ∧
        (dataSourceMountTargetRead c conn d).d.GetString "dns_name" =
          c.RegionalHostname (fsID ++ ".efs") := by
  obtain ⟨mt, out, h1, _, hr⟩ := read_without_error c conn d h
  obtain ⟨_, _, g3, g4, g5, _, _, g8, _, _, _⟩ := Get_attributes_written c d mt
  have hid : (dataSourceMountTargetRead c conn d).d.Id = StringValue mt.MountTargetId := by
    rw [hr]
    rfl
  have hget : ∀ k v, k ≠ "security_groups" → (setMountTargetAttributes c d mt).Get k = some v →
      (dataSourceMountTargetRead c conn d).d.Get k = some v := by
    intro k v hk hv
    rw [hr]
    simp only []
    rw [Get_Set_other _ _ _ _ hk, hv]
  have hmt := GetString_ptr _ _ _ (hget _ _ (by decide) g8)
  refine ⟨mt, h1, hid, hget _ _ (by decide) g8, hmt, ?_, _, rfl,
    GetString_str _ _ _ (hget _ _ (by decide) g5), GetString_str _ _ _ (hget _ _ (by decide) g4),
    GetString_str _ _ _ (hget _ _ (by decide) g3)⟩
  intro hn
  rw [hid, hmt, hn]
  exact ⟨rfl, rfl⟩

/-- Witness of C21: a configuration that names another file system and another mount target
than the lookup returns, and a mount target without an ID. -/
theorem id_and_file_system_id_of_read_witness :
    HasError (dataSourceMountTargetRead sampleClient sampleConn sampleOtherData).diags = false ∧
    (∃ mt, sampleConn.findMountTarget (describeMountTargetsInput sampleOtherData) =
        Except.ok mt ∧
      (dataSourceMountTargetRead sampleClient sampleConn sampleOtherData).d.Id =
        StringValue mt.MountTargetId ∧
      (dataSourceMountTargetRead sampleClient sampleConn sampleOtherData).d.Get
        "mount_target_id" = some (Value.ptr mt.MountTargetId) ∧
      (dataSourceMountTargetRead sampleClient sampleConn sampleOtherData).d.GetString
        "mount_target_id" = StringValue mt.MountTargetId ∧
      (mt.MountTargetId = none →
        (dataSourceMountTargetRead sampleClient sampleConn sampleOtherData).d.Id = "" ∧
        (dataSourceMountTargetRead sampleClient sampleConn sampleOtherData).d.GetString
          "mount_target_id" = "") ∧
      ∃ fsID, fsID = StringValue mt.FileSystemId ∧
        (dataSourceMountTargetRead sampleClient sampleConn sampleOtherData).d.GetString
          "file_system_id" = fsID ∧
        (dataSourceMountTargetRead sampleClient sampleConn sampleOtherData).d.GetString
          "file_system_arn" =
          "arn:" ++ sampleClient.Partition ++ ":elasticfilesystem:" ++ sampleClient.Region ++
            ":" ++ sampleClient.AccountID ++ ":file-system/" ++ fsID ∧
        (dataSourceMountTargetRead sampleClient sampleConn sampleOtherData).d.GetString
          "dns_name" = sampleClient.RegionalHostname (fsID ++ ".efs")) ∧
    sampleOtherData.GetString "mount_target_id" = "fsmt-other" ∧
    sampleOtherData.GetString "file_system_id" = "fs-other" ∧
    (dataSourceMountTargetRead sampleClient sampleConn sampleOtherData).d.Id = "fsmt-1" ∧
    (dataSourceMountTargetRead sampleClient sampleConn sampleOtherData).d.GetString
      "mount_target_id" = "fsmt-1" ∧
    (dataSourceMountTargetRead sampleClient sampleConn sampleOtherData).d.GetString
      "file_system_id" = "fs-1" ∧
    (dataSourceMountTargetRead sampleClient noIDConn sampleOtherData).d.Id = "" ∧
    (dataSourceMountTargetRead sampleClient noIDConn sampleOtherData).d.GetString
      "mount_target_id" = "" :=
  ⟨by decide, id_and_file_system_id_of_read sampleClient sampleConn sampleOtherData (by decide),
   by decide, by decide, by decide, by decide, by decide, by decide, by decide⟩

/-- C22: when the lookup fails, the read returns an error and leaves the data as it was: the
ID is the one it had, no key was handed to `d.Set`, every attribute reads as before, and the
only call issued is the lookup, so no security-groups call is made. -/
theorem lookup_failure_leaves_data (c : AWSClient) (conn : Conn) (d : ResourceData) (e : Error)
    (h : conn.findMountTarget (describeMountTargetsInput d) = Except.error e) :
    HasError (dataSourceMountTargetRead c conn d).diags = true ∧
    (dataSourceMountTargetRead c conn d).d = d ∧
    (dataSourceMountTargetRead c conn d).d.Id = d.Id ∧
    writtenBy d (dataSourceMountTargetRead c conn d).d = [] ∧
    (∀ k, (dataSourceMountTargetRead c conn d).d.Get k = d.Get k) ∧
    (dataSourceMountTargetRead c conn d).calls =
      [Call.findMountTarget (describeMountTargetsInput d)] ∧
    securityGroupCalls (dataSourceMountTargetRead c conn d).calls = 0 := by
  rw [read_lookup_error c conn d e h]
  refine ⟨by simp [HasError], rfl, rfl, ?_, fun _ => rfl, rfl, rfl⟩
  exact writtenBy_append d d [] (by simp)

/-- Witness of C22: a lookup that is denied, on a configuration with attributes. -/
theorem lookup_failure_leaves_data_witness :
    lookupDeniedConn.findMountTarget (describeMountTargetsInput sampleOtherData) =
      Except.error { msg := "AccessDenied", notFound := false } ∧
    (HasError (dataSourceMountTargetRead sampleClient lookupDeniedConn sampleOtherData).diags =
        true ∧
      (dataSourceMountTargetRead sampleClient lookupDeniedConn sampleOtherData).d =
        sampleOtherData ∧
      (dataSourceMountTargetRead sampleClient lookupDeniedConn sampleOtherData).d.Id =
        sampleOtherData.Id ∧
      writtenBy sampleOtherData
        (dataSourceMountTargetRead sampleClient lookupDeniedConn sampleOtherData).d = [] ∧
      (∀ k, (dataSourceMountTargetRead sampleClient lookupDeniedConn sampleOtherData).d.Get k =
        sampleOtherData.Get k) ∧
      (dataSourceMountTargetRead sampleClient lookupDeniedConn sampleOtherData).calls =
        [Call.findMountTarget (describeMountTargetsInput sampleOtherData)] ∧
      securityGroupCalls
        (dataSourceMountTargetRead sampleClient lookupDeniedConn sampleOtherData).calls = 0) :=
  ⟨rfl, lookup_failure_leaves_data sampleClient lookupDeniedConn sampleOtherData _ rfl⟩

/-- C23: when the lookup succeeds and the security-groups call fails, the read returns an error
and `security_groups` is neither written nor changed, while the ID and the eleven other
computed attributes hold the values of the mount target that was found; the data is not the
data the read started from. -/
theorem security_groups_failure_keeps_earlier_writes (c : AWSClient) (conn : Conn)
    (d : ResourceData) (mt : MountTargetDescription) (e : Error)
    (h1 : conn.findMountTarget (describeMountTargetsInput d) = Except.ok mt)
    (h2 : conn.DescribeMountTargetSecurityGroups
      { MountTargetId := some (StringValue mt.MountTargetId) } = Except.error e) :
    HasError (dataSourceMountTargetRead c conn d).diags = true ∧
    (dataSourceMountTargetRead c conn d).d.Get "security_groups" = d.Get "security_groups" ∧
    "security_groups" ∉ writtenBy d (dataSourceMountTargetRead c conn d).d ∧
    (dataSourceMountTargetRead c conn d).d.Id = StringValue mt.MountTargetId ∧
    writtenBy d (dataSourceMountTargetRead c conn d).d =
      ["availability_zone_id", "availability_zone_name", "dns_name", "file_system_arn",
       "file_system_id", "ip_address", "mount_target_dns_name", "mount_target_id",
       "network_interface_id", "owner_id", "subnet_id"] ∧
    ((dataSourceMountTargetRead c conn d).d.Get "availability_zone_id" =
        some (Value.ptr mt.AvailabilityZoneId) ∧
      (dataSourceMountTargetRead c conn d).d.Get "availability_zone_name" =
        some (Value.ptr mt.AvailabilityZoneName) ∧
      (dataSourceMountTargetRead c conn d).d.Get "dns_name" =
        some (Value.str (c.RegionalHostname (StringValue mt.FileSystemId ++ ".efs"))) ∧
      (dataSourceMountTargetRead c conn d).d.Get "file_system_arn" =
        some (Value.str ("arn:" ++ c.Partition ++ ":elasticfilesystem:" ++ c.Region ++ ":" ++
          c.AccountID ++ ":file-system/" ++ StringValue mt.FileSystemId)) ∧
      (dataSourceMountTargetRead c conn d).d.Get "file_system_id" =
        some (Value.str (StringValue mt.FileSystemId)) ∧
      (dataSourceMountTargetRead c conn d).d.Get "ip_address" = some (Value.ptr mt.IpAddress) ∧
      (dataSourceMountTargetRead c conn d).d.Get "mount_target_dns_name" =
        some (Value.str (c.RegionalHostname
          (StringValue mt.AvailabilityZoneName ++ "." ++ StringValue mt.FileSystemId ++
            ".efs"))) ∧
      (dataSourceMountTargetRead c conn d).d.Get "mount_target_id" =
        some (Value.ptr mt.MountTargetId) ∧
      (dataSourceMountTargetRead c conn d).d.Get "network_interface_id" =
        some (Value.ptr mt.NetworkInterfaceId) ∧
      (dataSourceMountTargetRead c conn d).d.Get "owner_id" = some (Value.ptr mt.OwnerId) ∧
      (dataSourceMountTargetRead c conn d).d.Get "subnet_id" = some (Value.ptr mt.SubnetId)) ∧
    (dataSourceMountTargetRead c conn d).d ≠ d := by
  have hw := writtenBy_append d _ _ (written_setMountTargetAttributes c d mt)
  rw [read_securityGroups_error c conn d mt e h1 h2]
  simp only []
  refine ⟨by simp [HasError], ?_, ?_, rfl, hw, Get_attributes_written c d mt, ?_⟩
  · exact Get_setMountTargetAttributes_other c d mt _ (by decide)
  · rw [hw]
    decide
  · intro heq
    rw [heq] at hw
    have h0 : writtenBy d d = [] := writtenBy_append d d [] (by simp)
    rw [h0] at hw
    cases hw

/-- Witness of C23: a denied security-groups call after the sample mount target was found, on
data that held security groups of an earlier read. -/
theorem security_groups_failure_keeps_earlier_writes_witness :
    HasError
      (dataSourceMountTargetRead sampleClient securityGroupsDeniedConn sampleOtherData).diags =
        true ∧
    (dataSourceMountTargetRead sampleClient securityGroupsDeniedConn sampleOtherData).d.Get
      "security_groups" = some (Value.set {"sg-old"}) ∧
    (dataSourceMountTargetRead sampleClient securityGroupsDeniedConn sampleOtherData).d.Id =
      "fsmt-1" ∧
    (dataSourceMountTargetRead sampleClient securityGroupsDeniedConn sampleOtherData).d.Get
      "subnet_id" = some (Value.ptr (some "subnet-1")) ∧
    (dataSourceMountTargetRead sampleClient securityGroupsDeniedConn sampleOtherData).d ≠
      sampleOtherData :=
  ⟨(security_groups_failure_keeps_earlier_writes sampleClient securityGroupsDeniedConn
      sampleOtherData sampleMountTarget { msg := "AccessDenied", notFound := false }
      rfl rfl).1,
   by decide, by decide, by decide,
   (security_groups_failure_keeps_earlier_writes sampleClient securityGroupsDeniedConn
      sampleOtherData sampleMountTarget { msg := "AccessDenied", notFound := false }
      rfl rfl).2.2.2.2.2.2⟩

/-- The keys one read hands to `d.Set`: none when the lookup fails, eleven when the
security-groups call fails, and the twelve when it returns no error. -/
theorem writtenBy_read (c : AWSClient) (conn : Conn) (d : ResourceData) :
    (HasError (dataSourceMountTargetRead c conn d).diags = true ∧
      (writtenBy d (dataSourceMountTargetRead c conn d).d = [] ∨
       writtenBy d (dataSourceMountTargetRead c conn d).d =
        ["availability_zone_id", "availability_zone_name", "dns_name", "file_system_arn",
         "file_system_id", "ip_address", "mount_target_dns_name", "mount_target_id",
         "network_interface_id", "owner_id", "subnet_id"])) ∨
    (HasError (dataSourceMountTargetRead c conn d).diags = false ∧
      writtenBy d (dataSourceMountTargetRead c conn d).d =
        ["availability_zone_id", "availability_zone_name", "dns_name", "file_system_arn",
         "file_system_id", "ip_address", "mount_target_dns_name", "mount_target_id",
         "network_interface_id", "owner_id", "subnet_id", "security_groups"]) := by
  cases h1 : conn.findMountTarget (describeMountTargetsInput d) with
  | error e =>
    left
    rw [read_lookup_error c conn d e h1]
    exact ⟨by simp [HasError], Or.inl (writtenBy_append d d [] (by simp))⟩
  | ok mt =>
    have hw := written_setMountTargetAttributes c d mt
    cases h2 : conn.DescribeMountTargetSecurityGroups
        { MountTargetId := some (StringValue mt.MountTargetId) } with
    | error e =>
      left
      rw [read_securityGroups_error c conn d mt e h1 h2]
      exact ⟨by simp [HasError], Or.inr (writtenBy_append d _ _ hw)⟩
    | ok out =>
      right
      rw [read_ok c conn d mt out h1 h2]
      refine ⟨rfl, writtenBy_append d _ _ ?_⟩
      show (setMountTargetAttributes c d mt).written ++ ["security_groups"] = _
      rw [hw, List.append_assoc]
      rfl

/-- C24: a read without error hands to `d.Set` exactly the keys the schema of
`DataSourceMountTarget` declares `Computed`, each once, and these are twelve keys;
`access_point_id` is the only key of the schema that is not `Computed`, and no read writes
it, with or without error; no key of the schema is `Required`. -/
theorem written_keys_are_the_computed_keys (c : AWSClient) (conn : Conn) (d : ResourceData) :
    (HasError (dataSourceMountTargetRead c conn d).diags = false →
      (∀ k, k ∈ writtenBy d (dataSourceMountTargetRead c conn d).d ↔
        k ∈ computedKeys DataSourceMountTarget) ∧
      (writtenBy d (dataSourceMountTargetRead c conn d).d).Nodup ∧
      (writtenBy d (dataSourceMountTargetRead c conn d).d).length = 12) ∧
    (computedKeys DataSourceMountTarget).length = 12 ∧
    (schemaKeys DataSourceMountTarget).Nodup ∧
    notComputedKeys DataSourceMountTarget = ["access_point_id"] ∧
    "access_point_id" ∉ writtenBy d (dataSourceMountTargetRead c conn d).d ∧
    requiredKeys DataSourceMountTarget = [] ∧
    (∀ kv ∈ DataSourceMountTarget.Schema, kv.2.Required = false) ∧
    DataSourceMountTarget.ReadWithoutTimeout = dataSourceMountTargetRead := by
  refine ⟨?_, by decide, by decide, by decide, ?_, by decide, by decide, rfl⟩
  · intro h
    rcases writtenBy_read c conn d with ⟨h1, _⟩ | ⟨_, hw⟩
    · rw [h] at h1
      cases h1
    · rw [hw]
      refine ⟨?_, by decide, by decide⟩
      intro k
      have hc : computedKeys DataSourceMountTarget =
          ["availability_zone_id", "availability_zone_name", "dns_name", "file_system_arn",
           "file_system_id", "ip_address", "mount_target_id", "mount_target_dns_name",
           "network_interface_id", "owner_id", "security_groups", "subnet_id"] := by decide
      rw [hc]
      simp only [List.mem_cons, List.mem_singleton, List.mem_nil_iff, or_false]
      tauto
  · rcases writtenBy_read c conn d with ⟨_, hw | hw⟩ | ⟨_, hw⟩ <;> rw [hw] <;> decide

/-- Witness of C24: the keys written by the sample read, in the order of the writes. -/
theorem written_keys_are_the_computed_keys_witness :
    HasError (dataSourceMountTargetRead sampleClient sampleConn sampleData).diags = false ∧
    ((∀ k, k ∈ writtenBy sampleData
          (dataSourceMountTargetRead sampleClient sampleConn sampleData).d ↔
        k ∈ computedKeys DataSourceMountTarget) ∧
      (writtenBy sampleData
        (dataSourceMountTargetRead sampleClient sampleConn sampleData).d).Nodup ∧
      (writtenBy sampleData
        (dataSourceMountTargetRead sampleClient sampleConn sampleData).d).length = 12) ∧
    writtenBy sampleData (dataSourceMountTargetRead sampleClient sampleConn sampleData).d =
      ["availability_zone_id", "availability_zone_name", "dns_name", "file_system_arn",
       "file_system_id", "ip_address", "mount_target_dns_name", "mount_target_id",
       "network_interface_id", "owner_id", "subnet_id", "security_groups"] :=
  ⟨by decide,
   (written_keys_are_the_computed_keys sampleClient sampleConn sampleData).1 (by decide),
   by decide⟩

end EFS

namespace CodePipeline
open Provider

/-! ## The pre-check -/

theorem preCheckLoop_returned_iff (t : Acctest) (hskip : t.PreCheckSkipError none = false)
    (l : List String) :
    (preCheckLoop t l).outcome = TestEnd.returned ↔
      ∀ r ∈ l, HasError (t.ConfigureProvider r) = false ∧ t.ListPipelines r = none := by
  induction l with
  | nil => simp [preCheckLoop]
  | cons region rest ih =>
    unfold preCheckLoop
    by_cases hc : HasError (t.ConfigureProvider region) = true
    · simp [hc]
    · have hc2 : HasError (t.ConfigureProvider region) = false := by simpa using hc
      cases he : t.ListPipelines region with
      | none => simp [hc2, he, hskip, ih]
      | some e =>
        by_cases hs : t.PreCheckSkipError (some e) = true
        · simp [hc2, he, hs]
        · simp [hc2, he, hs]

theorem preCheckLoop_of_returned (t : Acctest) (l : List String)
    (h : (preCheckLoop t l).outcome = TestEnd.returned) :
    (preCheckLoop t l).calls = l ∧ (preCheckLoop t l).configured = l := by
  induction l with
  | nil => simp [preCheckLoop]
  | cons region rest ih =>
    unfold preCheckLoop at h ⊢
    by_cases hc : HasError (t.ConfigureProvider region) = true
    · simp [hc] at h
    · by_cases hs : t.PreCheckSkipError (t.ListPipelines region) = true
      · simp [hc, hs] at h
      · cases he : t.ListPipelines region with
        | none =>
          rw [he] at hs
          simp only [hc, hs, he, if_false, Bool.false_eq_true] at h ⊢
          exact ⟨by rw [(ih h).1], by rw [(ih h).2]⟩
        | some e =>
          rw [he] at hs
          simp [hc, hs, he] at h

theorem preCheckLoop_calls_leading (t : Acctest) (l : List String) :
    ∃ rest, l = (preCheckLoop t l).calls ++ rest := by
  induction l with
  | nil => exact ⟨[], rfl⟩
  | cons region rest ih =>
    unfold preCheckLoop
    by_cases hc : HasError (t.ConfigureProvider region) = true
    · exact ⟨region :: rest, by simp [hc]⟩
    · by_cases hs : t.PreCheckSkipError (t.ListPipelines region) = true
      · exact ⟨rest, by simp [hc, hs]⟩
      · cases he : t.ListPipelines region with
        | none =>
          rw [he] at hs
          obtain ⟨r2, h2⟩ := ih
          refine ⟨r2, ?_⟩
          simp only [hc, hs, if_false, Bool.false_eq_true]
          show region :: rest = region :: ((preCheckLoop t rest).calls ++ r2)
          rw [← h2]
        | some e =>
          rw [he] at hs
          exact ⟨rest, by simp [hc, hs]⟩

theorem preCheckLoop_stops (t : Acctest) (hskip : t.PreCheckSkipError none = false)
    (pre : List String) (r : String) (post : List String)
    (hpre : ∀ x ∈ pre, HasError (t.ConfigureProvider x) = false ∧ t.ListPipelines x = none)
    (hr : HasError (t.ConfigureProvider r) = true ∨ t.ListPipelines r ≠ none) :
    (preCheckLoop t (pre ++ r :: post)).outcome ≠ TestEnd.returned ∧
    (preCheckLoop t (pre ++ r :: post)).configured = pre ++ [r] ∧
    (preCheckLoop t (pre ++ r :: post)).calls =
      if HasError (t.ConfigureProvider r) then pre else pre ++ [r] := by
  induction pre with
  | nil =>
    rw [List.nil_append]
    unfold preCheckLoop
    by_cases hc : HasError (t.ConfigureProvider r) = true
    · simp [hc]
    · rcases hr with hr | hr
      · exact absurd hr hc
      · cases he : t.ListPipelines r with
        | none => exact absurd he hr
        | some e =>
          by_cases hs : t.PreCheckSkipError (some e) = true
          · simp [hc, hs]
          · simp [hc, hs]
  | cons x rest ih =>
    have hx := hpre x (List.mem_cons_self _ _)
    have ih2 := ih (fun y hy => hpre y (List.mem_cons_of_mem _ hy))
    rw [List.cons_append]
    unfold preCheckLoop
    simp only [hx.1, hx.2, hskip, if_false, Bool.false_eq_true]
    refine ⟨ih2.1, ?_, ?_⟩
    · show x :: (preCheckLoop t (rest ++ r :: post)).configured = _
      rw [ih2.2.1]
      rfl
    · show x :: (preCheckLoop t (rest ++ r :: post)).calls = _
      rw [ih2.2.2]
      by_cases hc : HasError (t.ConfigureProvider r) = true
      · simp [hc]
      · simp [hc]

/-- C25: with `acctest.PreCheckSkipError` false on the nil error, `testAccPreCheck` returns
without ending the test exactly when, for each region passed and for the default region, the
client can be configured and `ListPipelines` returns no error; then `ListPipelines` was called
once for each region passed, in the order given, and then once for the default region. In
every case the regions called are a leading part of that list; at the first region that
fails the test is ended, with no call for that region when its client cannot be configured
and no call for any later region; with no region passed only the default region is
checked. -/
theorem precheck_calls_each_region (t : Acctest) (regions : List String)
    (hskip : t.PreCheckSkipError none = false) :
    ((testAccPreCheck t regions).outcome = TestEnd.returned ↔
      ∀ r ∈ regions ++ [t.Region],
        HasError (t.ConfigureProvider r) = false ∧ t.ListPipelines r = none) ∧
    ((testAccPreCheck t regions).outcome = TestEnd.returned →
      (testAccPreCheck t regions).calls = regions ++ [t.Region] ∧
      (testAccPreCheck t regions).calls.length = regions.length + 1) ∧
    (∃ rest, regions ++ [t.Region] = (testAccPreCheck t regions).calls ++ rest) ∧
    (∀ pre r post, regions ++ [t.Region] = pre ++ r :: post →
      (∀ x ∈ pre, HasError (t.ConfigureProvider x) = false ∧ t.ListPipelines x = none) →
      (HasError (t.ConfigureProvider r) = true ∨ t.ListPipelines r ≠ none) →
      (testAccPreCheck t regions).outcome ≠ TestEnd.returned ∧
      (testAccPreCheck t regions).configured = pre ++ [r] ∧
      (testAccPreCheck t regions).calls =
        if HasError (t.ConfigureProvider r) then pre else pre ++ [r]) ∧
    testAccPreCheck t [] = preCheckLoop t [t.Region] ∧
    (testAccPreCheck t []).calls =
      if HasError (t.ConfigureProvider t.Region) then [] else [t.Region] := by
  refine ⟨preCheckLoop_returned_iff t hskip _, ?_, preCheckLoop_calls_leading t _, ?_, rfl, ?_⟩
  · intro h
    have h2 : (testAccPreCheck t regions).calls = regions ++ [t.Region] :=
      (preCheckLoop_of_returned t _ h).1
    refine ⟨h2, ?_⟩
    rw [h2]
    simp
  · intro pre r post hsplit hpre hr
    unfold testAccPreCheck
    rw [hsplit]
    exact preCheckLoop_stops t hskip pre r post hpre hr
  · show (preCheckLoop t [t.Region]).calls = _
    unfold preCheckLoop
    by_cases hc : HasError (t.ConfigureProvider t.Region) = true
    · simp [hc]
    · by_cases hs : t.PreCheckSkipError (t.ListPipelines t.Region) = true
      · simp [hc, hs]
      · cases he : t.ListPipelines t.Region with
        | none =>
          rw [he] at hs
          simp [hc, hs, preCheckLoop]
        | some e =>
          rw [he] at hs
          simp [hc, hs]

/-- Witness of C25: the alternate region `us-east-1` and the default region `us-west-2` both
pass; a call that is denied in `eu-west-1` ends the test before the default region is
reached; a client that cannot be configured for `ap-south-1` ends it without a call there. -/
theorem precheck_calls_each_region_witness :
    sampleAcctest.PreCheckSkipError none = false ∧
    (testAccPreCheck sampleAcctest ["us-east-1"]).outcome = TestEnd.returned ∧
    (testAccPreCheck sampleAcctest ["us-east-1"]).calls = ["us-east-1", "us-west-2"] ∧
    (testAccPreCheck sampleAcctest []).calls = ["us-west-2"] ∧
    testAccPreCheck sampleAcctest ["us-east-1", "eu-west-1", "eu-west-2"] =
      { outcome := TestEnd.Fatalf "unexpected PreCheck error: AccessDenied",
        configured := ["us-east-1", "eu-west-1"], calls := ["us-east-1", "eu-west-1"] } ∧
    testAccPreCheck sampleAcctest ["us-east-1", "ap-south-1", "eu-west-2"] =
      { outcome := TestEnd.Fatalf "error getting AWS client for region ap-south-1",
        configured := ["us-east-1", "ap-south-1"], calls := ["us-east-1"] } ∧
    ((testAccPreCheck sampleAcctest ["us-east-1"]).outcome = TestEnd.returned ↔
      ∀ r ∈ ["us-east-1"] ++ [sampleAcctest.Region],
        HasError (sampleAcctest.ConfigureProvider r) = false ∧
        sampleAcctest.ListPipelines r = none) :=
  ⟨rfl, by decide, by decide, by decide, by decide, by decide,
   (precheck_calls_each_region sampleAcctest ["us-east-1"] rfl).1⟩

/-! ## Invariants of the fixtures -/

theorem stores_of_two_regions (d : PipelineResource) (b1 b2 : ArtifactStoreBlock)
    (hd : d.artifact_store = [b1, b2]) (h : b1.region ≠ b2.region) :
    storesOfRegion d b1.region = 1 ∧ storesOfRegion d b2.region = 1 := by
  have h1 : (b2.region == b1.region) = false := by simpa using Ne.symm h
  have h2 : (b1.region == b2.region) = false := by simpa using h
  unfold storesOfRegion
  rw [hd]
  simp [List.filter, h1, h2]

/-- C26: in the two multi-region fixtures, for every name and every two distinct region names,
the actions name, in order, no region, the primary region and the alternate region, and each
region an action names has exactly one `artifact_store` declared with it. -/
theorem multiregion_store_per_region (refs : References) (rName region alternateRegion : String)
    (h : region ≠ alternateRegion) :
    (actionRegions (testAccCodePipelineConfig_multiregion refs rName region alternateRegion) =
        ["", region, alternateRegion] ∧
      storesOfRegion (testAccCodePipelineConfig_multiregion refs rName region alternateRegion)
        region = 1 ∧
      storesOfRegion (testAccCodePipelineConfig_multiregion refs rName region alternateRegion)
        alternateRegion = 1 ∧
      ∀ r ∈ actionRegions
          (testAccCodePipelineConfig_multiregion refs rName region alternateRegion),
        r ≠ "" →
        storesOfRegion (testAccCodePipelineConfig_multiregion refs rName region alternateRegion)
          r = 1) ∧
    (actionRegions
        (testAccCodePipelineConfig_multiregionUpdated refs rName region alternateRegion) =
        ["", region, alternateRegion] ∧
      storesOfRegion
        (testAccCodePipelineConfig_multiregionUpdated refs rName region alternateRegion)
        region = 1 ∧
      storesOfRegion
        (testAccCodePipelineConfig_multiregionUpdated refs rName region alternateRegion)
        alternateRegion = 1 ∧
      ∀ r ∈ actionRegions
          (testAccCodePipelineConfig_multiregionUpdated refs rName region alternateRegion),
        r ≠ "" →
        storesOfRegion
          (testAccCodePipelineConfig_multiregionUpdated refs rName region alternateRegion)
          r = 1) := by
  have h1 := stores_of_two_regions
    (testAccCodePipelineConfig_multiregion refs rName region alternateRegion) _ _ rfl h
  have h2 := stores_of_two_regions
    (testAccCodePipelineConfig_multiregionUpdated refs rName region alternateRegion) _ _ rfl h
  refine ⟨⟨rfl, h1.1, h1.2, ?_⟩, ⟨rfl, h2.1, h2.2, ?_⟩⟩
  · intro r hr hne
    have hr2 : r ∈ ["", region, alternateRegion] := hr
    simp only [List.mem_cons, List.mem_singleton, List.mem_nil_iff, or_false] at hr2
    rcases hr2 with hr2 | hr2 | hr2
    · exact absurd hr2 hne
    · rw [hr2]
      exact h1.1
    · rw [hr2]
      exact h1.2
  · intro r hr hne
    have hr2 : r ∈ ["", region, alternateRegion] := hr
    simp only [List.mem_cons, List.mem_singleton, List.mem_nil_iff, or_false] at hr2
    rcases hr2 with hr2 | hr2 | hr2
    · exact absurd hr2 hne
    · rw [hr2]
      exact h2.1
    · rw [hr2]
      exact h2.2

/-- Witness of C26: the regions `us-west-2` and `us-east-1`. -/
theorem multiregion_store_per_region_witness :
    actionRegions (testAccCodePipelineConfig_multiregion sampleRefs "abc" "us-west-2"
      "us-east-1") = ["", "us-west-2", "us-east-1"] ∧
    storesOfRegion (testAccCodePipelineConfig_multiregion sampleRefs "abc" "us-west-2"
      "us-east-1") "us-west-2" = 1 ∧
    storesOfRegion (testAccCodePipelineConfig_multiregionUpdated sampleRefs "abc" "us-west-2"
      "us-east-1") "us-east-1" = 1 ∧
    storesOfRegion (testAccCodePipelineConfig_multiregion sampleRefs "abc" "us-west-2"
      "us-west-2") "us-west-2" = 2 :=
  ⟨(multiregion_store_per_region sampleRefs "abc" "us-west-2" "us-east-1" (by decide)).1.1,
   (multiregion_store_per_region sampleRefs "abc" "us-west-2" "us-east-1" (by decide)).1.2.1,
   (multiregion_store_per_region sampleRefs "abc" "us-west-2" "us-east-1" (by decide)).2.2.2.1,
   by decide⟩

theorem produced_of_inputsProduced (d : PipelineResource) (h : inputsProduced d = true)
    (i : Nat) (s : StageBlock) (a : ActionBlock) (n : String)
    (hs : d.stage.get? i = some s) (ha : a ∈ s.action) (hn : n ∈ a.input_artifacts)
    (hne : n ≠ "") : n ∈ earlierOutputs d i := by
  have hi : i < d.stage.length := by
    by_contra hlt
    rw [List.get?_eq_none.mpr (Nat.le_of_not_lt hlt)] at hs
    cases hs
  unfold inputsProduced at h
  rw [List.all_eq_true] at h
  have h1 := h i (List.mem_range.mpr hi)
  rw [hs] at h1
  simp only [] at h1
  unfold stageInputsProduced at h1
  rw [List.all_eq_true] at h1
  have h2 := h1 a ha
  rw [List.all_eq_true] at h2
  have h3 := h2 n hn
  have h4 : (n == "") = false := by simpa using hne
  rw [h4, Bool.false_or] at h3
  simpa using h3

theorem inputsProduced_fixtures (p : FixtureArguments) :
    ∀ d ∈ pipelineFixtures p, inputsProduced d = true := by
  intro d hd
  simp only [pipelineFixtures, List.mem_cons, List.mem_singleton, List.mem_nil_iff,
    or_false] at hd
  rcases hd with h | h | h | h | h | h | h | h | h | h | h | h | h | h | h <;>
    (rw [h]; rfl)

/-- C27, as stated, fails: in `testAccCodePipelineConfig_emptyStageArtifacts` the `Build`
action of the second stage lists `input_artifacts = ["test", ""]`, the only earlier stage has
the outputs `["test"]`, and so the entry `""` is in no `output_artifacts` of an earlier
stage. -/
theorem empty_input_entry_is_not_an_earlier_output :
    testAccCodePipelineConfig_emptyStageArtifacts sampleArguments.refs sampleArguments.rName ∈
      pipelineFixtures sampleArguments ∧
    (actionAt (testAccCodePipelineConfig_emptyStageArtifacts sampleRefs "abc") 1 0).map
      (fun a => a.input_artifacts) = some ["test", ""] ∧
    earlierOutputs (testAccCodePipelineConfig_emptyStageArtifacts sampleRefs "abc") 1 =
      ["test"] ∧
    ¬ (∀ d ∈ pipelineFixtures sampleArguments, ∀ i s a n,
        d.stage.get? i = some s → a ∈ s.action → n ∈ a.input_artifacts →
        n ∈ earlierOutputs d i) := by
  refine ⟨by decide, by decide, by decide, ?_⟩
  intro h
  have h1 := h (testAccCodePipelineConfig_emptyStageArtifacts sampleRefs "abc") (by decide) 1
    _ _ "" rfl (List.mem_singleton.mpr rfl) (by decide)
  revert h1
  decide

/-- C27, amended: in every pipeline fixture of the test file, for all arguments, every
non-empty name in the `input_artifacts` of an action is in the `output_artifacts` of an action
of an earlier stage. -/
theorem nonempty_inputs_are_earlier_outputs (p : FixtureArguments) :
    ∀ d ∈ pipelineFixtures p, ∀ i s a n,
      d.stage.get? i = some s → a ∈ s.action → n ∈ a.input_artifacts → n ≠ "" →
      n ∈ earlierOutputs d i := by
  intro d hd i s a n hs ha hn hne
  exact produced_of_inputsProduced d (inputsProduced_fixtures p d hd) i s a n hs ha hn hne

/-- Witness of the amended C27: the input `test` of the `Build` action of
`testAccCodePipelineConfig_emptyStageArtifacts`, and the input `artifacts2` of the `Deploy`
stage of `testAccCodePipelineConfig_deployServiceRole`. -/
theorem nonempty_inputs_are_earlier_outputs_witness :
    "test" ∈ earlierOutputs (testAccCodePipelineConfig_emptyStageArtifacts sampleRefs "abc") 1 ∧
    "artifacts2" ∈
      earlierOutputs (testAccCodePipelineConfig_deployServiceRole sampleRefs "abc") 2 ∧
    earlierOutputs (testAccCodePipelineConfig_deployServiceRole sampleRefs "abc") 2 =
      ["artifacts", "artifacts2"] :=
  ⟨nonempty_inputs_are_earlier_outputs sampleArguments
      (testAccCodePipelineConfig_emptyStageArtifacts sampleRefs "abc") (by decide) 1 _ _ "test"
      rfl (List.mem_singleton.mpr rfl) (by decide) (by decide),
   nonempty_inputs_are_earlier_outputs sampleArguments
      (testAccCodePipelineConfig_deployServiceRole sampleRefs "abc") (by decide) 2 _ _
      "artifacts2" rfl (List.mem_singleton.mpr rfl) (by decide) (by decide),
   by decide⟩

theorem build_ne_region_build (alt : String) : "Build" ≠ alt ++ "-Build" := by
  intro h
  have h2 := congrArg String.length h
  rw [String.length_append] at h2
  have h3 : "Build".length = 5 := by decide
  have h4 : "-Build".length = 6 := by decide
  omega

theorem buildUpdated_ne_region_buildUpdated (alt : String) :
    "BuildUpdated" ≠ alt ++ "-BuildUpdated" := by
  intro h
  have h2 := congrArg String.length h
  rw [String.length_append] at h2
  have h3 : "BuildUpdated".length = 12 := by decide
  have h4 : "-BuildUpdated".length = 13 := by decide
  omega

/-- C28: in every pipeline fixture of the test file, for all arguments, the stage names are
pairwise distinct and so are the action names of each stage; in the two multi-region fixtures
the second stage has the actions `Build` and `<alternate-region>-Build` (with `Updated`
appended in the updated fixture), which differ for every region string. -/
theorem stage_and_action_names_distinct (p : FixtureArguments) :
    (∀ d ∈ pipelineFixtures p,
      (stageNameList d).Nodup ∧ ∀ s ∈ d.stage, (actionNameList s).Nodup) ∧
    (∀ alt : String, "Build" ≠ alt ++ "-Build" ∧ "BuildUpdated" ≠ alt ++ "-BuildUpdated") ∧
    (testAccCodePipelineConfig_multiregion p.refs p.rName p.region p.alternateRegion).stage.map
        actionNameList = [["Source"], ["Build", p.alternateRegion ++ "-Build"]] ∧
    (testAccCodePipelineConfig_multiregionUpdated p.refs p.rName p.region
        p.alternateRegion).stage.map actionNameList =
      [["Source"], ["BuildUpdated", p.alternateRegion ++ "-BuildUpdated"]] := by
  have hb := build_ne_region_build p.alternateRegion
  have hu := buildUpdated_ne_region_buildUpdated p.alternateRegion
  refine ⟨?_, fun alt => ⟨build_ne_region_build alt, buildUpdated_ne_region_buildUpdated alt⟩,
    rfl, rfl⟩
  intro d hd
  simp only [pipelineFixtures, List.mem_cons, List.mem_singleton, List.mem_nil_iff,
    or_false] at hd
  rcases hd with h | h | h | h | h | h | h | h | h | h | h | h | h | h | h <;>
    (rw [h]
     simp [stageNameList, actionNameList, testAccCodePipelineConfig_basic,
       testAccCodePipelineConfig_basicUpdated, testAccCodePipelineConfig_pipelinetype,
       testAccCodePipelineConfig_pipelinetypeUpdated,
       testAccCodePipelineConfig_emptyStageArtifacts,
       testAccCodePipelineConfig_deployServiceRole, testAccCodePipelineConfig_tags1,
       testAccCodePipelineConfig_tags2, testAccCodePipelineConfig_multiregion,
       testAccCodePipelineConfig_multiregionUpdated, testAccCodePipelineConfig_backToBasic,
       testAccCodePipelineConfig_namespace, testAccCodePipelineConfig_gitHubv1SourceAction,
       testAccCodePipelineConfig_gitHubv1SourceActionUpdated, testAccCodePipelineConfig_ecr,
       hb, hu])

/-- Witness of C28: the names of `testAccCodePipelineConfig_multiregion` for the alternate
region `us-east-1`, and those of `testAccCodePipelineConfig_deployServiceRole`. -/
theorem stage_and_action_names_distinct_witness :
    ((stageNameList (testAccCodePipelineConfig_multiregion sampleRefs "abc" "us-west-2"
        "us-east-1")).Nodup ∧
      ∀ s ∈ (testAccCodePipelineConfig_multiregion sampleRefs "abc" "us-west-2"
        "us-east-1").stage, (actionNameList s).Nodup) ∧
    (testAccCodePipelineConfig_multiregion sampleRefs "abc" "us-west-2" "us-east-1").stage.map
      actionNameList = [["Source"], ["Build", "us-east-1-Build"]] ∧
    stageNameList (testAccCodePipelineConfig_deployServiceRole sampleRefs "abc") =
      ["Source", "Build", "Deploy"] :=
  ⟨(stage_and_action_names_distinct sampleArguments).1 _ (by decide), by decide, by decide⟩

/-! ## The stages read back after an update -/

theorem lookup_setOAuthToken_other (t : String) (l : List (String × String)) (k : String)
    (hk : k ≠ "OAuthToken") : (setOAuthToken t l).lookup k = l.lookup k := by
  unfold setOAuthToken
  induction l with
  | nil => rfl
  | cons a rest ih =>
    obtain ⟨a1, a2⟩ := a
    by_cases h1 : a1 = "OAuthToken"
    · subst h1
      have h2 : (k == "OAuthToken") = false := by simpa using hk
      rw [List.map_cons]
      simp only [BEq.refl, if_true]
      rw [List.lookup_cons, List.lookup_cons, h2]
      exact ih
    · have h3 : (a1 == "OAuthToken") = false := by simpa using h1
      rw [List.map_cons]
      simp only [h3, Bool.false_eq_true, if_false]
      rw [List.lookup_cons, List.lookup_cons]
      cases k == a1 with
      | true => rfl
      | false => exact ih

theorem keys_setOAuthToken (t : String) (l : List (String × String)) :
    (setOAuthToken t l).map Prod.fst = l.map Prod.fst := by
  unfold setOAuthToken
  induction l with
  | nil => rfl
  | cons a rest ih =>
    rw [List.map_cons, List.map_cons, List.map_cons, ih]
    by_cases h1 : (a.1 == "OAuthToken") = true
    · simp only [h1, if_true]
    · simp only [h1, if_false, Bool.false_eq_true]

theorem setOAuthToken_of_lookup_none (t : String) (l : List (String × String))
    (h : l.lookup "OAuthToken" = none) : setOAuthToken t l = l := by
  unfold setOAuthToken
  induction l with
  | nil => rfl
  | cons a rest ih =>
    obtain ⟨a1, a2⟩ := a
    by_cases h1 : a1 = "OAuthToken"
    · subst h1
      simp [List.lookup] at h
    · have h2 : ("OAuthToken" == a1) = false := by simpa using Ne.symm h1
      have h3 : (a1 == "OAuthToken") = false := by simpa using h1
      simp only [List.lookup, h2] at h
      rw [List.map_cons, ih h]
      simp only [h3, Bool.false_eq_true, if_false]

/-- An action of the desired attributes as the read gives it back, attribute by attribute. -/
theorem flatten_expand_action (d : PipelineResource) (m : String) (i j : Nat) (a : ActionBlock)
    (h : actionAt d i j = some a) :
    ∃ a2, a2 = flattenActionDeclaration d i j
        { expandActionDeclaration a with
          Configuration := maskConfiguration m (expandActionDeclaration a).Configuration } ∧
      a2.name = a.name ∧ a2.category = a.category ∧ a2.owner = a.owner ∧
      a2.provider = a.provider ∧ a2.version = a.version ∧
      a2.input_artifacts = a.input_artifacts.filter (fun n => n != "") ∧
      a2.output_artifacts = a.output_artifacts.filter (fun n => n != "") ∧
      a2.run_order = (if a.run_order = 0 then 1 else a.run_order) ∧
      a2.region = a.region ∧ a2.namespace_ = a.namespace_ ∧ a2.role_arn = a.role_arn ∧
      a2.configuration.map Prod.fst = a.configuration.map Prod.fst ∧
      (∀ k, a.provider = "GitHub" ∨ k ≠ "OAuthToken" →
        a2.configuration.lookup k = a.configuration.lookup k) ∧
      (a.configuration.lookup "OAuthToken" = none → a2.configuration = a.configuration) := by
  refine ⟨_, rfl, rfl, rfl, rfl, rfl, rfl, rfl, rfl, ?_, ?_, ?_, ?_, ?_, ?_, ?_⟩
  · show (if a.run_order == 0 then none else some a.run_order).getD 1 = _
    by_cases h0 : a.run_order = 0
    · simp [h0]
    · simp [h0]
  · exact getD_optionalString a.region
  · exact getD_optionalString a.namespace_
  · exact getD_optionalString a.role_arn
  · unfold flattenActionDeclaration
    simp only []
    by_cases hg : (a.provider == "GitHub") = true
    · have hg2 : ((expandActionDeclaration a).Provider == "GitHub") = true := hg
      simp only [hg2, if_true]
      unfold maskConfiguration
      rw [keys_setOAuthToken, keys_setOAuthToken]
      rfl
    · have hg2 : ((expandActionDeclaration a).Provider == "GitHub") = false := by
        simpa using hg
      simp only [hg2, if_false, Bool.false_eq_true]
      unfold maskConfiguration
      rw [keys_setOAuthToken]
      rfl
  · intro k hk
    unfold flattenActionDeclaration
    simp only []
    by_cases hg : (a.provider == "GitHub") = true
    · have hg2 : ((expandActionDeclaration a).Provider == "GitHub") = true := hg
      simp only [hg2, if_true]
      by_cases hkt : k = "OAuthToken"
      · subst hkt
        rw [lookup_setOAuthToken, priorOAuthToken_eq, h]
        simp only []
        unfold maskConfiguration
        rw [lookup_setOAuthToken]
        show Option.map _ (Option.map _ (a.configuration.lookup "OAuthToken")) = _
        cases a.configuration.lookup "OAuthToken" with
        | none => rfl
        | some w => rfl
      · unfold maskConfiguration
        rw [lookup_setOAuthToken_other _ _ _ hkt, lookup_setOAuthToken_other _ _ _ hkt]
        rfl
    · have hg2 : ((expandActionDeclaration a).Provider == "GitHub") = false := by
        simpa using hg
      have hgp : a.provider ≠ "GitHub" := by simpa using hg
      simp only [hg2, if_false, Bool.false_eq_true]
      rcases hk with hk | hk
      · exact absurd hk hgp
      · unfold maskConfiguration
        rw [lookup_setOAuthToken_other _ _ _ hk]
        rfl
  · intro hnone
    unfold flattenActionDeclaration
    simp only []
    have hm : maskConfiguration m (expandActionDeclaration a).Configuration = a.configuration :=
      setOAuthToken_of_lookup_none m a.configuration hnone
    rw [hm]
    by_cases hg : ((expandActionDeclaration a).Provider == "GitHub") = true
    · simp only [hg, if_true]
      exact setOAuthToken_of_lookup_none _ _ hnone
    · simp only [hg, if_false, Bool.false_eq_true]

theorem filter_nonempty_of_not_mem (l : List String) (h : "" ∉ l) :
    l.filter (fun n => n != "") = l := by
  induction l with
  | nil => rfl
  | cons a t ih =>
    have ha : a ≠ "" := fun hc => h (by rw [hc]; exact List.mem_cons_self _ _)
    have hb : (a != "") = true := by simpa using ha
    rw [List.filter_cons]
    simp only [hb, if_true]
    rw [ih (fun hm => h (List.mem_cons_of_mem _ hm))]

theorem actions_eq_of_get (x y : List ActionBlock)
    (hn : x.map (fun a => a.name) = y.map (fun a => a.name))
    (h : ∀ j a, y.get? j = some a → x.get? j = some a) : x = y := by
  have hlen : x.length = y.length := by
    have h2 := congrArg List.length hn
    simpa using h2
  apply List.ext_get?
  intro j
  cases hy : y.get? j with
  | some a => exact h j a hy
  | none =>
    rw [List.get?_eq_none] at hy ⊢
    omega

theorem stages_eq_of_get (s1 s2 : List StageBlock) (hn : stageNames s1 = stageNames s2)
    (h : ∀ i j a,
      (match s2.get? i with
        | none => none
        | some s => s.action.get? j) = some a →
      (match s1.get? i with
        | none => none
        | some s => s.action.get? j) = some a) : s1 = s2 := by
  induction s1 generalizing s2 with
  | nil =>
    cases s2 with
    | nil => rfl
    | cons y ys => simp [stageNames] at hn
  | cons x xs ih =>
    cases s2 with
    | nil => simp [stageNames] at hn
    | cons y ys =>
      have hn2 : (x.name, x.action.map (fun a => a.name)) =
          (y.name, y.action.map (fun a => a.name)) ∧ stageNames xs = stageNames ys := by
        unfold stageNames at hn ⊢
        rw [List.map_cons, List.map_cons] at hn
        exact ⟨(List.cons.inj hn).1, (List.cons.inj hn).2⟩
      obtain ⟨hxy, htail⟩ := hn2
      have hname : x.name = y.name := (Prod.mk.inj hxy).1
      have hact : x.action = y.action :=
        actions_eq_of_get x.action y.action (Prod.mk.inj hxy).2 (fun j a ha => h 0 j a ha)
      have hrest : xs = ys := ih ys htail (fun i j a ha => h (i + 1) j a ha)
      have hx : x = y := by
        cases x
        cases y
        simp only [] at hname hact
        rw [hname, hact]
      rw [hx, hrest]

/-- C5, as stated, fails on the modelled handlers: in the second step of
`TestAccCodePipeline_MultiRegion_convertSingleRegion` the update returns no error and sends the
declaration, the desired second action of the `Build` stage omits `run_order`, it reads back
with `run_order` 1, and the stages read back are not the desired list; and in an update to
`testAccCodePipelineConfig_emptyStageArtifacts` the desired `input_artifacts` `["test", ""]`
read back as `["test"]`. -/
theorem read_back_stages_differ_from_desired :
    convertedToMultiregion =
      resourcePipelineUpdate createdBasic.vendor createdBasic.d multiregionPlanned ∧
    multiregionPlanned.id = multiregionPlanned.name ∧
    createdBasic.d.stage ≠ multiregionPlanned.stage ∧
    HasError convertedToMultiregion.diags = false ∧
    Call.UpdatePipeline (expandPipelineDeclaration multiregionPlanned) ∈
      convertedToMultiregion.calls ∧
    (actionAt multiregionPlanned 1 1).map (fun a => a.run_order) = some 0 ∧
    (actionAt convertedToMultiregion.d 1 1).map (fun a => a.run_order) = some 1 ∧
    convertedToMultiregion.d.stage ≠ multiregionPlanned.stage ∧
    HasError updatedToEmptyStageArtifacts.diags = false ∧
    createdBasic.d.stage ≠ emptyStageArtifactsPlanned.stage ∧
    (actionAt emptyStageArtifactsPlanned 1 0).map (fun a => a.input_artifacts) =
      some ["test", ""] ∧
    (actionAt updatedToEmptyStageArtifacts.d 1 0).map (fun a => a.input_artifacts) =
      some ["test"] ∧
    updatedToEmptyStageArtifacts.d.stage ≠ emptyStageArtifactsPlanned.stage := by
  refine ⟨by decide, by decide, by decide, by decide, by decide, by decide, by decide,
    by decide, by decide, by decide, by decide, by decide, by decide⟩

/-- C5, amended (on the modelled update handler): an update whose desired stages differ from
the recorded ones, and that returns no error, issues `UpdatePipeline` with the complete
declaration of the desired attributes and with no other declaration; the vendor then holds
exactly that declaration under the name; the stages read back have the desired names and
action names in the desired order, and every desired action is read back at its place
attribute by attribute, except that an omitted `run_order` reads back as 1 and empty artifact
names are left out; its configuration has the desired keys in order and agrees on every key,
with `OAuthToken` compared for `GitHub` actions only. Where no desired action omits
`run_order`, lists an empty artifact name or has an `OAuthToken`, the stages read back equal
the desired list. -/
theorem update_sends_complete_declaration (v : Vendor) (old d : PipelineResource)
    (hid : d.id = d.name) (hchg : old.stage ≠ d.stage)
    (hok : HasError (resourcePipelineUpdate v old d).diags = false) :
    Call.UpdatePipeline (expandPipelineDeclaration d) ∈ (resourcePipelineUpdate v old d).calls ∧
    (∀ p, Call.UpdatePipeline p ∈ (resourcePipelineUpdate v old d).calls →
      p = expandPipelineDeclaration d) ∧
    ((resourcePipelineUpdate v old d).vendor.find d.name).map (fun q => q.declaration) =
      some (expandPipelineDeclaration d) ∧
    (resourcePipelineUpdate v old d).d.stage =
      flattenStageDeclarations d 0
        (maskDeclaration v.secretMask (expandPipelineDeclaration d)).Stages ∧
    stageNames (resourcePipelineUpdate v old d).d.stage = stageNames d.stage ∧
    (∀ i j a, actionAt d i j = some a →
      ∃ a2, actionAt (resourcePipelineUpdate v old d).d i j = some a2 ∧
        a2.name = a.name ∧ a2.category = a.category ∧ a2.owner = a.owner ∧
        a2.provider = a.provider ∧ a2.version = a.version ∧
        a2.input_artifacts = a.input_artifacts.filter (fun n => n != "") ∧
        a2.output_artifacts = a.output_artifacts.filter (fun n => n != "") ∧
        a2.run_order = (if a.run_order = 0 then 1 else a.run_order) ∧
        a2.region = a.region ∧ a2.namespace_ = a.namespace_ ∧ a2.role_arn = a.role_arn ∧
        a2.configuration.map Prod.fst = a.configuration.map Prod.fst ∧
        (∀ k, a.provider = "GitHub" ∨ k ≠ "OAuthToken" →
          a2.configuration.lookup k = a.configuration.lookup k)) ∧
    ((∀ i j a, actionAt d i j = some a →
        a.run_order ≠ 0 ∧ "" ∉ a.input_artifacts ∧ "" ∉ a.output_artifacts ∧
        a.configuration.lookup "OAuthToken" = none) →
      (resourcePipelineUpdate v old d).d.stage = d.stage) := by
  have hc := stage_ne_declarationChanged old d hchg
  obtain ⟨sp, sp2, tags, _, hv, _, hd⟩ := update_result v old d hid hc hok
  obtain ⟨v1, v2, calls1, calls2, hstep, htags, heq⟩ := update_steps v old d hok
  have hcalls1 : calls1 = [Call.UpdatePipeline (expandPipelineDeclaration d)] := by
    rcases hstep with ⟨_, _, h⟩ | ⟨h, _, _⟩
    · exact h
    · rw [h] at hc
      cases hc
  have hcalls : (resourcePipelineUpdate v old d).calls =
      calls1 ++ calls2 ++ (resourcePipelineRead v2 d).calls := by rw [heq]
  have hc2 : calls2 = (updateTags v1 d.arn old.tags d.tags).2 := by rw [htags]
  have hstage : (resourcePipelineUpdate v old d).d.stage =
      flattenStageDeclarations d 0
        (maskDeclaration v.secretMask (expandPipelineDeclaration d)).Stages := by rw [hd]
  have hnames : stageNames (resourcePipelineUpdate v old d).d.stage = stageNames d.stage := by
    rw [hstage]
    exact names_read_back d d v.secretMask
  have hat : ∀ i j a, actionAt d i j = some a →
      actionAt (resourcePipelineUpdate v old d).d i j = some (flattenActionDeclaration d i j
        { expandActionDeclaration a with
          Configuration := maskConfiguration v.secretMask
            (expandActionDeclaration a).Configuration }) :=
    fun i j a ha => actionAt_flatten d d _ v.secretMask i j a ha hstage
  refine ⟨?_, ?_, ?_, hstage, hnames, ?_, ?_⟩
  · rw [hcalls, hcalls1]
    simp
  · intro p hp
    rw [hcalls, hcalls1] at hp
    simp only [List.mem_append, List.mem_singleton] at hp
    rcases hp with (hp | hp) | hp
    · injection hp
    · rw [hc2] at hp
      rcases updateTags_calls _ _ _ _ _ hp with h | h <;> cases h
    · rcases read_calls _ _ _ hp with h | ⟨a, h⟩ <;> cases h
  · rw [hv]
    rfl
  · intro i j a ha
    obtain ⟨a2, ha2, h1, h2, h3, h4, h5, h6, h7, h8, h9, h10, h11, h12, h13, _⟩ :=
      flatten_expand_action d v.secretMask i j a ha
    refine ⟨a2, ?_, h1, h2, h3, h4, h5, h6, h7, h8, h9, h10, h11, h12, h13⟩
    rw [ha2]
    exact hat i j a ha
  · intro hfull
    apply stages_eq_of_get _ _ hnames
    intro i j a ha
    have ha1 : actionAt d i j = some a := ha
    obtain ⟨hro, hin, hout, htok⟩ := hfull i j a ha1
    obtain ⟨a2, ha2, h1, h2, h3, h4, h5, h6, h7, h8, h9, h10, h11, _, _, h14⟩ :=
      flatten_expand_action d v.secretMask i j a ha1
    have heq2 : a2 = a := by
      rw [filter_nonempty_of_not_mem a.input_artifacts hin] at h6
      rw [filter_nonempty_of_not_mem a.output_artifacts hout] at h7
      rw [if_neg hro] at h8
      have h15 := h14 htok
      cases a2
      cases a
      simp only [] at h1 h2 h3 h4 h5 h6 h7 h8 h9 h10 h11 h15
      rw [h1, h2, h3, h4, h5, h6, h7, h8, h9, h10, h11, h15]
    have h16 := hat i j a ha1
    rw [← ha2, heq2] at h16
    exact h16

/-- Witness of the amended C5: the step from `testAccCodePipelineConfig_basic` to
`testAccCodePipelineConfig_basicUpdated`, in which every desired action has its `run_order`
from the state and the stages read back equal the desired list. -/
theorem update_sends_complete_declaration_witness :
    basicUpdatedPlanned.id = basicUpdatedPlanned.name ∧
    basicState.stage ≠ basicUpdatedPlanned.stage ∧
    HasError (resourcePipelineUpdate createdBasic.vendor basicState basicUpdatedPlanned).diags
      = false ∧
    Call.UpdatePipeline (expandPipelineDeclaration basicUpdatedPlanned) ∈
      (resourcePipelineUpdate createdBasic.vendor basicState basicUpdatedPlanned).calls ∧
    (∀ p, Call.UpdatePipeline p ∈
        (resourcePipelineUpdate createdBasic.vendor basicState basicUpdatedPlanned).calls →
      p = expandPipelineDeclaration basicUpdatedPlanned) ∧
    ((resourcePipelineUpdate createdBasic.vendor basicState basicUpdatedPlanned).vendor.find
        basicUpdatedPlanned.name).map (fun q => q.declaration) =
      some (expandPipelineDeclaration basicUpdatedPlanned) ∧
    stageNames (resourcePipelineUpdate createdBasic.vendor basicState basicUpdatedPlanned).d.stage
      = stageNames basicUpdatedPlanned.stage ∧
    (resourcePipelineUpdate createdBasic.vendor basicState basicUpdatedPlanned).calls =
      [Call.UpdatePipeline (expandPipelineDeclaration basicUpdatedPlanned),
       Call.GetPipeline "test-pipeline-abc",
       Call.ListTagsForResource
         "arn:aws:codepipeline:us-west-2:123456789012:test-pipeline-abc"] ∧
    (resourcePipelineUpdate createdBasic.vendor basicState basicUpdatedPlanned).d.stage =
      basicUpdatedPlanned.stage ∧
    stageNames (resourcePipelineUpdate createdBasic.vendor basicState basicUpdatedPlanned).d.stage
      = [("Source", ["Source"]), ("Build", ["Build"])] ∧
    stageArtifacts (resourcePipelineUpdate createdBasic.vendor basicState basicUpdatedPlanned).d.stage
      = [[([], ["artifacts"])], [(["artifacts"], [])]] :=
  ⟨by decide, by decide, by decide,
   (update_sends_complete_declaration createdBasic.vendor basicState basicUpdatedPlanned
     (by decide) (by decide) (by decide)).1,
   (update_sends_complete_declaration createdBasic.vendor basicState basicUpdatedPlanned
     (by decide) (by decide) (by decide)).2.1,
   (update_sends_complete_declaration createdBasic.vendor basicState basicUpdatedPlanned
     (by decide) (by decide) (by decide)).2.2.1,
   (update_sends_complete_declaration createdBasic.vendor basicState basicUpdatedPlanned
     (by decide) (by decide) (by decide)).2.2.2.2.1,
   by decide, by decide, by decide, by decide⟩

end CodePipeline
